import Mathlib

/-! RDMA ping/pong (rpp, rpp_e, rpp_h): a shallow embedding

The three C programs of the repository drive the `librdmacm` API.  The
programs are embedded as *interaction trees*: a value of `Prog α` is the
program text with every external call left uninterpreted.  Two interpreters
are given:

* `exec` runs one side against an arbitrary sequence of call outcomes and
  returns the call trace together with the result;
* `Fabric.run` (further down) runs an initiator and a responder against each
  other over a model of the reliable connection.

`DEBUG_LOG` tracing (guarded by the `debug` flag) is not part of the model;
`perror`, `fprintf(stderr, ..)` and the unconditional `printf`s are.
-/

namespace RDMA

/-! ## Data model -/

/-- The wire descriptor `struct rpp_rdma_info`. -/
structure rpp_rdma_info where
  /-- The `uint64_t buf` field. -/
  buf : Nat
  /-- The `uint32_t rkey` field. -/
  rkey : Nat
  /-- The `uint32_t size` field. -/
  size : Nat
deriving DecidableEq, Repr

/-- The constant `#define DATA_SIZE 4096`. -/
def DATA_SIZE : Nat := 4096

/-- The value of `sizeof(struct rpp_rdma_info)`: 8 + 4 + 4 bytes. -/
def sizeof_rpp_rdma_info : Nat := 16

/-- The part of `struct ibv_mr` the programs look at: the identity of the
registration and its remote key. -/
structure ibv_mr where
  /-- Identity of the registration (the pointer value). -/
  handle : Nat
  /-- The `rkey` field. -/
  rkey : Nat
deriving DecidableEq, Repr

/-- A connection identifier `struct rdma_cm_id *` (the pointer value). -/
abbrev rdma_cm_id := Nat

/-- The four buffers a connection registers with the adapter. -/
inductive Buf where
  | recv_buf
  | send_buf
  | read_data
  | write_data
deriving DecidableEq, Repr

/-- Contents of the four registered buffers.  The data buffers are byte
lists. -/
structure Mem where
  /-- Contents of `recv_buf`. -/
  recv_buf : rpp_rdma_info
  /-- Contents of `send_buf`. -/
  send_buf : rpp_rdma_info
  /-- Contents of `read_data`. -/
  read_data : List Nat
  /-- Contents of `write_data`. -/
  write_data : List Nat
deriving DecidableEq, Repr

/-- Addresses of the two data buffers, as seen through `(uint64_t)read_data`
and `(uint64_t)write_data` (a pointer is 64 bits wide, so the cast keeps the
value). -/
structure Layout where
  /-- Address of `read_data`. -/
  read_data : Nat
  /-- Address of `write_data`. -/
  write_data : Nat
deriving DecidableEq, Repr

/-- External calls, with the arguments that vary between call sites. -/
inductive Call where
  | rdma_create_event_channel
  | rdma_destroy_event_channel (ch : Option Nat)
  | rdma_getaddrinfo (passive : Bool)
  | rdma_create_ep (max_send_wr max_recv_wr max_recv_sge max_send_sge sq_sig_all : Nat)
  | rdma_create_id
  | rdma_bind_addr
  | rdma_listen (backlog : Nat)
  | rdma_get_request
  | rdma_get_cm_event
  | rdma_ack_cm_event
  | rdma_migrate_id (id : Option rdma_cm_id)
  | pthread_create (id : Option rdma_cm_id)
  | pthread_detach
  | sigaction
  | malloc (size : Nat)
  | free (p : Nat)
  | rdma_resolve_addr (timeout_ms : Nat)
  | rdma_resolve_route (timeout_ms : Nat)
  | rdma_create_qp (max_send_wr max_recv_wr max_recv_sge max_send_sge sq_sig_all : Nat)
  | rdma_reg_msgs (b : Buf) (length : Nat)
  | rdma_reg_read (b : Buf) (length : Nat)
  | rdma_reg_write (b : Buf) (length : Nat)
  | rdma_dereg_mr (mr : Option ibv_mr)
  | rdma_post_recv (b : Buf) (length : Nat) (mr : Option ibv_mr)
  | rdma_accept
  | rdma_connect
  | rdma_get_recv_comp
  | rdma_get_send_comp
  | rdma_post_send (b : Buf) (length : Nat) (mr : Option ibv_mr)
  | rdma_post_read (b : Buf) (length : Nat) (mr : Option ibv_mr) (raddr rkey : Nat)
  | rdma_post_write (b : Buf) (length : Nat) (mr : Option ibv_mr) (raddr rkey : Nat)
  | rdma_destroy_qp (id : Option rdma_cm_id)
  | rdma_destroy_id (id : Option rdma_cm_id)
deriving DecidableEq, Repr

/-- What an external call hands back.  Each call site reads only the fields
that its C prototype provides. -/
structure Answer where
  /-- The `int` return value (for a completion wait: the completion count). -/
  ret : Int
  /-- Pointer result of a registration; `none` is `NULL`. -/
  mr : Option ibv_mr
  /-- Pointer result or out-parameter (`*id`, `event->id`, `malloc`, channel). -/
  ptr : Option Nat
  /-- The `event->status` field of a fetched event. -/
  status : Int
  /-- The `event->event` field of a fetched event. -/
  event : Int
  /-- Whether a `SIGINT` was handled while the call was in progress. -/
  sigint : Bool
  /-- Contents of the registered buffers when the call returns. -/
  mem : Mem
deriving DecidableEq, Repr

/-- Lines written to stdout and stderr. -/
inductive Out where
  | perror (c : String)
  | fprintf_stderr (c : String)
  | printf_remote (rkey raddr rlen : Nat)
  | printf_read_data (data : List Nat)
  | printf_write_data (data : List Nat)
  | printf_done
  | usage
deriving DecidableEq, Repr

/-! ## Programs as interaction trees -/

/-- A program with its external calls left open.  `ext c m k` performs call
`c` while the registered buffers hold `m` and continues with `k` on the
answer; `fault` is a null-pointer dereference. -/
inductive Prog (α : Type) where
  | ret : α → Prog α
  | fault : Prog α
  | out : Out → Prog α → Prog α
  | ext : Call → Mem → (Answer → Prog α) → Prog α

/-- Sequencing of interaction trees. -/
def Prog.bind {α β : Type} : Prog α → (α → Prog β) → Prog β
  | .ret a, f => f a
  | .fault, _ => .fault
  | .out o p, f => .out o (p.bind f)
  | .ext c m k, f => .ext c m (fun a => (k a).bind f)

instance : Monad Prog where
  pure := Prog.ret
  bind := Prog.bind

/-- One entry of a trace. -/
inductive Event where
  | call (c : Call) (m : Mem) (a : Answer)
  | out (o : Out)
deriving DecidableEq, Repr

/-- Outcomes of the external calls of a run: the answer to the `n`-th call. -/
abbrev World := Nat → Answer

/-- Where a run stands: the number of external calls made so far and the
events so far, the most recent one first. -/
structure Log where
  /-- Number of external calls made so far. -/
  n : Nat
  /-- The events so far, the most recent one first. -/
  rev : List Event
deriving DecidableEq, Repr

/-- The events of a log in the order in which they happened. -/
def Log.trace (l : Log) : List Event := l.rev.reverse

/-- The empty log, with which every run starts. -/
def Log.start : Log := ⟨0, []⟩

/-- Run a program against the outcomes `w`, continuing the log `l`: the next
call is answered by `w l.n`.  The result is `none` when the program faulted. -/
def exec {α : Type} : Prog α → World → Log → Log × Option α
  | .ret a, _, l => (l, some a)
  | .fault, _, l => (l, none)
  | .out o p, w, l => exec p w ⟨l.n, Event.out o :: l.rev⟩
  | .ext c m k, w, l => exec (k (w l.n)) w ⟨l.n + 1, Event.call c m (w l.n) :: l.rev⟩

/-- Programs over a store of program variables `σ`. -/
def M (σ α : Type) : Type := σ → Prog (α × σ)

instance {σ : Type} : Monad (M σ) where
  pure a := fun s => Prog.ret (a, s)
  bind x f := fun s => (x s).bind (fun p => f p.1 p.2)

instance {σ : Type} : MonadStateOf σ (M σ) where
  get := fun s => Prog.ret (s, s)
  set s := fun _ => Prog.ret ((), s)
  modifyGet f := fun s => Prog.ret (f s)

/-- Write a line to stdout or stderr. -/
def emit {σ : Type} (o : Out) : M σ Unit := fun s => Prog.out o (Prog.ret ((), s))

/-- Continue a run with the program `f` unless it faulted. -/
def thenExec {σ α β : Type} (r : Log × Option (α × σ)) (f : α → M σ β) (w : World) :
    Log × Option (β × σ) :=
  match r.2 with
  | none => (r.1, none)
  | some x => exec (f x.1 x.2) w r.1

/-- A null-pointer dereference. -/
def crash {σ α : Type} : M σ α := fun _ => Prog.fault

/-- The C expression `p->rkey`. -/
def deref_rkey {σ : Type} : Option ibv_mr → M σ Nat
  | some mr => pure mr.rkey
  | none => crash

/-- The C string held at the start of a byte buffer: the bytes before the
first NUL. -/
def cstring : List Nat → List Nat
  | [] => []
  | b :: bs => if b = 0 then [] else b :: cstring bs

/-- The C call `strcpy(dst, src)` for a literal `src`: the bytes of `src` and
the terminating NUL overwrite the start of `dst`. -/
def strcpy (dst : List Nat) (src : List Nat) : List Nat :=
  (src ++ [0]) ++ dst.drop (src.length + 1)

/-! ## rpp.c -/

namespace rpp

/-- The file-scope variables of rpp.c. -/
structure Globals where
  /-- The flag `server`. -/
  server : Int
  /-- The buffers `recv_buf`, `send_buf`, `read_data`, `write_data`. -/
  mem : Mem
  /-- The pointer `recv_mr`. -/
  recv_mr : Option ibv_mr
  /-- The pointer `send_mr`. -/
  send_mr : Option ibv_mr
  /-- The pointer `read_mr`. -/
  read_mr : Option ibv_mr
  /-- The pointer `write_mr`. -/
  write_mr : Option ibv_mr
  /-- The variable `rkey`. -/
  rkey : Nat
  /-- The variable `raddr`. -/
  raddr : Nat
  /-- The variable `rlen`. -/
  rlen : Nat
deriving DecidableEq, Repr

/-- Perform an external call: the adapter sees the registered buffers and
may have written to them when the call returns. -/
def call (c : Call) : M Globals Answer :=
  fun s => Prog.ext c s.mem (fun a => Prog.ret (a, { s with mem := a.mem }))

/-- The function `rpp_create_qp`. -/
def rpp_create_qp : M Globals Int := do
  let ret := (← call (.rdma_create_qp 2 2 1 1 1)).ret
  (do
    if ret ≠ 0 then
      emit (.perror "rdma_create_qp"))
  return ret

/-- The function `rpp_setup_buffers`. -/
def rpp_setup_buffers : M Globals Int := do
  let mr := (← call (.rdma_reg_msgs .recv_buf sizeof_rpp_rdma_info)).mr
  modify fun s => { s with recv_mr := mr }
  if (← get).recv_mr = none then
    emit (.perror "rdma_reg_msgs recv_buf")
    return 1
  let mr := (← call (.rdma_reg_msgs .send_buf sizeof_rpp_rdma_info)).mr
  modify fun s => { s with send_mr := mr }
  if (← get).send_mr = none then
    emit (.perror "rdma_reg_msgs send_buf")
    return 1
  let mr := (← call (.rdma_reg_read .read_data DATA_SIZE)).mr
  modify fun s => { s with read_mr := mr }
  if (← get).read_mr = none then
    emit (.perror "rdma_reg_read")
    return 1
  let mr := (← call (.rdma_reg_write .write_data DATA_SIZE)).mr
  modify fun s => { s with write_mr := mr }
  if (← get).write_mr = none then
    emit (.perror "rdma_reg_write")
    return 1
  return 0

/-- The function `rpp_free_buffers`. -/
def rpp_free_buffers : M Globals Unit := do
  (do
    if (← get).recv_mr ≠ none then
      if (← call (.rdma_dereg_mr (← get).recv_mr)).ret ≠ 0 then
        emit (.perror "rdma_rereg_mr recv_mr"))
  (do
    if (← get).send_mr ≠ none then
      if (← call (.rdma_dereg_mr (← get).send_mr)).ret ≠ 0 then
        emit (.perror "rdma_rereg_mr send_mr"))
  (do
    if (← get).read_mr ≠ none then
      if (← call (.rdma_dereg_mr (← get).read_mr)).ret ≠ 0 then
        emit (.perror "rdma_rereg_mr read_mr"))
  (do
    if (← get).write_mr ≠ none then
      if (← call (.rdma_dereg_mr (← get).write_mr)).ret ≠ 0 then
        emit (.perror "rdma_rereg_mr write_mr"))

/-- The function `rpp_rdma_recv`. -/
def rpp_rdma_recv : M Globals Int := do
  let ret := (← call .rdma_get_recv_comp).ret
  if ret < 0 then
    emit (.perror "rdma_get_recv_comp")
    return 1
  else if ret = 0 then
    emit (.fprintf_stderr "rdma_get_recv_comp ret 0")
    return 1
  (do
    if (← get).server ≠ 0 then
      modify fun s => { s with rkey := s.mem.recv_buf.rkey }
      modify fun s => { s with raddr := s.mem.recv_buf.buf }
      modify fun s => { s with rlen := s.mem.recv_buf.size }
      let s ← get
      emit (.printf_remote s.rkey s.raddr s.rlen))
  let ret := (← call (.rdma_post_recv .recv_buf sizeof_rpp_rdma_info (← get).recv_mr)).ret
  if ret ≠ 0 then
    emit (.perror "rdma_post_recv")
    return 1
  return 0

/-- The function `rpp_wait_send_comp`. -/
def rpp_wait_send_comp : M Globals Int := do
  let ret := (← call .rdma_get_send_comp).ret
  if ret < 0 then
    emit (.perror "rdma_get_send_comp")
    return 1
  else if ret = 0 then
    emit (.fprintf_stderr "rdma_get_send_comp ret 0")
    return 1
  return 0

/-- The function `rpp_rdma_send`. -/
def rpp_rdma_send : M Globals Int := do
  let ret := (← call (.rdma_post_send .send_buf sizeof_rpp_rdma_info (← get).send_mr)).ret
  if ret ≠ 0 then
    emit (.perror "rdma_post_send")
    return 1
  rpp_wait_send_comp

/-- The statements of `run_server` from `rdma_bind_addr` up to the label `out`; a
`goto out` is a return of the current `ret` and `id`. -/
def run_server_body : M Globals (Int × Option rdma_cm_id) := do
  let ret := (← call .rdma_bind_addr).ret
  if ret ≠ 0 then
    emit (.perror "rdma_bind_addr")
    return (ret, none)
  let ret := (← call (.rdma_listen 1)).ret
  if ret ≠ 0 then
    emit (.perror "rdma_listen")
    return (ret, none)
  let a ← call .rdma_get_request
  let ret := a.ret
  let id := a.ptr
  if ret ≠ 0 then
    emit (.perror "rdma_get_request")
    return (ret, id)
  let ret ← rpp_create_qp
  if ret ≠ 0 then
    return (ret, id)
  let ret ← rpp_setup_buffers
  if ret ≠ 0 then
    return (ret, id)
  let ret := (← call (.rdma_post_recv .recv_buf sizeof_rpp_rdma_info (← get).recv_mr)).ret
  if ret ≠ 0 then
    emit (.perror "rdma_post_recv")
    return (ret, id)
  let ret := (← call .rdma_accept).ret
  if ret ≠ 0 then
    emit (.perror "rdma_accept")
    return (ret, id)
  let ret ← rpp_rdma_recv
  if ret ≠ 0 then
    return (ret, id)
  let s ← get
  let ret := (← call (.rdma_post_read .read_data s.rlen s.read_mr s.raddr s.rkey)).ret
  if ret ≠ 0 then
    emit (.perror "rdma_post_read")
    return (ret, id)
  let ret ← rpp_wait_send_comp
  if ret ≠ 0 then
    return (ret, id)
  emit (.printf_read_data (cstring (← get).mem.read_data))
  let ret ← rpp_rdma_send
  if ret ≠ 0 then
    return (ret, id)
  let ret ← rpp_rdma_recv
  if ret ≠ 0 then
    return (ret, id)
  modify fun s =>
    { s with mem := { s.mem with write_data := strcpy s.mem.write_data [98, 98, 98] } }
  let s ← get
  let ret := (← call (.rdma_post_write .write_data s.rlen s.write_mr s.raddr s.rkey)).ret
  if ret ≠ 0 then
    emit (.perror "rdma_post_write")
    return (ret, id)
  let ret ← rpp_wait_send_comp
  if ret ≠ 0 then
    return (ret, id)
  let ret ← rpp_rdma_send
  if ret ≠ 0 then
    return (ret, id)
  emit .printf_done
  return (ret, id)

/-- The statements of `run_server` after the label `out`. -/
def run_server_out (ret : Int) (id listen_id : Option rdma_cm_id) : M Globals Int := do
  rpp_free_buffers
  (do
    if id ≠ none then
      let _ ← call (.rdma_destroy_qp id)
      if (← call (.rdma_destroy_id id)).ret ≠ 0 then
        emit (.perror "rdma_destroy_id id"))
  (do
    if (← call (.rdma_destroy_id listen_id)).ret ≠ 0 then
      emit (.perror "rdma_destroy_id listen_id"))
  return ret

/-- The function `run_server`. -/
def run_server : M Globals Int := do
  let a ← call .rdma_create_id
  let listen_id := a.ptr
  if a.ret ≠ 0 then
    emit (.perror "rdma_create_id")
    return 1
  let (ret, id) ← run_server_body
  run_server_out ret id listen_id

/-- The statements of `run_client` from `rdma_resolve_addr` up to the label `out`; a
`goto out` is a return of the current `ret`. -/
def run_client_body (L : Layout) : M Globals Int := do
  let ret := (← call (.rdma_resolve_addr 2000)).ret
  if ret ≠ 0 then
    emit (.perror "rdma_resolve_addr")
    return ret
  let ret := (← call (.rdma_resolve_route 2000)).ret
  if ret ≠ 0 then
    emit (.perror "rdma_resolve_route")
    return ret
  let ret ← rpp_create_qp
  if ret ≠ 0 then
    return ret
  let ret ← rpp_setup_buffers
  if ret ≠ 0 then
    return ret
  let ret := (← call (.rdma_post_recv .recv_buf sizeof_rpp_rdma_info (← get).recv_mr)).ret
  if ret ≠ 0 then
    emit (.perror "rdma_post_recv")
    return ret
  let ret := (← call .rdma_connect).ret
  if ret ≠ 0 then
    emit (.perror "rdma_connect")
    return ret
  modify fun s =>
    { s with mem := { s.mem with read_data := strcpy s.mem.read_data [97, 97, 97] } }
  modify fun s =>
    { s with mem := { s.mem with send_buf := { s.mem.send_buf with buf := L.read_data } } }
  let k ← deref_rkey (← get).read_mr
  modify fun s => { s with mem := { s.mem with send_buf := { s.mem.send_buf with rkey := k } } }
  modify fun s =>
    { s with mem := { s.mem with send_buf := { s.mem.send_buf with size := DATA_SIZE } } }
  let ret ← rpp_rdma_send
  if ret ≠ 0 then
    return ret
  let ret ← rpp_rdma_recv
  if ret ≠ 0 then
    return ret
  modify fun s =>
    { s with mem := { s.mem with send_buf := { s.mem.send_buf with buf := L.write_data } } }
  let k ← deref_rkey (← get).write_mr
  modify fun s => { s with mem := { s.mem with send_buf := { s.mem.send_buf with rkey := k } } }
  modify fun s =>
    { s with mem := { s.mem with send_buf := { s.mem.send_buf with size := DATA_SIZE } } }
  let ret ← rpp_rdma_send
  if ret ≠ 0 then
    return ret
  let ret ← rpp_rdma_recv
  if ret ≠ 0 then
    return ret
  emit (.printf_write_data (cstring (← get).mem.write_data))
  emit .printf_done
  return ret

/-- The statements of `run_client` after the label `out`. -/
def run_client_out (ret : Int) (id : Option rdma_cm_id) : M Globals Int := do
  rpp_free_buffers
  let _ ← call (.rdma_destroy_qp id)
  (do
    if (← call (.rdma_destroy_id id)).ret ≠ 0 then
      emit (.perror "rdma_destroy_id"))
  return ret

/-- The function `run_client`. -/
def run_client (L : Layout) : M Globals Int := do
  let a ← call .rdma_create_id
  let id := a.ptr
  if a.ret ≠ 0 then
    emit (.perror "rdma_create_id")
    return 1
  let ret ← run_client_body L
  run_client_out ret id

/-- The zero-initialised buffers of a fresh process. -/
def mem0 : Mem :=
  { recv_buf := ⟨0, 0, 0⟩, send_buf := ⟨0, 0, 0⟩,
    read_data := List.replicate DATA_SIZE 0, write_data := List.replicate DATA_SIZE 0 }

/-- The file-scope variables when `main` has parsed the options and calls
`run_server` (`server = 1`) or `run_client` (`server = 0`): everything else
still has its static initial value. -/
def start (server : Int) : Globals :=
  { server := server, mem := mem0, recv_mr := none, send_mr := none, read_mr := none,
    write_mr := none, rkey := 0, raddr := 0, rlen := 0 }

/-- The four registration handles, in the order in which `rpp_setup_buffers`
sets them. -/
def handles (s : Globals) : List (Option ibv_mr) :=
  [s.recv_mr, s.send_mr, s.read_mr, s.write_mr]

end rpp

/-! ## rpp.c: `main` -/

namespace rpp

/-- The option loop of `main` over the characters that `getopt` returns, in
order (`'?'` for an unknown option).  The result is `false` when `main` has
printed the usage line and returns 1. -/
def main_opts : List Char → M Globals Bool
  | [] => pure true
  | c :: cs => do
    if c = 'c' then
      if (← get).server = 1 then
        emit .usage
        return false
      modify fun s => { s with server := 0 }
      main_opts cs
    else if c = 's' then
      if (← get).server = 0 then
        emit .usage
        return false
      modify fun s => { s with server := 1 }
      main_opts cs
    else if c = 'd' then
      main_opts cs
    else
      emit .usage
      return false

/-- The function `main`: `opts` are the characters that `getopt` returns,
`nargs` is the number of arguments after the options (`argc - optind`),
`addr_ok` tells whether `inet_aton` accepts the address, and `L` gives the
addresses of the data buffers. -/
def main (opts : List Char) (nargs : Nat) (addr_ok : Bool) (L : Layout) : M Globals Int := do
  if !(← main_opts opts) then
    return 1
  if (← get).server = -1 then
    emit .usage
    return 1
  if nargs ≠ 1 then
    emit .usage
    return 1
  if !addr_ok then
    emit (.fprintf_stderr "Invalid IP address")
    return 1
  if (← get).server ≠ 0 then
    run_server
  else
    run_client L

end rpp

/-! ## rpp_e.c -/

namespace rpp_e

/-- The file-scope variables of rpp_e.c. -/
structure Globals where
  /-- The flag `server`. -/
  server : Int
  /-- The buffers `recv_buf`, `send_buf`, `read_data`, `write_data`. -/
  mem : Mem
  /-- The pointer `recv_mr`. -/
  recv_mr : Option ibv_mr
  /-- The pointer `send_mr`. -/
  send_mr : Option ibv_mr
  /-- The pointer `read_mr`. -/
  read_mr : Option ibv_mr
  /-- The pointer `write_mr`. -/
  write_mr : Option ibv_mr
  /-- The variable `rkey`. -/
  rkey : Nat
  /-- The variable `raddr`. -/
  raddr : Nat
  /-- The variable `rlen`. -/
  rlen : Nat
deriving DecidableEq, Repr

/-- Perform an external call: the adapter sees the registered buffers and
may have written to them when the call returns. -/
def call (c : Call) : M Globals Answer :=
  fun s => Prog.ext c s.mem (fun a => Prog.ret (a, { s with mem := a.mem }))

/-- The function `rpp_create_ep`; the second component is `*id`. -/
def rpp_create_ep (server : Int) : M Globals (Int × Option rdma_cm_id) := do
  let ret := (← call (.rdma_getaddrinfo (decide (server ≠ 0)))).ret
  if ret ≠ 0 then
    emit (.perror "rdma_getaddrinfo")
    return (1, none)
  let a ← call (.rdma_create_ep 2 2 1 1 1)
  if a.ret ≠ 0 then
    emit (.perror "rdma_create_ep")
    return (1, a.ptr)
  return (0, a.ptr)

/-- The function `rpp_setup_buffers`. -/
def rpp_setup_buffers : M Globals Int := do
  let mr := (← call (.rdma_reg_msgs .recv_buf sizeof_rpp_rdma_info)).mr
  modify fun s => { s with recv_mr := mr }
  if (← get).recv_mr = none then
    emit (.perror "rdma_reg_msgs recv_buf")
    return 1
  let mr := (← call (.rdma_reg_msgs .send_buf sizeof_rpp_rdma_info)).mr
  modify fun s => { s with send_mr := mr }
  if (← get).send_mr = none then
    emit (.perror "rdma_reg_msgs send_buf")
    return 1
  let mr := (← call (.rdma_reg_read .read_data DATA_SIZE)).mr
  modify fun s => { s with read_mr := mr }
  if (← get).read_mr = none then
    emit (.perror "rdma_reg_read")
    return 1
  let mr := (← call (.rdma_reg_write .write_data DATA_SIZE)).mr
  modify fun s => { s with write_mr := mr }
  if (← get).write_mr = none then
    emit (.perror "rdma_reg_write")
    return 1
  return 0

/-- The function `rpp_free_buffers`. -/
def rpp_free_buffers : M Globals Unit := do
  (do
    if (← get).recv_mr ≠ none then
      if (← call (.rdma_dereg_mr (← get).recv_mr)).ret ≠ 0 then
        emit (.perror "rdma_rereg_mr recv_mr"))
  (do
    if (← get).send_mr ≠ none then
      if (← call (.rdma_dereg_mr (← get).send_mr)).ret ≠ 0 then
        emit (.perror "rdma_rereg_mr send_mr"))
  (do
    if (← get).read_mr ≠ none then
      if (← call (.rdma_dereg_mr (← get).read_mr)).ret ≠ 0 then
        emit (.perror "rdma_rereg_mr read_mr"))
  (do
    if (← get).write_mr ≠ none then
      if (← call (.rdma_dereg_mr (← get).write_mr)).ret ≠ 0 then
        emit (.perror "rdma_rereg_mr write_mr"))

/-- The function `rpp_rdma_recv`. -/
def rpp_rdma_recv : M Globals Int := do
  let ret := (← call .rdma_get_recv_comp).ret
  if ret < 0 then
    emit (.perror "rdma_get_recv_comp")
    return 1
  else if ret = 0 then
    emit (.fprintf_stderr "rdma_get_recv_comp ret 0")
    return 1
  (do
    if (← get).server ≠ 0 then
      modify fun s => { s with rkey := s.mem.recv_buf.rkey }
      modify fun s => { s with raddr := s.mem.recv_buf.buf }
      modify fun s => { s with rlen := s.mem.recv_buf.size }
      let s ← get
      emit (.printf_remote s.rkey s.raddr s.rlen))
  let ret := (← call (.rdma_post_recv .recv_buf sizeof_rpp_rdma_info (← get).recv_mr)).ret
  if ret ≠ 0 then
    emit (.perror "rdma_post_recv")
    return 1
  return 0

/-- The function `rpp_wait_send_comp`. -/
def rpp_wait_send_comp : M Globals Int := do
  let ret := (← call .rdma_get_send_comp).ret
  if ret < 0 then
    emit (.perror "rdma_get_send_comp")
    return 1
  else if ret = 0 then
    emit (.fprintf_stderr "rdma_get_send_comp ret 0")
    return 1
  return 0

/-- The function `rpp_rdma_send`. -/
def rpp_rdma_send : M Globals Int := do
  let ret := (← call (.rdma_post_send .send_buf sizeof_rpp_rdma_info (← get).send_mr)).ret
  if ret ≠ 0 then
    emit (.perror "rdma_post_send")
    return 1
  rpp_wait_send_comp

/-- The statements of `run_server` from `rdma_listen` up to the label `out`; a
`goto out` is a return of the current `ret` and `id`. -/
def run_server_body : M Globals (Int × Option rdma_cm_id) := do
  let ret := (← call (.rdma_listen 1)).ret
  if ret ≠ 0 then
    emit (.perror "rdma_listen")
    return (ret, none)
  let a ← call .rdma_get_request
  let ret := a.ret
  let id := a.ptr
  if ret ≠ 0 then
    emit (.perror "rdma_get_request")
    return (ret, id)
  let ret ← rpp_setup_buffers
  if ret ≠ 0 then
    return (ret, id)
  let ret := (← call (.rdma_post_recv .recv_buf sizeof_rpp_rdma_info (← get).recv_mr)).ret
  if ret ≠ 0 then
    emit (.perror "rdma_post_recv")
    return (ret, id)
  let ret := (← call .rdma_accept).ret
  if ret ≠ 0 then
    emit (.perror "rdma_accept")
    return (ret, id)
  let ret ← rpp_rdma_recv
  if ret ≠ 0 then
    return (ret, id)
  let s ← get
  let ret := (← call (.rdma_post_read .read_data s.rlen s.read_mr s.raddr s.rkey)).ret
  if ret ≠ 0 then
    emit (.perror "rdma_post_read")
    return (ret, id)
  let ret ← rpp_wait_send_comp
  if ret ≠ 0 then
    return (ret, id)
  emit (.printf_read_data (cstring (← get).mem.read_data))
  let ret ← rpp_rdma_send
  if ret ≠ 0 then
    return (ret, id)
  let ret ← rpp_rdma_recv
  if ret ≠ 0 then
    return (ret, id)
  modify fun s =>
    { s with mem := { s.mem with write_data := strcpy s.mem.write_data [98, 98, 98] } }
  let s ← get
  let ret := (← call (.rdma_post_write .write_data s.rlen s.write_mr s.raddr s.rkey)).ret
  if ret ≠ 0 then
    emit (.perror "rdma_post_write")
    return (ret, id)
  let ret ← rpp_wait_send_comp
  if ret ≠ 0 then
    return (ret, id)
  let ret ← rpp_rdma_send
  if ret ≠ 0 then
    return (ret, id)
  emit .printf_done
  return (ret, id)

/-- The statements of `run_server` after the label `out`. -/
def run_server_out (ret : Int) (id listen_id : Option rdma_cm_id) : M Globals Int := do
  rpp_free_buffers
  (do
    if id ≠ none then
      let _ ← call (.rdma_destroy_qp id)
      if (← call (.rdma_destroy_id id)).ret ≠ 0 then
        emit (.perror "rdma_destroy_id id"))
  (do
    if (← call (.rdma_destroy_id listen_id)).ret ≠ 0 then
      emit (.perror "rdma_destroy_id listen_id"))
  return ret

/-- The function `run_server`. -/
def run_server : M Globals Int := do
  let (ret, listen_id) ← rpp_create_ep 1
  if ret ≠ 0 then
    return 1
  let (ret, id) ← run_server_body
  run_server_out ret id listen_id

/-- The statements of `run_client` from `rpp_setup_buffers` up to the label `out`; a
`goto out` is a return of the current `ret`. -/
def run_client_body (L : Layout) : M Globals Int := do
  let ret ← rpp_setup_buffers
  if ret ≠ 0 then
    return ret
  let ret := (← call (.rdma_post_recv .recv_buf sizeof_rpp_rdma_info (← get).recv_mr)).ret
  if ret ≠ 0 then
    emit (.perror "rdma_post_recv")
    return ret
  let ret := (← call .rdma_connect).ret
  if ret ≠ 0 then
    emit (.perror "rdma_connect")
    return ret
  modify fun s =>
    { s with mem := { s.mem with read_data := strcpy s.mem.read_data [97, 97, 97] } }
  modify fun s =>
    { s with mem := { s.mem with send_buf := { s.mem.send_buf with buf := L.read_data } } }
  let k ← deref_rkey (← get).read_mr
  modify fun s => { s with mem := { s.mem with send_buf := { s.mem.send_buf with rkey := k } } }
  modify fun s =>
    { s with mem := { s.mem with send_buf := { s.mem.send_buf with size := DATA_SIZE } } }
  let ret ← rpp_rdma_send
  if ret ≠ 0 then
    return ret
  let ret ← rpp_rdma_recv
  if ret ≠ 0 then
    return ret
  modify fun s =>
    { s with mem := { s.mem with send_buf := { s.mem.send_buf with buf := L.write_data } } }
  let k ← deref_rkey (← get).write_mr
  modify fun s => { s with mem := { s.mem with send_buf := { s.mem.send_buf with rkey := k } } }
  modify fun s =>
    { s with mem := { s.mem with send_buf := { s.mem.send_buf with size := DATA_SIZE } } }
  let ret ← rpp_rdma_send
  if ret ≠ 0 then
    return ret
  let ret ← rpp_rdma_recv
  if ret ≠ 0 then
    return ret
  emit (.printf_write_data (cstring (← get).mem.write_data))
  emit .printf_done
  return ret

/-- The statements of `run_client` after the label `out`. -/
def run_client_out (ret : Int) (id : Option rdma_cm_id) : M Globals Int := do
  rpp_free_buffers
  let _ ← call (.rdma_destroy_qp id)
  (do
    if (← call (.rdma_destroy_id id)).ret ≠ 0 then
      emit (.perror "rdma_destroy_id"))
  return ret

/-- The function `run_client`. -/
def run_client (L : Layout) : M Globals Int := do
  let (ret, id) ← rpp_create_ep 0
  if ret ≠ 0 then
    return 1
  let ret ← run_client_body L
  run_client_out ret id

/-- The zero-initialised buffers of a fresh process. -/
def mem0 : Mem :=
  { recv_buf := ⟨0, 0, 0⟩, send_buf := ⟨0, 0, 0⟩,
    read_data := List.replicate DATA_SIZE 0, write_data := List.replicate DATA_SIZE 0 }

/-- The file-scope variables when `main` has parsed the options and calls
`run_server` (`server = 1`) or `run_client` (`server = 0`): everything else
still has its static initial value. -/
def start (server : Int) : Globals :=
  { server := server, mem := mem0, recv_mr := none, send_mr := none, read_mr := none,
    write_mr := none, rkey := 0, raddr := 0, rlen := 0 }

/-- The four registration handles, in the order in which `rpp_setup_buffers`
sets them. -/
def handles (s : Globals) : List (Option ibv_mr) :=
  [s.recv_mr, s.send_mr, s.read_mr, s.write_mr]

end rpp_e

/-! ## rpp_h.c -/

namespace rpp_h

/-- The value of `sizeof(struct rpp_context)` on an LP64 target. -/
def sizeof_rpp_context : Nat := 104

/-- The pointer and scalar fields of `struct rpp_context`.  The contents of
`recv_buf`, `send_buf` and of the blocks behind `read_data` and `write_data`
are kept in `State.mem`. -/
structure rpp_context where
  /-- The pointer `recv_mr`. -/
  recv_mr : Option ibv_mr
  /-- The pointer `send_mr`. -/
  send_mr : Option ibv_mr
  /-- The pointer `read_data` (its value as an address). -/
  read_data : Nat
  /-- The pointer `write_data` (its value as an address). -/
  write_data : Nat
  /-- The pointer `read_mr`. -/
  read_mr : Option ibv_mr
  /-- The pointer `write_mr`. -/
  write_mr : Option ibv_mr
  /-- The field `rkey`. -/
  rkey : Nat
  /-- The field `raddr`. -/
  raddr : Nat
  /-- The field `rlen`. -/
  rlen : Nat
deriving DecidableEq, Repr

/-- What the code of one thread can see: the flags `server` and `terminate`,
the pointer `id->context` and the buffers of the connection. -/
structure State where
  /-- The flag `server`. -/
  server : Int
  /-- The pointer `id->context`; `none` is `NULL`. -/
  context : Option rpp_context
  /-- The flag `terminate`, set by `handle_sigint`. -/
  terminate : Int
  /-- The buffers `ct->recv_buf`, `ct->send_buf`, `*ct->read_data`, `*ct->write_data`. -/
  mem : Mem
deriving DecidableEq, Repr

/-- Perform an external call: the adapter sees the registered buffers and
may have written to them when the call returns; `handle_sigint` may have run
in the meantime. -/
def call (c : Call) : M State Answer :=
  fun s => Prog.ext c s.mem (fun a =>
    Prog.ret (a, { s with mem := a.mem, terminate := if a.sigint then 1 else s.terminate }))

/-- Read through the pointer `ct = id->context`. -/
def the_ct : M State rpp_context :=
  fun s =>
    match s.context with
    | some ct => Prog.ret (ct, s)
    | none => Prog.fault

/-- Store through the pointer `ct = id->context`. -/
def set_ct (f : rpp_context → rpp_context) : M State Unit :=
  fun s =>
    match s.context with
    | some ct => Prog.ret ((), { s with context := some (f ct) })
    | none => Prog.fault

/-- The function `rpp_init_context`. -/
def rpp_init_context : M State Int := do
  let some ct := (← call (.malloc sizeof_rpp_context)).ptr
    | do
      emit (.perror "malloc rpp_context")
      return 1
  modify fun s => { s with mem := { s.mem with recv_buf := ⟨0, 0, 0⟩, send_buf := ⟨0, 0, 0⟩ } }
  let some read_data := (← call (.malloc DATA_SIZE)).ptr
    | do
      emit (.perror "malloc read_data")
      let _ ← call (.free ct)
      return 1
  let some write_data := (← call (.malloc DATA_SIZE)).ptr
    | do
      emit (.perror "malloc write_data")
      let _ ← call (.free read_data)
      let _ ← call (.free ct)
      return 1
  let zeroed : rpp_context :=
    { recv_mr := none, send_mr := none, read_data := read_data, write_data := write_data,
      read_mr := none, write_mr := none, rkey := 0, raddr := 0, rlen := 0 }
  modify fun s => { s with context := some zeroed }
  return 0

/-- The function `rpp_create_qp`. -/
def rpp_create_qp : M State Int := do
  let ret := (← call (.rdma_create_qp 2 2 1 1 1)).ret
  (do
    if ret ≠ 0 then
      emit (.perror "rdma_create_qp"))
  return ret

/-- The function `rpp_setup_buffers`. -/
def rpp_setup_buffers : M State Int := do
  let mr := (← call (.rdma_reg_msgs .recv_buf sizeof_rpp_rdma_info)).mr
  set_ct fun ct => { ct with recv_mr := mr }
  if (← the_ct).recv_mr = none then
    emit (.perror "rdma_reg_msgs recv_buf")
    return 1
  let mr := (← call (.rdma_reg_msgs .send_buf sizeof_rpp_rdma_info)).mr
  set_ct fun ct => { ct with send_mr := mr }
  if (← the_ct).send_mr = none then
    emit (.perror "rdma_reg_msgs send_buf")
    return 1
  let mr := (← call (.rdma_reg_read .read_data DATA_SIZE)).mr
  set_ct fun ct => { ct with read_mr := mr }
  if (← the_ct).read_mr = none then
    emit (.perror "rdma_reg_read")
    return 1
  let mr := (← call (.rdma_reg_write .write_data DATA_SIZE)).mr
  set_ct fun ct => { ct with write_mr := mr }
  if (← the_ct).write_mr = none then
    emit (.perror "rdma_reg_write")
    return 1
  return 0

/-- The function `rpp_free_buffers`. -/
def rpp_free_buffers : M State Unit := do
  if (← get).context = none then
    return
  (do
    if (← the_ct).recv_mr ≠ none then
      if (← call (.rdma_dereg_mr (← the_ct).recv_mr)).ret ≠ 0 then
        emit (.perror "rdma_rereg_mr recv_mr"))
  (do
    if (← the_ct).send_mr ≠ none then
      if (← call (.rdma_dereg_mr (← the_ct).send_mr)).ret ≠ 0 then
        emit (.perror "rdma_rereg_mr send_mr"))
  (do
    if (← the_ct).read_mr ≠ none then
      if (← call (.rdma_dereg_mr (← the_ct).read_mr)).ret ≠ 0 then
        emit (.perror "rdma_rereg_mr read_mr"))
  (do
    if (← the_ct).write_mr ≠ none then
      if (← call (.rdma_dereg_mr (← the_ct).write_mr)).ret ≠ 0 then
        emit (.perror "rdma_rereg_mr write_mr"))

/-- The function `rpp_rdma_recv`. -/
def rpp_rdma_recv : M State Int := do
  let ret := (← call .rdma_get_recv_comp).ret
  if ret < 0 then
    emit (.perror "rdma_get_recv_comp")
    return 1
  else if ret = 0 then
    emit (.fprintf_stderr "rdma_get_recv_comp ret 0")
    return 1
  (do
    if (← get).server ≠ 0 then
      let m := (← get).mem
      set_ct fun ct => { ct with rkey := m.recv_buf.rkey }
      set_ct fun ct => { ct with raddr := m.recv_buf.buf }
      set_ct fun ct => { ct with rlen := m.recv_buf.size }
      let ct ← the_ct
      emit (.printf_remote ct.rkey ct.raddr ct.rlen))
  let ret := (← call (.rdma_post_recv .recv_buf sizeof_rpp_rdma_info (← the_ct).recv_mr)).ret
  if ret ≠ 0 then
    emit (.perror "rdma_post_recv")
    return 1
  return 0

/-- The function `rpp_wait_send_comp`. -/
def rpp_wait_send_comp : M State Int := do
  let ret := (← call .rdma_get_send_comp).ret
  if ret < 0 then
    emit (.perror "rdma_get_send_comp")
    return 1
  else if ret = 0 then
    emit (.fprintf_stderr "rdma_get_send_comp ret 0")
    return 1
  return 0

/-- The function `rpp_rdma_send`. -/
def rpp_rdma_send : M State Int := do
  let ret := (← call (.rdma_post_send .send_buf sizeof_rpp_rdma_info (← the_ct).send_mr)).ret
  if ret ≠ 0 then
    emit (.perror "rdma_post_send")
    return 1
  rpp_wait_send_comp

/-- The statements of `exec_rpp` up to the label `out`; a `goto out` is a
return of the current `ret`. -/
def exec_rpp_body : M State Int := do
  let ret ← rpp_init_context
  if ret ≠ 0 then
    return ret
  let ret ← rpp_create_qp
  if ret ≠ 0 then
    return ret
  let ret ← rpp_setup_buffers
  if ret ≠ 0 then
    return ret
  let ret := (← call (.rdma_post_recv .recv_buf sizeof_rpp_rdma_info (← the_ct).recv_mr)).ret
  if ret ≠ 0 then
    emit (.perror "rdma_post_recv")
    return ret
  let ret := (← call .rdma_accept).ret
  if ret ≠ 0 then
    emit (.perror "rdma_accept")
    return ret
  let ret ← rpp_rdma_recv
  if ret ≠ 0 then
    return ret
  let ct ← the_ct
  let ret := (← call (.rdma_post_read .read_data ct.rlen ct.read_mr ct.raddr ct.rkey)).ret
  if ret ≠ 0 then
    emit (.perror "rdma_post_read")
    return ret
  let ret ← rpp_wait_send_comp
  if ret ≠ 0 then
    return ret
  emit (.printf_read_data (cstring (← get).mem.read_data))
  let ret ← rpp_rdma_send
  if ret ≠ 0 then
    return ret
  let ret ← rpp_rdma_recv
  if ret ≠ 0 then
    return ret
  modify fun s =>
    { s with mem := { s.mem with write_data := strcpy s.mem.write_data [98, 98, 98] } }
  let ct ← the_ct
  let ret := (← call (.rdma_post_write .write_data ct.rlen ct.write_mr ct.raddr ct.rkey)).ret
  if ret ≠ 0 then
    emit (.perror "rdma_post_write")
    return ret
  let ret ← rpp_wait_send_comp
  if ret ≠ 0 then
    return ret
  let ret ← rpp_rdma_send
  if ret ≠ 0 then
    return ret
  emit .printf_done
  return ret

/-- The statements of `exec_rpp` after the label `out`; the function returns
`NULL` whatever `ret` is. -/
def exec_rpp_out (id : rdma_cm_id) : M State Unit := do
  rpp_free_buffers
  let _ ← call (.rdma_destroy_qp (some id))
  (do
    if (← call (.rdma_destroy_id (some id))).ret ≠ 0 then
      emit (.perror "rdma_destroy_id id"))
  return

/-- The function `exec_rpp`, run on the connection `id`. -/
def exec_rpp (id : rdma_cm_id) : M State Unit := do
  let _ ← exec_rpp_body
  exec_rpp_out id

/-- The statements of `run_client` from `rpp_init_context` up to the label
`out`; a `goto out` is a return of the current `ret`. -/
def run_client_body : M State Int := do
  let ret ← rpp_init_context
  if ret ≠ 0 then
    return ret
  let ret := (← call (.rdma_resolve_addr 2000)).ret
  if ret ≠ 0 then
    emit (.perror "rdma_resolve_addr")
    return ret
  let ret := (← call (.rdma_resolve_route 2000)).ret
  if ret ≠ 0 then
    emit (.perror "rdma_resolve_route")
    return ret
  let ret ← rpp_create_qp
  if ret ≠ 0 then
    return ret
  let ret ← rpp_setup_buffers
  if ret ≠ 0 then
    return ret
  let ret := (← call (.rdma_post_recv .recv_buf sizeof_rpp_rdma_info (← the_ct).recv_mr)).ret
  if ret ≠ 0 then
    emit (.perror "rdma_post_recv")
    return ret
  let ret := (← call .rdma_connect).ret
  if ret ≠ 0 then
    emit (.perror "rdma_connect")
    return ret
  modify fun s =>
    { s with mem := { s.mem with read_data := strcpy s.mem.read_data [97, 97, 97] } }
  let p := (← the_ct).read_data
  modify fun s => { s with mem := { s.mem with send_buf := { s.mem.send_buf with buf := p } } }
  let k ← deref_rkey (← the_ct).read_mr
  modify fun s => { s with mem := { s.mem with send_buf := { s.mem.send_buf with rkey := k } } }
  modify fun s =>
    { s with mem := { s.mem with send_buf := { s.mem.send_buf with size := DATA_SIZE } } }
  let ret ← rpp_rdma_send
  if ret ≠ 0 then
    return ret
  let ret ← rpp_rdma_recv
  if ret ≠ 0 then
    return ret
  let p := (← the_ct).write_data
  modify fun s => { s with mem := { s.mem with send_buf := { s.mem.send_buf with buf := p } } }
  let k ← deref_rkey (← the_ct).write_mr
  modify fun s => { s with mem := { s.mem with send_buf := { s.mem.send_buf with rkey := k } } }
  modify fun s =>
    { s with mem := { s.mem with send_buf := { s.mem.send_buf with size := DATA_SIZE } } }
  let ret ← rpp_rdma_send
  if ret ≠ 0 then
    return ret
  let ret ← rpp_rdma_recv
  if ret ≠ 0 then
    return ret
  emit (.printf_write_data (cstring (← get).mem.write_data))
  emit .printf_done
  return ret

/-- The statements of `run_client` after the label `out`. -/
def run_client_out (ret : Int) (id : Option rdma_cm_id) : M State Int := do
  rpp_free_buffers
  let _ ← call (.rdma_destroy_qp id)
  (do
    if (← call (.rdma_destroy_id id)).ret ≠ 0 then
      emit (.perror "rdma_destroy_id"))
  return ret

/-- The function `run_client`. -/
def run_client : M State Int := do
  let a ← call .rdma_create_id
  let id := a.ptr
  if a.ret ≠ 0 then
    emit (.perror "rdma_create_id")
    return 1
  let ret ← run_client_body
  run_client_out ret id

/-- The constant `RDMA_CM_EVENT_CONNECT_REQUEST` of `rdma/rdma_cma.h`. -/
def RDMA_CM_EVENT_CONNECT_REQUEST : Int := 4

/-- The statements of `run_server` after the label `out`.  The `id` of a
connection request carries the `context` of the listening id, which is
`NULL`. -/
def run_server_out (ret : Int) (id listen_id ch : Option Nat) : M State Int := do
  (do
    if id ≠ none then
      rpp_free_buffers
      let _ ← call (.rdma_destroy_qp id)
      if (← call (.rdma_destroy_id id)).ret ≠ 0 then
        emit (.perror "rdma_destroy_id id"))
  (do
    if (← call (.rdma_destroy_id listen_id)).ret ≠ 0 then
      emit (.perror "rdma_destroy_id listen_id"))
  let _ ← call (.rdma_destroy_event_channel ch)
  return ret

/-- The loop `while (terminate == 0)` of `run_server`, entered with the
current value of `ret`, for at most `n` iterations.  The result is the `ret`
and `id` with which control reaches the label `out`, or `none` when the loop
is still running after `n` iterations. -/
def accept_loop : Nat → Int → M State (Option (Int × Option rdma_cm_id))
  | 0, _ => pure none
  | n + 1, ret => do
    if (← get).terminate ≠ 0 then
      return some (ret, none)
    let a ← call .rdma_get_cm_event
    let ret := a.ret
    if ret ≠ 0 then
      emit (.perror "rdma_get_cm_event")
      return some (ret, none)
    if a.status ≠ 0 then
      emit (.fprintf_stderr "event status")
      return some (ret, none)
    if a.event ≠ RDMA_CM_EVENT_CONNECT_REQUEST then
      emit (.fprintf_stderr "unexpected event")
      return some (ret, none)
    let id := a.ptr
    let ret := (← call .rdma_ack_cm_event).ret
    if ret ≠ 0 then
      emit (.perror "rdma_ack_cm_event")
      return some (ret, id)
    let ret := (← call (.rdma_migrate_id id)).ret
    if ret ≠ 0 then
      emit (.perror "rdma_migrate_id")
      return some (ret, id)
    let ret := (← call (.pthread_create id)).ret
    if ret ≠ 0 then
      emit (.perror "pthread_create")
      return some (ret, id)
    let ret := (← call .pthread_detach).ret
    if ret ≠ 0 then
      emit (.perror "pthread_detach")
      return some (ret, none)
    accept_loop n ret

/-- The statements of `run_server` from the `while` loop on: the loop, for at
most `n` iterations, and the code after the label `out`.  The result is
`none` when the loop is still running after `n` iterations. -/
def run_server_loop (n : Nat) (ret : Int) (listen_id ch : Option Nat) :
    M State (Option Int) := do
  match (← accept_loop n ret) with
  | none => return none
  | some (ret, id) => return some (← run_server_out ret id listen_id ch)

/-- The function `run_server`, with at most `n` iterations of its loop. -/
def run_server (n : Nat) : M State (Option Int) := do
  let ch := (← call .rdma_create_event_channel).ptr
  if ch = none then
    emit (.perror "rdma_create_event_channel")
    return some 1
  let a ← call .rdma_create_id
  let listen_id := a.ptr
  if a.ret ≠ 0 then
    emit (.perror "rdma_create_id")
    let _ ← call (.rdma_destroy_event_channel ch)
    return some 1
  let ret := (← call .rdma_bind_addr).ret
  if ret ≠ 0 then
    emit (.perror "rdma_bind_addr")
    return some (← run_server_out ret none listen_id ch)
  let ret := (← call (.rdma_listen 3)).ret
  if ret ≠ 0 then
    emit (.perror "rdma_listen")
    return some (← run_server_out ret none listen_id ch)
  let ret := (← call .sigaction).ret
  if ret ≠ 0 then
    emit (.perror "sigaction")
    return some (← run_server_out ret none listen_id ch)
  run_server_loop n ret listen_id ch

/-- The option loop of `main` over the characters that `getopt` returns, in
order (`'?'` for an unknown option).  The result is `false` when `main` has
printed the usage line and returns 1. -/
def main_opts : List Char → M State Bool
  | [] => pure true
  | c :: cs => do
    if c = 'c' then
      if (← get).server = 1 then
        emit .usage
        return false
      modify fun s => { s with server := 0 }
      main_opts cs
    else if c = 's' then
      if (← get).server = 0 then
        emit .usage
        return false
      modify fun s => { s with server := 1 }
      main_opts cs
    else if c = 'd' then
      main_opts cs
    else
      emit .usage
      return false

/-- The function `main`: `opts` are the characters that `getopt` returns,
`nargs` is the number of arguments after the options (`argc - optind`),
`addr_ok` tells whether `inet_aton` accepts the address, and `n` bounds the
iterations of the accept loop. -/
def main (opts : List Char) (nargs : Nat) (addr_ok : Bool) (n : Nat) : M State (Option Int) := do
  if !(← main_opts opts) then
    return some 1
  if (← get).server = -1 then
    emit .usage
    return some 1
  if nargs ≠ 1 then
    emit .usage
    return some 1
  if !addr_ok then
    emit (.fprintf_stderr "Invalid IP address")
    return some 1
  if (← get).server ≠ 0 then
    run_server n
  else
    return some (← run_client)

/-- The four registration handles of a context, in the order in which
`rpp_setup_buffers` sets them. -/
def rpp_context.handles (ct : rpp_context) : List (Option ibv_mr) :=
  [ct.recv_mr, ct.send_mr, ct.read_mr, ct.write_mr]

/-- The four registration handles of the connection; none without a context. -/
def State.handles (s : State) : List (Option ibv_mr) :=
  match s.context with
  | some ct => ct.handles
  | none => []

/-- The state in which a thread starts: the flag `server` has the given
value, `terminate` is 0, the connection has no context yet and no buffer is
allocated. -/
def start (server : Int) : State :=
  { server := server, context := none, terminate := 0,
    mem := { recv_buf := ⟨0, 0, 0⟩, send_buf := ⟨0, 0, 0⟩, read_data := [], write_data := [] } }

end rpp_h
/-! ## Vocabulary for statements about traces -/

/-- The library function that a call invokes. -/
inductive Kind where
  | rdma_create_event_channel
  | rdma_destroy_event_channel
  | rdma_getaddrinfo
  | rdma_create_ep
  | rdma_create_id
  | rdma_bind_addr
  | rdma_listen
  | rdma_get_request
  | rdma_get_cm_event
  | rdma_ack_cm_event
  | rdma_migrate_id
  | pthread_create
  | pthread_detach
  | sigaction
  | malloc
  | free
  | rdma_resolve_addr
  | rdma_resolve_route
  | rdma_create_qp
  | rdma_reg_msgs
  | rdma_reg_read
  | rdma_reg_write
  | rdma_dereg_mr
  | rdma_post_recv
  | rdma_accept
  | rdma_connect
  | rdma_get_recv_comp
  | rdma_get_send_comp
  | rdma_post_send
  | rdma_post_read
  | rdma_post_write
  | rdma_destroy_qp
  | rdma_destroy_id
deriving DecidableEq, Repr

/-- The library function of a call. -/
def Call.kind : Call → Kind
  | .rdma_create_event_channel => .rdma_create_event_channel
  | .rdma_destroy_event_channel _ => .rdma_destroy_event_channel
  | .rdma_getaddrinfo _ => .rdma_getaddrinfo
  | .rdma_create_ep _ _ _ _ _ => .rdma_create_ep
  | .rdma_create_id => .rdma_create_id
  | .rdma_bind_addr => .rdma_bind_addr
  | .rdma_listen _ => .rdma_listen
  | .rdma_get_request => .rdma_get_request
  | .rdma_get_cm_event => .rdma_get_cm_event
  | .rdma_ack_cm_event => .rdma_ack_cm_event
  | .rdma_migrate_id _ => .rdma_migrate_id
  | .pthread_create _ => .pthread_create
  | .pthread_detach => .pthread_detach
  | .sigaction => .sigaction
  | .malloc _ => .malloc
  | .free _ => .free
  | .rdma_resolve_addr _ => .rdma_resolve_addr
  | .rdma_resolve_route _ => .rdma_resolve_route
  | .rdma_create_qp _ _ _ _ _ => .rdma_create_qp
  | .rdma_reg_msgs _ _ => .rdma_reg_msgs
  | .rdma_reg_read _ _ => .rdma_reg_read
  | .rdma_reg_write _ _ => .rdma_reg_write
  | .rdma_dereg_mr _ => .rdma_dereg_mr
  | .rdma_post_recv _ _ _ => .rdma_post_recv
  | .rdma_accept => .rdma_accept
  | .rdma_connect => .rdma_connect
  | .rdma_get_recv_comp => .rdma_get_recv_comp
  | .rdma_get_send_comp => .rdma_get_send_comp
  | .rdma_post_send _ _ _ => .rdma_post_send
  | .rdma_post_read _ _ _ _ _ => .rdma_post_read
  | .rdma_post_write _ _ _ _ _ => .rdma_post_write
  | .rdma_destroy_qp _ => .rdma_destroy_qp
  | .rdma_destroy_id _ => .rdma_destroy_id

/-- The step failed: an establishment call or a post returned non-zero, a
registration returned `NULL`, or a completion wait returned a count that is
not positive.  Teardown calls and the calls of the acceptor are no steps. -/
def failed : Kind → Answer → Bool
  | .rdma_create_event_channel, _ => false
  | .rdma_destroy_event_channel, _ => false
  | .rdma_getaddrinfo, a => !decide (a.ret = 0)
  | .rdma_create_ep, a => !decide (a.ret = 0)
  | .rdma_create_id, a => !decide (a.ret = 0)
  | .rdma_bind_addr, a => !decide (a.ret = 0)
  | .rdma_listen, a => !decide (a.ret = 0)
  | .rdma_get_request, a => !decide (a.ret = 0)
  | .rdma_get_cm_event, _ => false
  | .rdma_ack_cm_event, _ => false
  | .rdma_migrate_id, _ => false
  | .pthread_create, _ => false
  | .pthread_detach, _ => false
  | .sigaction, _ => false
  | .malloc, _ => false
  | .free, _ => false
  | .rdma_resolve_addr, a => !decide (a.ret = 0)
  | .rdma_resolve_route, a => !decide (a.ret = 0)
  | .rdma_create_qp, a => !decide (a.ret = 0)
  | .rdma_reg_msgs, a => decide (a.mr = none)
  | .rdma_reg_read, a => decide (a.mr = none)
  | .rdma_reg_write, a => decide (a.mr = none)
  | .rdma_dereg_mr, _ => false
  | .rdma_post_recv, a => !decide (a.ret = 0)
  | .rdma_accept, a => !decide (a.ret = 0)
  | .rdma_connect, a => !decide (a.ret = 0)
  | .rdma_get_recv_comp, a => !decide (0 < a.ret)
  | .rdma_get_send_comp, a => !decide (0 < a.ret)
  | .rdma_post_send, a => !decide (a.ret = 0)
  | .rdma_post_read, a => !decide (a.ret = 0)
  | .rdma_post_write, a => !decide (a.ret = 0)
  | .rdma_destroy_qp, _ => false
  | .rdma_destroy_id, _ => false

/-- The local buffer of a posted work request. -/
def Call.localBuf : Call → Option Buf
  | .rdma_create_event_channel => none
  | .rdma_destroy_event_channel _ => none
  | .rdma_getaddrinfo _ => none
  | .rdma_create_ep _ _ _ _ _ => none
  | .rdma_create_id => none
  | .rdma_bind_addr => none
  | .rdma_listen _ => none
  | .rdma_get_request => none
  | .rdma_get_cm_event => none
  | .rdma_ack_cm_event => none
  | .rdma_migrate_id _ => none
  | .pthread_create _ => none
  | .pthread_detach => none
  | .sigaction => none
  | .malloc _ => none
  | .free _ => none
  | .rdma_resolve_addr _ => none
  | .rdma_resolve_route _ => none
  | .rdma_create_qp _ _ _ _ _ => none
  | .rdma_reg_msgs _ _ => none
  | .rdma_reg_read _ _ => none
  | .rdma_reg_write _ _ => none
  | .rdma_dereg_mr _ => none
  | .rdma_post_recv b _ _ => some b
  | .rdma_accept => none
  | .rdma_connect => none
  | .rdma_get_recv_comp => none
  | .rdma_get_send_comp => none
  | .rdma_post_send b _ _ => some b
  | .rdma_post_read b _ _ _ _ => some b
  | .rdma_post_write b _ _ _ _ => some b
  | .rdma_destroy_qp _ => none
  | .rdma_destroy_id _ => none

/-- The remote target `(address, key, length)` of an RDMA READ or WRITE. -/
def Call.remote : Call → Option rpp_rdma_info
  | .rdma_create_event_channel => none
  | .rdma_destroy_event_channel _ => none
  | .rdma_getaddrinfo _ => none
  | .rdma_create_ep _ _ _ _ _ => none
  | .rdma_create_id => none
  | .rdma_bind_addr => none
  | .rdma_listen _ => none
  | .rdma_get_request => none
  | .rdma_get_cm_event => none
  | .rdma_ack_cm_event => none
  | .rdma_migrate_id _ => none
  | .pthread_create _ => none
  | .pthread_detach => none
  | .sigaction => none
  | .malloc _ => none
  | .free _ => none
  | .rdma_resolve_addr _ => none
  | .rdma_resolve_route _ => none
  | .rdma_create_qp _ _ _ _ _ => none
  | .rdma_reg_msgs _ _ => none
  | .rdma_reg_read _ _ => none
  | .rdma_reg_write _ _ => none
  | .rdma_dereg_mr _ => none
  | .rdma_post_recv _ _ _ => none
  | .rdma_accept => none
  | .rdma_connect => none
  | .rdma_get_recv_comp => none
  | .rdma_get_send_comp => none
  | .rdma_post_send _ _ _ => none
  | .rdma_post_read _ len _ raddr rkey => some ⟨raddr, rkey, len⟩
  | .rdma_post_write _ len _ raddr rkey => some ⟨raddr, rkey, len⟩
  | .rdma_destroy_qp _ => none
  | .rdma_destroy_id _ => none

/-- The byte length of a posted work request. -/
def Call.length : Call → Option Nat
  | .rdma_create_event_channel => none
  | .rdma_destroy_event_channel _ => none
  | .rdma_getaddrinfo _ => none
  | .rdma_create_ep _ _ _ _ _ => none
  | .rdma_create_id => none
  | .rdma_bind_addr => none
  | .rdma_listen _ => none
  | .rdma_get_request => none
  | .rdma_get_cm_event => none
  | .rdma_ack_cm_event => none
  | .rdma_migrate_id _ => none
  | .pthread_create _ => none
  | .pthread_detach => none
  | .sigaction => none
  | .malloc _ => none
  | .free _ => none
  | .rdma_resolve_addr _ => none
  | .rdma_resolve_route _ => none
  | .rdma_create_qp _ _ _ _ _ => none
  | .rdma_reg_msgs _ _ => none
  | .rdma_reg_read _ _ => none
  | .rdma_reg_write _ _ => none
  | .rdma_dereg_mr _ => none
  | .rdma_post_recv _ len _ => some len
  | .rdma_accept => none
  | .rdma_connect => none
  | .rdma_get_recv_comp => none
  | .rdma_get_send_comp => none
  | .rdma_post_send _ len _ => some len
  | .rdma_post_read _ len _ _ _ => some len
  | .rdma_post_write _ len _ _ _ => some len
  | .rdma_destroy_qp _ => none
  | .rdma_destroy_id _ => none

/-- The registration handle passed to the call. -/
def Call.handle : Call → Option ibv_mr
  | .rdma_create_event_channel => none
  | .rdma_destroy_event_channel _ => none
  | .rdma_getaddrinfo _ => none
  | .rdma_create_ep _ _ _ _ _ => none
  | .rdma_create_id => none
  | .rdma_bind_addr => none
  | .rdma_listen _ => none
  | .rdma_get_request => none
  | .rdma_get_cm_event => none
  | .rdma_ack_cm_event => none
  | .rdma_migrate_id _ => none
  | .pthread_create _ => none
  | .pthread_detach => none
  | .sigaction => none
  | .malloc _ => none
  | .free _ => none
  | .rdma_resolve_addr _ => none
  | .rdma_resolve_route _ => none
  | .rdma_create_qp _ _ _ _ _ => none
  | .rdma_reg_msgs _ _ => none
  | .rdma_reg_read _ _ => none
  | .rdma_reg_write _ _ => none
  | .rdma_dereg_mr mr => mr
  | .rdma_post_recv _ _ mr => mr
  | .rdma_accept => none
  | .rdma_connect => none
  | .rdma_get_recv_comp => none
  | .rdma_get_send_comp => none
  | .rdma_post_send _ _ mr => mr
  | .rdma_post_read _ _ mr _ _ => mr
  | .rdma_post_write _ _ mr _ _ => mr
  | .rdma_destroy_qp _ => none
  | .rdma_destroy_id _ => none

/-- The call registers a buffer. -/
def isReg : Kind → Bool
  | .rdma_create_event_channel => false
  | .rdma_destroy_event_channel => false
  | .rdma_getaddrinfo => false
  | .rdma_create_ep => false
  | .rdma_create_id => false
  | .rdma_bind_addr => false
  | .rdma_listen => false
  | .rdma_get_request => false
  | .rdma_get_cm_event => false
  | .rdma_ack_cm_event => false
  | .rdma_migrate_id => false
  | .pthread_create => false
  | .pthread_detach => false
  | .sigaction => false
  | .malloc => false
  | .free => false
  | .rdma_resolve_addr => false
  | .rdma_resolve_route => false
  | .rdma_create_qp => false
  | .rdma_reg_msgs => true
  | .rdma_reg_read => true
  | .rdma_reg_write => true
  | .rdma_dereg_mr => false
  | .rdma_post_recv => false
  | .rdma_accept => false
  | .rdma_connect => false
  | .rdma_get_recv_comp => false
  | .rdma_get_send_comp => false
  | .rdma_post_send => false
  | .rdma_post_read => false
  | .rdma_post_write => false
  | .rdma_destroy_qp => false
  | .rdma_destroy_id => false

/-- The call belongs to the protocol core: a registration, a post, a
completion wait or `rdma_accept`. -/
def isCore : Call → Bool
  | .rdma_create_event_channel => false
  | .rdma_destroy_event_channel _ => false
  | .rdma_getaddrinfo _ => false
  | .rdma_create_ep _ _ _ _ _ => false
  | .rdma_create_id => false
  | .rdma_bind_addr => false
  | .rdma_listen _ => false
  | .rdma_get_request => false
  | .rdma_get_cm_event => false
  | .rdma_ack_cm_event => false
  | .rdma_migrate_id _ => false
  | .pthread_create _ => false
  | .pthread_detach => false
  | .sigaction => false
  | .malloc _ => false
  | .free _ => false
  | .rdma_resolve_addr _ => false
  | .rdma_resolve_route _ => false
  | .rdma_create_qp _ _ _ _ _ => false
  | .rdma_reg_msgs _ _ => true
  | .rdma_reg_read _ _ => true
  | .rdma_reg_write _ _ => true
  | .rdma_dereg_mr _ => false
  | .rdma_post_recv _ _ _ => true
  | .rdma_accept => true
  | .rdma_connect => false
  | .rdma_get_recv_comp => true
  | .rdma_get_send_comp => true
  | .rdma_post_send _ _ _ => true
  | .rdma_post_read _ _ _ _ _ => true
  | .rdma_post_write _ _ _ _ _ => true
  | .rdma_destroy_qp _ => false
  | .rdma_destroy_id _ => false

/-- What the statements about traces look at in one external call. -/
structure View where
  /-- The library function that was called. -/
  kind : Kind
  /-- Whether the call is a step of the connection that failed. -/
  failed : Bool
  /-- The local buffer of a posted work request. -/
  buf : Option Buf
  /-- The byte length of a posted work request. -/
  length : Option Nat
  /-- The remote target of an RDMA READ or WRITE. -/
  remote : Option rpp_rdma_info
  /-- The registration handle passed to the call. -/
  handle : Option ibv_mr
  /-- The registration handle the call returned. -/
  mr : Option ibv_mr
  /-- The contents of `recv_buf` when the call returned. -/
  desc : rpp_rdma_info
  /-- The contents of `send_buf` when the call was made. -/
  sent : rpp_rdma_info
deriving DecidableEq, Repr

/-- The view of the call `c`, made with the buffers holding `m` and answered
by `a`. -/
def view (c : Call) (m : Mem) (a : Answer) : View :=
  { kind := c.kind, failed := failed c.kind a, buf := c.localBuf, length := c.length,
    remote := c.remote, handle := c.handle, mr := a.mr, desc := a.mem.recv_buf,
    sent := m.send_buf }

/-- The external calls of a list of events, in the same order (the written
lines are dropped). -/
def views : List Event → List View
  | [] => []
  | .call c m a :: t => view c m a :: views t
  | .out _ :: t => views t

/-- The call trace of a finished run, in the order of the calls. -/
def callTrace {α : Type} (r : Log × Option α) : List View := views r.1.trace

/-- The lines a finished run wrote, in order. -/
def outputs : List Event → List Out
  | [] => []
  | .call _ _ _ :: t => outputs t
  | .out o :: t => o :: outputs t

/-- The value a finished run returned (`none` after a fault). -/
def returned {α σ : Type} (r : Log × Option (α × σ)) : Option α := r.2.map (·.1)

/-- What the control flow shows of a call: which function was called and
whether the step failed. -/
structure Tok where
  /-- The library function. -/
  kind : Kind
  /-- Whether the step failed. -/
  failed : Bool
deriving DecidableEq, Repr

/-- The control-flow view of a call. -/
def tok (v : View) : Tok := ⟨v.kind, v.failed⟩

/-- A receive completion that was obtained with a positive count. -/
def isRecvDone (v : View) : Bool :=
  decide (v.kind = .rdma_get_recv_comp) && !v.failed

/-- Number of receive completions obtained with a positive count. -/
def recvDone (l : List View) : Nat := l.countP isRecvDone

/-- The descriptors received: the contents of `recv_buf` at the return of
each receive completion with a positive count. -/
def descs (l : List View) : List rpp_rdma_info :=
  (l.filter isRecvDone).map (·.desc)

/-- Place of a call in the teardown order: buffer deregistration, then
`rdma_destroy_qp`, then `rdma_destroy_id`; `none` for every other call. -/
def teardownPhase : Kind → Option Nat
  | .rdma_dereg_mr => some 0
  | .rdma_destroy_qp => some 1
  | .rdma_destroy_id => some 2
  | _ => none

/-- Only teardown calls, in teardown order, from phase `p` on. -/
def teardownFrom : Nat → List Kind → Bool
  | _, [] => true
  | p, k :: l =>
    match teardownPhase k with
    | some q => decide (p ≤ q) && teardownFrom q l
    | none => false

/-- The call moves the connection past registration: `rdma_post_recv`,
`rdma_accept` or `rdma_connect`. -/
def isProgress : Kind → Bool
  | .rdma_post_recv => true
  | .rdma_accept => true
  | .rdma_connect => true
  | _ => false

/-- What the view of a call always satisfies: a registration failed exactly
when it returned `NULL`, and a failed step is no teardown call. -/
def View.wf (v : View) : Prop :=
  (isReg v.kind = true → v.failed = decide (v.mr = none)) ∧
  (v.failed = true → teardownPhase v.kind = none)

/-- The handles that the registration calls returned, in call order. -/
def regs (l : List View) : List (Option ibv_mr) :=
  (l.filter (fun v => isReg v.kind)).map (·.mr)

/-- The handles that were passed to `rdma_dereg_mr`, in call order. -/
def deregs (l : List View) : List (Option ibv_mr) :=
  (l.filter (fun v => decide (v.kind = .rdma_dereg_mr))).map (·.handle)

/-- Strict sequencing of a responder: an `rdma_post_read` comes after one
receive completion with a positive count, an `rdma_post_write` after two. -/
def Sequenced (l : List View) : Prop :=
  ∀ pre x post, l = pre ++ x :: post →
    (x.kind = .rdma_post_read → 1 ≤ recvDone pre) ∧
    (x.kind = .rdma_post_write → 2 ≤ recvDone pre)

/-- Responder targets: the RDMA READ goes from the first descriptor received
into `read_data`, the RDMA WRITE from `write_data` to the second descriptor
received. -/
def Targeted (l : List View) : Prop :=
  ∀ pre x post, l = pre ++ x :: post →
    (x.kind = .rdma_post_read →
      x.buf = some .read_data ∧ x.remote = (descs pre)[0]?) ∧
    (x.kind = .rdma_post_write →
      x.buf = some .write_data ∧ x.remote = (descs pre)[1]?)

/-- No leaked registration: when the last registration of the run failed, the
handles deregistered are exactly those the earlier registrations returned,
each once and none of them `NULL`, and no `rdma_post_recv`, `rdma_accept` or
`rdma_connect` was issued. -/
def RegistrationReleased (l : List View) : Prop :=
  (regs l).getLast? = some none →
    deregs l = (regs l).dropLast ∧ (∀ m ∈ (regs l).dropLast, m ≠ none) ∧
    ∀ x ∈ l, isProgress x.kind = false

/-- The failure of the last registration of the run is reported: `reported`
holds when the last registration call returned `NULL`. -/
def FailureReported (l : List View) (reported : Prop) : Prop :=
  (regs l).getLast? = some none → reported

/-- The line is a diagnostic: it goes to the standard error stream. -/
def isDiag : Out → Bool
  | .perror _ => true
  | .fprintf_stderr _ => true
  | .printf_remote _ _ _ => false
  | .printf_read_data _ => false
  | .printf_write_data _ => false
  | .printf_done => false
  | .usage => true

/-- The event is the writing of a diagnostic. -/
def Event.isDiag : Event → Bool
  | .call _ _ _ => false
  | .out o => RDMA.isDiag o

/-- The call posts a send. -/
def isSend (v : View) : Bool := decide (v.kind = .rdma_post_send)

/-- Number of sends posted. -/
def sends (l : List View) : Nat := l.countP isSend

/-- The handles returned by the calls of the function `k`, in call order. -/
def answersOf (k : Kind) (l : List View) : List (Option ibv_mr) :=
  (l.filter (fun v => decide (v.kind = k))).map (·.mr)

/-- The descriptor of the block of `DATA_SIZE` bytes at `addr` that is
registered as `mr`. -/
def descriptor (addr : Nat) (mr : ibv_mr) : rpp_rdma_info := ⟨addr, mr.rkey, DATA_SIZE⟩

/-- Initiator descriptors: every `rdma_post_send` sends `send_buf`; at the
first one `send_buf` holds the descriptor of `read_data` with the key of the
handle that `rdma_reg_read` returned, at the second one, which comes after a
receive completion with a positive count, the descriptor of `write_data` with
the key of the handle that `rdma_reg_write` returned; there is no third. -/
def Described (L : Layout) (l : List View) : Prop :=
  ∀ pre x post, l = pre ++ x :: post → x.kind = .rdma_post_send →
    x.buf = some .send_buf ∧
    ((sends pre = 0 ∧
       ∃ mr, answersOf .rdma_reg_read pre = [some mr] ∧ x.sent = descriptor L.read_data mr) ∨
     (sends pre = 1 ∧ 1 ≤ recvDone pre ∧
       ∃ mr, answersOf .rdma_reg_write pre = [some mr] ∧ x.sent = descriptor L.write_data mr))

/-- The call posts a work request on the send queue. -/
def isSendQueue : Kind → Bool
  | .rdma_post_send => true
  | .rdma_post_read => true
  | .rdma_post_write => true
  | _ => false

/-- Send-queue requests are waited for at once: the call that follows an
`rdma_post_send`, `rdma_post_read` or `rdma_post_write` that returned 0 is
`rdma_get_send_comp`. -/
def WaitsForSendQueue (l : List View) : Prop :=
  ∀ pre x post, l = pre ++ x :: post → isSendQueue x.kind = true → x.failed = false →
    ∃ y rest, post = y :: rest ∧ y.kind = .rdma_get_send_comp

/-- The run wrote the line `done`; the events may be given in any order. -/
def completed : List Event → Bool
  | [] => false
  | .call _ _ _ :: t => completed t
  | .out o :: t => decide (o = .printf_done) || completed t

/-- The run wrote a diagnostic; the events may be given in any order. -/
def diagnosed (L : List Event) : Bool := L.any Event.isDiag

/-- What `rpp_setup_buffers` has done when its run `r` ends, where `handles`
reads the four handles from the program variables: it has deregistered
nothing, the handles that it obtained are stored in the variables, and it
returns 1 when its last registration returned `NULL` and 0 when none did. -/
def SetupDone {σ : Type} (handles : σ → List (Option ibv_mr)) (r : Log × Option (Int × σ)) :
    Prop :=
  deregs (callTrace r) = [] ∧
  ∃ ret s1, r.2 = some (ret, s1) ∧
    (handles s1).take (regs (callTrace r)).length = regs (callTrace r) ∧
    ((ret = 0 ∧ ∀ m ∈ regs (callTrace r), m ≠ none) ∨
     (ret = 1 ∧ (regs (callTrace r)).getLast? = some none))

/-- What a helper does on the outcomes `w`: `ret` is the value it returns and
`kinds` are the calls it makes, in order. -/
def Does {σ : Type} (p : M σ Int) (s : σ) (w : World) (ret : Int) (kinds : List Kind) :
    Prop :=
  returned (exec (p s) w Log.start) = some ret ∧
  (callTrace (exec (p s) w Log.start)).map (·.kind) = kinds

/-- The external calls of a list of events, with their arguments. -/
def callsOf : List Event → List Call
  | [] => []
  | .call c _ _ :: t => c :: callsOf t
  | .out _ :: t => callsOf t

/-- The calls of the protocol core among the events, with their arguments. -/
def coreCalls (t : List Event) : List Call := (callsOf t).filter isCore

/-- The three responders agree: the events `L1` (rpp), `L2` (rpp_e) and `L3`
(rpp_h) hold the same calls of the protocol core with the same arguments, the
two `run_server` return the same value, and either all three runs wrote `done`
or none did. -/
def AgreeOK (ret1 ret2 : Option Int) (L1 L2 L3 : List Event) : Prop :=
  coreCalls L1 = coreCalls L2 ∧ coreCalls L1 = coreCalls L3 ∧ ret1 = ret2 ∧
    completed L1 = completed L2 ∧ completed L1 = completed L3

/-- The three responders agree on the runs `r1` (rpp), `r2` (rpp_e) and `r3`
(rpp_h). -/
structure CoreAgree {σ1 σ2 σ3 : Type} (r1 : Log × Option (Int × σ1))
    (r2 : Log × Option (Int × σ2)) (r3 : Log × Option (Unit × σ3)) : Prop where
  /-- The runs agree, read most recent event first. -/
  ok : AgreeOK (returned r1) (returned r2) r1.1.rev r2.1.rev r3.1.rev

/-! ## Checks on a finished run

The statements above quantify over the positions of a call trace.  For a
trace that is given explicitly they are settled by the checks below, which
read the trace most recent call first, as `Log.rev` holds it. -/

/-- Check of `Sequenced`, given the number `n` of receive completions so far. -/
def seqB : Nat → List Tok → Bool
  | _, [] => true
  | n, t :: l =>
    (if t.kind = .rdma_post_read then decide (1 ≤ n)
     else if t.kind = .rdma_post_write then decide (2 ≤ n) else true) &&
    seqB (if t = ⟨.rdma_get_recv_comp, false⟩ then n + 1 else n) l

/-- Check that after every failed step only ordered teardown calls follow. -/
def abortB : List Tok → Bool
  | [] => true
  | t :: l => (if t.failed then teardownFrom 0 (l.map (·.kind)) else true) && abortB l

/-- Some step failed. -/
def anyFailed (l : List Tok) : Bool := l.any (·.failed)

/-- Check that a run whose last registration failed made no progress call. -/
def stuckB (l : List Tok) : Bool :=
  !((l.filter (fun t => isReg t.kind)).getLast?.map (·.failed) == some true) ||
  l.all (fun t => !isProgress t.kind)

/-- Check of `WaitsForSendQueue`. -/
def waitsB : List Tok → Bool
  | [] => true
  | t :: l =>
    (if isSendQueue t.kind && !t.failed then
       (match l with
        | y :: _ => decide (y.kind = .rdma_get_send_comp)
        | [] => false)
     else true) && waitsB l

/-- The checks on the control-flow view of a run, given most recent call
first, together with the value the run returned and whether it wrote `done`. -/
def SkelOK (ret : Option Int) (done : Bool) (toks : List Tok) : Prop :=
  (seqB 0 toks.reverse && abortB toks.reverse && stuckB toks.reverse &&
    waitsB toks.reverse) = true ∧
  ((anyFailed toks = false ∧ done = true ∧ ret = some 0) ∨
   (anyFailed toks = true ∧ done = false ∧ ∃ v, ret = some v ∧ v ≠ 0))

/-- Check of `Targeted` on a trace given most recent call first. -/
def tarR : List View → Prop
  | [] => True
  | x :: e =>
    (if x.kind = .rdma_post_read then
       x.buf = some .read_data ∧ x.remote = (descs e).reverse[0]?
     else if x.kind = .rdma_post_write then
       x.buf = some .write_data ∧ x.remote = (descs e).reverse[1]?
     else True) ∧ tarR e

/-- Check of `PeerLength` on a trace given most recent call first. -/
def lenR : List View → Prop
  | [] => True
  | x :: e =>
    (if x.kind = .rdma_post_read then
       (descs e).head?.map (fun d => some d.size) = some x.length
     else if x.kind = .rdma_post_write then
       (descs e).head?.map (fun d => some d.size) = some x.length
     else True) ∧ lenR e

/-- Check of the handles of `RegistrationReleased` on a trace given most
recent call first. -/
def relR (l : List View) : Prop :=
  if (regs l).head? = some none then
    deregs l = (regs l).tail ∧ ∀ m ∈ (regs l).tail, m ≠ none
  else True

/-- A run whose last registration failed wrote a diagnostic. -/
def diagR (L : List Event) : Prop :=
  if (regs (views L)).head? = some none then diagnosed L = true else True

/-- Check of `Described` on a trace given most recent call first. -/
def descR (L : Layout) : List View → Prop
  | [] => True
  | x :: e =>
    (if x.kind = .rdma_post_send then
       x.buf = some .send_buf ∧
       (if sends e = 0 then
          (answersOf .rdma_reg_read e).map (Option.map (descriptor L.read_data)) = [some x.sent]
        else
          sends e = 1 ∧ 1 ≤ recvDone e ∧
          (answersOf .rdma_reg_write e).map (Option.map (descriptor L.write_data))
            = [some x.sent])
     else True) ∧ descR L e

/-- The checks on the run of a responder: `ret` is what it returned and `L`
its events, most recent first. -/
def RunOK (ret : Option Int) (L : List Event) : Prop :=
  SkelOK ret (completed L) ((views L).map tok) ∧ tarR (views L) ∧ lenR (views L) ∧
    relR (views L)

/-- The checks on the finished run of a responder. -/
structure ResponderOK {σ : Type} (r : Log × Option (Int × σ)) : Prop where
  /-- The checks hold of the events and of the value returned. -/
  ok : RunOK (returned r) r.1.rev

/-- The checks on the run of a connection thread, from its events given most
recent first. -/
def WorkOK (L : List Event) : Prop :=
  ((seqB 0 ((views L).map tok).reverse && stuckB ((views L).map tok).reverse) = true) ∧
  tarR (views L) ∧ lenR (views L) ∧ relR (views L) ∧ diagR L

/-- The checks on the finished run of a connection thread. -/
structure WorkerOK {σ : Type} (r : Log × Option (Unit × σ)) : Prop where
  /-- The checks hold of the events. -/
  ok : WorkOK r.1.rev

/-- The checks on the run of an initiator whose data buffers lie at `L`: `ret`
is what it returned and `E` its events, most recent first. -/
def InitOK (L : Layout) (ret : Option Int) (E : List Event) : Prop :=
  SkelOK ret (completed E) ((views E).map tok) ∧ relR (views E) ∧ descR L (views E)

/-- The checks on the finished run of an initiator. -/
structure InitiatorOK {σ : Type} (L : Layout) (r : Log × Option (Int × σ)) : Prop where
  /-- The checks hold of the events and of the value returned. -/
  ok : InitOK L (returned r) r.1.rev

namespace rpp_h

/-- Addresses of the data buffers of the connection whose run ended in `r`:
the pointers `ct->read_data` and `ct->write_data`. -/
def final_layout (r : Log × Option (Int × State)) : Layout :=
  match r.2 with
  | some (_, s) =>
    match s.context with
    | some ct => ⟨ct.read_data, ct.write_data⟩
    | none => ⟨0, 0⟩
  | none => ⟨0, 0⟩

/-- The checks on the finished run of an initiator of rpp_h. -/
structure ClientOK (r : Log × Option (Int × State)) : Prop where
  /-- The descriptors sent are those of the data buffers. -/
  ok : descR (final_layout r) (views r.1.rev)

end rpp_h

/-! ## Some outcomes of the external calls -/

/-- The answer of call number `n` when nothing goes wrong: the call returns 0
(for a completion wait: no completion), a registration returns a fresh handle
and the buffers are left as they were at the start. -/
def smoothAnswer (n : Nat) : Answer :=
  { ret := 0, mr := some ⟨n, 100 + n⟩, ptr := some n, status := 0, event := 4,
    sigint := false, mem := rpp.mem0 }

/-- Every call returns 0. -/
def smooth : World := smoothAnswer

/-- Every call returns 0, except that call number `k` returns `NULL` for the
registration handle. -/
def failingReg (k : Nat) : World :=
  fun n => if n = k then { smoothAnswer n with mr := none } else smoothAnswer n

/-- Every call returns 0, except that call number `k` returns `v`. -/
def returning (k : Nat) (v : Int) : World :=
  fun n => if n = k then { smoothAnswer n with ret := v } else smoothAnswer n

/-- The variables of rpp when all four buffers are registered. -/
def rpp.registered : rpp.Globals :=
  { rpp.start 1 with
    recv_mr := some ⟨5, 105⟩, send_mr := some ⟨6, 106⟩, read_mr := some ⟨7, 107⟩,
    write_mr := some ⟨8, 108⟩ }

/-- Every call returns 0, except that call number `k` fetches an event with
the given `status` and `event` fields. -/
def fetching (k : Nat) (status event : Int) : World :=
  fun n => if n = k then { smoothAnswer n with status := status, event := event }
    else smoothAnswer n

/-- The outcomes in which the first `k` calls are answered by `a` and the
calls from then on by `w`. -/
def after (k : Nat) (a : Answer) (w : World) (n : Nat) : Answer :=
  if n < k then a else w (n - k)

/-- The answer of a call that succeeds with the pointer `p` and leaves the
buffers holding `m`. -/
def success (p : Nat) (m : Mem) : Answer :=
  { ret := 0, mr := none, ptr := some p, status := 0, event := 0, sigint := false, mem := m }

/-! ## Two sides over a reliable connection

`Fabric.run` lets an initiator and a responder run against each other.  The
external calls are answered by a model of the adapter in which every call
succeeds: a send is delivered into the `recv_buf` of the peer when the peer
waits for a receive completion, and an RDMA READ or WRITE copies `length`
bytes between the local buffer of the poster and the registered buffer of the
peer that the pair (address, key) names. -/

namespace Fabric

/-- The two ends of the connection. -/
inductive End where
  | initiator
  | responder
deriving DecidableEq, Repr

/-- The other end. -/
def End.peer : End → End
  | .initiator => .responder
  | .responder => .initiator

/-- A registered buffer: its key, the end that registered it, the buffer and
its address. -/
structure Region where
  /-- The remote key. -/
  rkey : Nat
  /-- The end that registered the buffer. -/
  owner : End
  /-- The buffer. -/
  buf : Buf
  /-- The address of the buffer at its owner. -/
  addr : Nat
deriving DecidableEq, Repr

/-- What the adapter keeps for one end. -/
structure Port where
  /-- The addresses of the data buffers. -/
  layout : Layout
  /-- The registered buffers as the adapter sees them. -/
  mem : Mem
  /-- The messages that have arrived and are not yet received, oldest first. -/
  inbox : List rpp_rdma_info
  /-- Number of receives posted and not yet used. -/
  posted : Nat
  /-- Number of finished send-queue requests whose completion is not yet taken. -/
  done : Nat
deriving DecidableEq, Repr

/-- The state of the connection. -/
structure Net where
  /-- The keys of the adapter: the `n`-th registration gets the key `keys n`. -/
  keys : Nat → Nat
  /-- The registered buffers of both ends, the most recent one first. -/
  regions : List Region
  /-- The number of the next registration. -/
  next : Nat
  /-- Whether the responder has accepted the connection. -/
  accepted : Bool
  /-- The initiator's end. -/
  initiator : Port
  /-- The responder's end. -/
  responder : Port

/-- The port of an end. -/
def Net.port (n : Net) : End → Port
  | .initiator => n.initiator
  | .responder => n.responder

/-- Replace the port of an end. -/
def Net.setPort (n : Net) (e : End) (p : Port) : Net :=
  match e with
  | .initiator => { n with initiator := p }
  | .responder => { n with responder := p }

/-- The bytes of a data buffer. -/
def data (m : Mem) : Buf → Option (List Nat)
  | .read_data => some m.read_data
  | .write_data => some m.write_data
  | .recv_buf => none
  | .send_buf => none

/-- Overwrite a data buffer. -/
def setData (m : Mem) (b : Buf) (d : List Nat) : Mem :=
  match b with
  | .read_data => { m with read_data := d }
  | .write_data => { m with write_data := d }
  | .recv_buf => m
  | .send_buf => m

/-- The address of a buffer; the descriptor buffers are not targets of remote
access and get the address 0. -/
def address (L : Layout) : Buf → Nat
  | .read_data => L.read_data
  | .write_data => L.write_data
  | .recv_buf => 0
  | .send_buf => 0

/-- Copy `len` bytes from the start of `src` over the start of `dst`. -/
def copy (len : Nat) (src dst : List Nat) : List Nat := src.take len ++ dst.drop len

/-- The answer of a call that succeeds. -/
def ok (m : Mem) : Answer :=
  { ret := 0, mr := none, ptr := some 1, status := 0, event := 4, sigint := false, mem := m }

/-- The answer of a call that fails. -/
def failure (m : Mem) : Answer := { ok m with ret := -1 }

/-- Register the buffer `b` of the end `e`: the registration gets the next
number as its handle and the key that the adapter has for that number. -/
def register (e : End) (b : Buf) (n : Net) : Answer × Net :=
  ({ ok (n.port e).mem with mr := some ⟨n.next, n.keys n.next⟩ },
   { n with
     regions := ⟨n.keys n.next, e, b, address (n.port e).layout b⟩ :: n.regions
     next := n.next + 1 })

/-- The region that the pair `(raddr, rkey)` names at the end `e`. -/
def lookup (n : Net) (e : End) (raddr rkey : Nat) : Option Region :=
  n.regions.find? (fun r => decide (r.rkey = rkey ∧ r.owner = e ∧ r.addr = raddr))

end Fabric

namespace Fabric

/-- Answer the call `c` of the end `e`, whose peer is blocked in the call
`peerCall` (if any); `none` when the call has to wait. -/
def serve (e : End) (c : Call) (peerCall : Option Call) (n : Net) : Option (Answer × Net) :=
  let me := n.port e
  let you := n.port e.peer
  match c with
  | .rdma_get_request =>
    if peerCall = some .rdma_connect then some (ok me.mem, n) else none
  | .rdma_accept => some (ok me.mem, { n with accepted := true })
  | .rdma_connect => if n.accepted then some (ok me.mem, n) else none
  | .rdma_reg_msgs b _ => some (register e b n)
  | .rdma_reg_read b _ => some (register e b n)
  | .rdma_reg_write b _ => some (register e b n)
  | .rdma_post_recv _ _ _ => some (ok me.mem, n.setPort e { me with posted := me.posted + 1 })
  | .rdma_post_send _ _ _ =>
    some (ok me.mem,
      (n.setPort e { me with done := me.done + 1 }).setPort e.peer
        { you with inbox := you.inbox ++ [me.mem.send_buf] })
  | .rdma_get_send_comp =>
    if 0 < me.done then
      some ({ ok me.mem with ret := 1 }, n.setPort e { me with done := me.done - 1 })
    else none
  | .rdma_get_recv_comp =>
    match me.inbox with
    | msg :: rest =>
      if 0 < me.posted then
        some ({ ok { me.mem with recv_buf := msg } with ret := 1 },
          n.setPort e { me with
            mem := { me.mem with recv_buf := msg }, inbox := rest, posted := me.posted - 1 })
      else none
    | [] => none
  | .rdma_post_read b len _ raddr rkey =>
    match lookup n e.peer raddr rkey with
    | some r =>
      match data you.mem r.buf, data me.mem b with
      | some src, some dst =>
        some (ok (setData me.mem b (copy len src dst)),
          n.setPort e { me with mem := setData me.mem b (copy len src dst), done := me.done + 1 })
      | _, _ => some (failure me.mem, n)
    | none => some (failure me.mem, n)
  | .rdma_post_write b len _ raddr rkey =>
    match lookup n e.peer raddr rkey with
    | some r =>
      match data me.mem b, data you.mem r.buf with
      | some src, some dst =>
        some (ok me.mem,
          (n.setPort e { me with done := me.done + 1 }).setPort e.peer
            { you with mem := setData you.mem r.buf (copy len src dst) })
      | _, _ => some (failure me.mem, n)
    | none => some (failure me.mem, n)
  | _ => some (ok me.mem, n)

/-- The two programs and the connection between them. -/
structure Pair (α : Type) where
  /-- What is left to run of the initiator. -/
  initiator : Prog α
  /-- What is left to run of the responder. -/
  responder : Prog α
  /-- The connection. -/
  net : Net
  /-- The lines written so far, the most recent one first. -/
  outs : List (End × Out)

/-- The program of an end. -/
def Pair.prog {α : Type} (st : Pair α) : End → Prog α
  | .initiator => st.initiator
  | .responder => st.responder

/-- The call in which a program is blocked. -/
def waiting {α : Type} : Prog α → Option Call
  | .ext c _ _ => some c
  | _ => none

/-- Continue the end `e` with `p`: when `p` starts with a call, the adapter
sees the buffers of `e` as they are at the call. -/
def Pair.resume {α : Type} (st : Pair α) (e : End) (p : Prog α) (n : Net) : Pair α :=
  let n1 := match p with
    | .ext _ m _ => n.setPort e { n.port e with mem := m }
    | _ => n
  match e with
  | .initiator => { st with initiator := p, net := n1 }
  | .responder => { st with responder := p, net := n1 }

/-- One step of the end `e`: a line is written, or a call is answered; `none`
when `e` has finished or has to wait. -/
def step {α : Type} (e : End) (st : Pair α) : Option (Pair α) :=
  match st.prog e with
  | .out o p => some ({ st with outs := (e, o) :: st.outs }.resume e p st.net)
  | .ext c _ k =>
    match serve e c (waiting (st.prog e.peer)) st.net with
    | some (a, n) => some (st.resume e (k a) n)
    | none => none
  | .ret _ => none
  | .fault => none

/-- Run both ends: they get their turns in the order of `schedule`, and an
end that has finished or has to wait when it is its turn passes the turn to
the other end. -/
def run {α : Type} : List End → Pair α → Pair α
  | [], st => st
  | e :: schedule, st =>
    match step e st with
    | some st1 => run schedule st1
    | none =>
      match step e.peer st with
      | some st1 => run schedule st1
      | none => st

/-- The result of a program that has finished. -/
def result {α : Type} : Prog α → Option α
  | .ret a => some a
  | _ => none

/-- A port on which nothing has happened yet. -/
def Port.fresh (L : Layout) (m : Mem) : Port :=
  { layout := L, mem := m, inbox := [], posted := 0, done := 0 }

/-- The initiator `run_client` and the responder `run_server` of rpp, each in
a fresh process, with their data buffers at `Li` and `Lr`, over an adapter
that hands out the keys `keys`. -/
def exchange (keys : Nat → Nat) (Li Lr : Layout) : Pair (Int × RDMA.rpp.Globals) :=
  { initiator := RDMA.rpp.run_client Li (RDMA.rpp.start 0),
    responder := RDMA.rpp.run_server (RDMA.rpp.start 1),
    net := { keys := keys, regions := [], next := 1, accepted := false,
             initiator := Port.fresh Li RDMA.rpp.mem0,
             responder := Port.fresh Lr RDMA.rpp.mem0 },
    outs := [] }

/-- What the exchange has achieved in the state `st`: both ends have returned
0, the responder's `read_data` holds what the initiator's `read_data` holds,
the string `aaa`, which the responder has printed, and the initiator's
`write_data` holds what the responder's `write_data` holds, the string `bbb`,
which the initiator has printed. -/
def RoundTrip (st : Pair (Int × RDMA.rpp.Globals)) : Prop :=
  ∃ gi gr, result st.initiator = some (0, gi) ∧ result st.responder = some (0, gr) ∧
    gr.mem.read_data = gi.mem.read_data ∧ cstring gr.mem.read_data = [97, 97, 97] ∧
    gi.mem.write_data = gr.mem.write_data ∧ cstring gi.mem.write_data = [98, 98, 98] ∧
    (End.responder, Out.printf_read_data [97, 97, 97]) ∈ st.outs ∧
    (End.initiator, Out.printf_write_data [98, 98, 98]) ∈ st.outs

end Fabric

/-! ### Schedules

Whether the outcome of a run depends on the order in which the two ends get
their turns is settled for a system that is given by its step function alone:
`stp e x` is the state after a step of the end `e` from the state `x`, and
`none` when `e` cannot move. -/

namespace Fabric

/-- Run the system with the step function `stp`: the ends get their turns in
the order of the schedule, and an end that cannot move when it is its turn
passes the turn to the other end. -/
def runWith {S : Type} (stp : End → S → Option S) : List End → S → S
  | [], x => x
  | e :: es, x =>
    match stp e x with
    | some y => runWith stp es y
    | none =>
      match stp e.peer x with
      | some y => runWith stp es y
      | none => x

/-- The state after `j` steps of the responder. -/
def advance {S : Type} (stp : End → S → Option S) : Nat → S → Option S
  | 0, x => some x
  | j + 1, x =>
    match stp .responder x with
    | some y => advance stp j y
    | none => none

/-- The steps of the two ends commute where both can move: `a` is the state
after a step of the initiator, if it can move, and `b` the state after a step
of the responder; the responder's step after `a` and the initiator's step
after `b` lead to the same state. -/
def commutes {S : Type} (stp : End → S → Option S) : Option S → S → Prop
  | none, _ => True
  | some a, b => stp .responder a = stp .initiator b ∧ stp .initiator b ≠ none

/-- The steps of the two ends commute in `x` and in the states that the
responder reaches from `x` on its own, and the responder comes to a halt
within `m` steps. -/
def chainOK {S : Type} (stp : End → S → Option S) : Nat → S → Prop
  | 0, x => stp .responder x = none
  | m + 1, x =>
    match stp .responder x with
    | none => True
    | some b => commutes stp (stp .initiator x) b ∧ chainOK stp m b

/-- The check `chainOK` holds of `x` and of every state of the run from `x` in
which the initiator moves whenever it can, and that run comes to a halt within
`n` steps. -/
def gridOK {S : Type} (stp : End → S → Option S) : Nat → S → Prop
  | 0, x => stp .initiator x = none ∧ stp .responder x = none
  | n + 1, x =>
    chainOK stp (n + 1) x ∧
    match stp .initiator x with
    | some a => gridOK stp n a
    | none =>
      match stp .responder x with
      | some b => gridOK stp n b
      | none => True

/-- The state `x` is reached from a state `c` of the run in which the
initiator moves whenever it can by steps of the responder alone; `r` steps are
left, and that run ends in `F`. -/
def Reached {S : Type} (stp : End → S → Option S) (r : Nat) (x F : S) : Prop :=
  ∃ c j, gridOK stp (r + j) c ∧ advance stp j c = some x ∧
    runWith stp (List.replicate (r + j) .initiator) c = F

/-! ### States up to what no step looks at

Two things in a state depend on the order of the turns and are looked at by
no step: the record of the buffers in a call that is waiting (the adapter has
taken it over into the port when the program arrived at the call), and the
order in which lines of different ends stand in `outs`. -/

/-- Buffer contents that stand for any. -/
def blank : Mem :=
  { recv_buf := ⟨0, 0, 0⟩, send_buf := ⟨0, 0, 0⟩, read_data := [], write_data := [] }

/-- A program that waits in a call, without the record of what the buffers
held when the call was made. -/
def forget {α : Type} : Prog α → Prog α
  | .ext c _ k => .ext c blank k
  | .out o p => .out o p
  | .ret a => .ret a
  | .fault => .fault

/-- The lines of the initiator, followed by the lines of the responder. -/
def tidy (l : List (End × Out)) : List (End × Out) :=
  l.filter (fun x => decide (x.1 = End.initiator)) ++
    l.filter (fun x => decide (x.1 = End.responder))

/-- A state without the records of the buffers in the two calls that are
waiting, and with the lines written sorted by the end that wrote them. -/
def erase {α : Type} (st : Pair α) : Pair α :=
  { st with
    initiator := forget st.initiator, responder := forget st.responder, outs := tidy st.outs }

/-- One step of the end `e`, up to what no step looks at. -/
def stepE {α : Type} (e : End) (st : Pair α) : Option (Pair α) := (step e st).map erase

/-! ### Pieces for rewriting

The functions below say the same as `step`, `runWith`, `chainOK` and `gridOK`,
cut into pieces that can be rewritten one after the other. -/

/-- The state after the adapter has dealt with a call of the end `e` that
continues with `k`: `none` when the call has to wait. -/
def answered {α : Type} (st : Pair α) (e : End) (k : Answer → Prog α) :
    Option (Answer × Net) → Option (Pair α)
  | some (a, n) => some (st.resume e (k a) n)
  | none => none

/-- What is left of `runWith stp (e :: es) x` when the other end has made its
step, or could not. -/
def runPeer {S : Type} (stp : End → S → Option S) (es : List End) (x : S) : Option S → S
  | some y => runWith stp es y
  | none => x

/-- What is left of `runWith stp (e :: es) x` when the end `e` has made its
step, or could not. -/
def runFirst {S : Type} (stp : End → S → Option S) (e : End) (es : List End) (x : S) :
    Option S → S
  | some y => runWith stp es y
  | none => runPeer stp es x (stp e.peer x)

/-- What `chainOK stp (m + 1) x` says, given the step of the responder. -/
def chainStep {S : Type} (stp : End → S → Option S) (m : Nat) (x : S) : Option S → Prop
  | none => True
  | some b => commutes stp (stp .initiator x) b ∧ chainOK stp m b

/-- What `gridOK stp (n + 1) x` says about the run, given the step of the
responder when the initiator cannot move. -/
def gridPeer {S : Type} (stp : End → S → Option S) (n : Nat) : Option S → Prop
  | some b => gridOK stp n b
  | none => True

/-- What `gridOK stp (n + 1) x` says about the run, given the step of the
initiator. -/
def gridFirst {S : Type} (stp : End → S → Option S) (n : Nat) (x : S) : Option S → Prop
  | some a => gridOK stp n a
  | none => gridPeer stp n (stp .responder x)

end Fabric
/-! ## The value a run returns -/

theorem thenExec_some {σ α β : Type} (l : Log) (a : α) (s : σ)
    (f : α → M σ β) (w : World) : thenExec (l, some (a, s)) f w = exec (f a s) w l := rfl

theorem thenExec_none {σ α β : Type} (l : Log)
    (f : α → M σ β) (w : World) : thenExec (l, (none : Option (α × σ))) f w = (l, none) := rfl

theorem thenExec_ite {σ α β : Type} (c : Prop) [Decidable c]
    (x y : Log × Option (α × σ)) (f : α → M σ β) (w : World) :
    thenExec (if c then x else y) f w = if c then thenExec x f w else thenExec y f w := by
  split <;> rfl

theorem exec_prog_bind {α β : Type} (p : Prog α) (f : α → Prog β) (w : World) (l : Log) :
    exec (p.bind f) w l =
      match (exec p w l).2 with
      | none => ((exec p w l).1, none)
      | some a => exec (f a) w (exec p w l).1 := by
  induction p generalizing l with
  | ret a => rfl
  | fault => rfl
  | out o p ih => simp only [Prog.bind, exec, ih]
  | ext c m k ih => simp only [Prog.bind, exec, ih]

theorem exec_bind {σ α β : Type} (p : M σ α) (f : α → M σ β) (s : σ) (w : World) (l : Log) :
    exec ((p >>= f) s) w l = thenExec (exec (p s) w l) f w := by
  show exec ((p s).bind fun r => f r.1 r.2) w l = _
  rw [exec_prog_bind]
  unfold thenExec
  cases (exec (p s) w l).2 <;> rfl

theorem exec_pure {σ α : Type} (a : α) (s : σ) (w : World) (l : Log) :
    exec ((pure a : M σ α) s) w l = (l, some (a, s)) := rfl

theorem exec_get {σ : Type} (s : σ) (w : World) (l : Log) :
    exec ((get : M σ σ) s) w l = (l, some (s, s)) := rfl

theorem exec_modify {σ : Type} (f : σ → σ) (s : σ) (w : World) (l : Log) :
    exec ((modify f : M σ PUnit) s) w l = (l, some (PUnit.unit, f s)) := rfl

theorem exec_emit {σ : Type} (o : Out) (s : σ) (w : World) (l : Log) :
    exec ((emit o : M σ Unit) s) w l = (⟨l.n, .out o :: l.rev⟩, some ((), s)) := rfl

theorem exec_crash {σ α : Type} (s : σ) (w : World) (l : Log) :
    exec ((crash : M σ α) s) w l = (l, none) := rfl

theorem exec_deref_rkey_some {σ : Type} (mr : ibv_mr) (s : σ) (w : World) (l : Log) :
    exec ((deref_rkey (some mr) : M σ Nat) s) w l = (l, some (mr.rkey, s)) := rfl

theorem exec_deref_rkey_none {σ : Type} (s : σ) (w : World) (l : Log) :
    exec ((deref_rkey none : M σ Nat) s) w l = (l, none) := rfl

theorem exec_ite {σ α : Type} (c : Prop) [Decidable c] (p q : M σ α) (s : σ) (w : World)
    (l : Log) :
    exec ((if c then p else q) s) w l = if c then exec (p s) w l else exec (q s) w l := by
  split <;> rfl

/-- A conditional diagnostic only adds a line to the trace. -/
theorem exec_when_emit {σ : Type} (c : Prop) [Decidable c] (o : Out) (s : σ) (w : World)
    (l : Log) :
    exec ((if c then emit o else pure PUnit.unit : M σ PUnit) s) w l
      = (⟨l.n, (if c then [.out o] else []) ++ l.rev⟩, some (PUnit.unit, s)) := by
  split <;> rfl

/-- The same with the branches exchanged. -/
theorem exec_unless_emit {σ : Type} (c : Prop) [Decidable c] (o : Out) (s : σ) (w : World)
    (l : Log) :
    exec ((if c then pure PUnit.unit else emit o : M σ PUnit) s) w l
      = (⟨l.n, (if c then [] else [.out o]) ++ l.rev⟩, some (PUnit.unit, s)) := by
  split <;> rfl

/-- Case analysis on the outcome of a conditional, for a named property. -/
theorem of_ite {α : Type} (Q : α → Prop) (c : Prop) [Decidable c] (a b : α)
    (ha : c → Q a) (hb : ¬c → Q b) : Q (if c then a else b) := by
  split
  · exact ha ‹_›
  · exact hb ‹_›

/-! ## Traces -/

@[simp] theorem views_nil : views [] = [] := rfl

@[simp] theorem views_call (c : Call) (m : Mem) (a : Answer) (t : List Event) :
    views (.call c m a :: t) = view c m a :: views t := rfl

@[simp] theorem views_out (o : Out) (t : List Event) : views (.out o :: t) = views t := rfl

@[simp] theorem views_append (t u : List Event) : views (t ++ u) = views t ++ views u := by
  induction t with
  | nil => rfl
  | cons e t ih => cases e <;> simp [ih]

@[simp] theorem views_when_out (c : Prop) [Decidable c] (o : Out) :
    views (if c then [.out o] else []) = [] := by
  split <;> rfl

@[simp] theorem views_unless_out (c : Prop) [Decidable c] (o : Out) :
    views (if c then [] else [.out o]) = [] := by
  split <;> rfl

theorem views_reverse (t : List Event) : views t.reverse = (views t).reverse := by
  induction t with
  | nil => rfl
  | cons e t ih => cases e <;> simp [ih]

theorem callTrace_eq {α : Type} (r : Log × Option α) :
    callTrace r = (views r.1.rev).reverse := by
  simp [callTrace, Log.trace, views_reverse]

theorem view_wf (c : Call) (m : Mem) (a : Answer) : (view c m a).wf := by
  cases c <;> simp [View.wf, view, Call.kind, failed, isReg, teardownPhase]

theorem views_wf (t : List Event) : ∀ v ∈ views t, v.wf := by
  induction t with
  | nil => simp
  | cons e t ih =>
    cases e with
    | call c m a =>
      intro v hv
      rcases List.mem_cons.mp hv with rfl | hv
      · exact view_wf c m a
      · exact ih v hv
    | out o => exact ih

theorem recvDone_reverse (l : List View) : recvDone l.reverse = recvDone l := by
  unfold recvDone
  exact (List.reverse_perm l).countP_eq _

theorem descs_reverse (l : List View) : descs l.reverse = (descs l).reverse := by
  simp [descs, List.filter_reverse]

theorem regs_reverse (l : List View) : regs l.reverse = (regs l).reverse := by
  simp [regs, List.filter_reverse]

theorem deregs_reverse (l : List View) : deregs l.reverse = (deregs l).reverse := by
  simp [deregs, List.filter_reverse]

theorem tok_recvDone (x : View) :
    (tok x = ⟨.rdma_get_recv_comp, false⟩) ↔ isRecvDone x = true := by
  simp [tok, isRecvDone]

theorem seqB_sound (l : List View) (n : Nat) (h : seqB n (l.map tok) = true) :
    ∀ pre x post, l = pre ++ x :: post →
      (x.kind = .rdma_post_read → 1 ≤ n + recvDone pre) ∧
      (x.kind = .rdma_post_write → 2 ≤ n + recvDone pre) := by
  induction l generalizing n with
  | nil =>
    intro pre x post h'
    exact absurd h' (by simp)
  | cons y l ih =>
    simp only [List.map_cons, seqB, Bool.and_eq_true] at h
    obtain ⟨h0, h1⟩ := h
    intro pre x post h'
    cases pre with
    | nil =>
      simp only [List.nil_append, List.cons.injEq] at h'
      obtain ⟨rfl, rfl⟩ := h'
      simp only [recvDone, List.countP_nil, Nat.add_zero]
      constructor
      · intro hk
        have : (tok y).kind = .rdma_post_read := hk
        simpa [this] using h0
      · intro hk
        have : (tok y).kind = .rdma_post_write := hk
        simpa [this] using h0
    | cons z pre =>
      simp only [List.cons_append, List.cons.injEq] at h'
      obtain ⟨rfl, rfl⟩ := h'
      have := ih _ h1 pre x post rfl
      by_cases hz : isRecvDone y = true
      · have ht : tok y = ⟨.rdma_get_recv_comp, false⟩ := (tok_recvDone y).mpr hz
        simp only [ht, if_true] at this
        simp only [recvDone, List.countP_cons, hz, if_true] at this ⊢
        constructor
        · intro hk; have := this.1 hk; omega
        · intro hk; have := this.2 hk; omega
      · have ht : ¬ tok y = ⟨.rdma_get_recv_comp, false⟩ := fun e => hz ((tok_recvDone y).mp e)
        simp only [ht, if_false] at this
        simp only [recvDone, List.countP_cons, hz] at this ⊢
        simpa using this

theorem sequenced_of_skel (rv : List View)
    (h : seqB 0 ((rv.map tok).reverse) = true) : Sequenced rv.reverse := by
  intro pre x post hl
  have := seqB_sound rv.reverse 0 (by simpa [List.map_reverse] using h) pre x post hl
  simpa using this

theorem anyFailed_of_mem (l : List View) (x : View) (hx : x ∈ l)
    (hf : x.failed = true) : anyFailed (l.map tok) = true := by
  simp only [anyFailed, List.any_eq_true, List.mem_map]
  exact ⟨tok x, ⟨x, hx, rfl⟩, hf⟩

theorem stuckB_sound (l : List View) (hwf : ∀ v ∈ l, v.wf) (h : stuckB (l.map tok) = true)
    (hl : (regs l).getLast? = some none) : ∀ x ∈ l, isProgress x.kind = false := by
  have hlast : ((l.map tok).filter (fun t => isReg t.kind)).getLast?.map (·.failed)
      = some true := by
    have e1 : (l.map tok).filter (fun t => isReg t.kind)
        = (l.filter (fun x => isReg x.kind)).map tok := by
      rw [List.filter_map]
      rfl
    rw [e1, List.getLast?_map]
    simp only [regs, List.getLast?_map, Option.map_eq_some'] at hl
    obtain ⟨y, hy, hmr⟩ := hl
    have hym := List.mem_of_getLast?_eq_some hy
    have hyreg : isReg y.kind = true := by
      simpa using (List.mem_filter.mp hym).2
    have hf : y.failed = true := by
      rw [(hwf y (List.mem_filter.mp hym).1).1 hyreg]
      simp [hmr]
    simp [hy, tok, hf]
  intro x hx
  simp only [stuckB, hlast, beq_self_eq_true, Bool.not_true, Bool.false_or, List.all_eq_true,
    List.mem_map, forall_exists_index, and_imp, forall_apply_eq_imp_iff₂] at h
  simpa [tok] using h x hx

theorem released_of_rev (rv : List View) (hwf : ∀ v ∈ rv, v.wf)
    (hs : stuckB ((rv.map tok).reverse) = true) (h : relR rv) :
    RegistrationReleased rv.reverse := by
  intro hl
  have h3 := stuckB_sound rv.reverse (by simpa using hwf)
    (by simpa [List.map_reverse] using hs) hl
  rw [regs_reverse, List.getLast?_reverse] at hl
  obtain ⟨h1, h2⟩ : deregs rv = (regs rv).tail ∧ ∀ m ∈ (regs rv).tail, m ≠ none := by
    simpa [relR, hl] using h
  refine ⟨?_, ?_, h3⟩
  · rw [deregs_reverse, regs_reverse, h1]
    cases regs rv <;> simp
  · intro m hm
    rw [regs_reverse] at hm
    apply h2
    cases hr : regs rv with
    | nil => simp [hr] at hm
    | cons a t =>
      simp only [hr, List.reverse_cons, List.dropLast_concat, List.mem_reverse] at hm
      simpa using hm

theorem tarR_split (rv : List View) (h : tarR rv) :
    ∀ a x e, rv = a ++ x :: e →
      (x.kind = .rdma_post_read →
        x.buf = some .read_data ∧ x.remote = (descs e).reverse[0]?) ∧
      (x.kind = .rdma_post_write →
        x.buf = some .write_data ∧ x.remote = (descs e).reverse[1]?) := by
  induction rv with
  | nil =>
    intro a x e h'
    exact absurd h' (by simp)
  | cons y rv ih =>
    obtain ⟨h0, h1⟩ := h
    intro a x e h'
    cases a with
    | nil =>
      simp only [List.nil_append, List.cons.injEq] at h'
      obtain ⟨rfl, rfl⟩ := h'
      constructor
      · intro hk
        simpa [hk] using h0
      · intro hk
        have hne : ¬ y.kind = .rdma_post_read := by rw [hk]; decide
        simpa [hk, hne] using h0
    | cons z a =>
      simp only [List.cons_append, List.cons.injEq] at h'
      obtain ⟨rfl, rfl⟩ := h'
      exact ih h1 a x e rfl

theorem targeted_of_rev (rv : List View) (h : tarR rv) : Targeted rv.reverse := by
  intro pre x post hl
  have h2 : rv = post.reverse ++ x :: pre.reverse := by
    have := congrArg List.reverse hl
    simpa using this
  have := tarR_split rv h post.reverse x pre.reverse h2
  simpa [descs_reverse] using this

theorem exec_deref_rkey {σ : Type} (o : Option ibv_mr) (s : σ) (w : World) (l : Log) :
    exec ((deref_rkey o : M σ Nat) s) w l =
      if o = none then (l, none) else (l, some ((o.getD ⟨0, 0⟩).rkey, s)) := by
  cases o <;> rfl

theorem map_descriptor (o : Option ibv_mr) (a : Nat) (h : ¬ o = none) :
    Option.map (descriptor a) o = some ⟨a, (o.getD ⟨0, 0⟩).rkey, DATA_SIZE⟩ := by
  cases o with
  | none => exact absurd rfl h
  | some mr => rfl

theorem sends_reverse (l : List View) : sends l.reverse = sends l := by
  unfold sends
  exact (List.reverse_perm l).countP_eq _

theorem answersOf_reverse (k : Kind) (l : List View) :
    answersOf k l.reverse = (answersOf k l).reverse := by
  simp [answersOf, List.filter_reverse]

theorem map_eq_singleton_some {α β : Type} (f : α → β) (l : List (Option α)) (y : β)
    (h : l.map (Option.map f) = [some y]) : ∃ a, l = [some a] ∧ y = f a := by
  match l, h with
  | [some a], h =>
    refine ⟨a, rfl, ?_⟩
    simpa using h.symm

theorem descR_split (L : Layout) (rv : List View) (h : descR L rv) :
    ∀ a x e, rv = a ++ x :: e → x.kind = .rdma_post_send →
      x.buf = some .send_buf ∧
      ((sends e = 0 ∧ ∃ mr, answersOf .rdma_reg_read e = [some mr] ∧
          x.sent = descriptor L.read_data mr) ∨
       (sends e = 1 ∧ 1 ≤ recvDone e ∧ ∃ mr, answersOf .rdma_reg_write e = [some mr] ∧
          x.sent = descriptor L.write_data mr)) := by
  induction rv with
  | nil =>
    intro a x e h'
    exact absurd h' (by simp)
  | cons y rv ih =>
    obtain ⟨h0, h1⟩ := h
    intro a x e h' hk
    cases a with
    | nil =>
      simp only [List.nil_append, List.cons.injEq] at h'
      obtain ⟨rfl, rfl⟩ := h'
      rw [if_pos hk] at h0
      refine ⟨h0.1, ?_⟩
      by_cases hs : sends rv = 0
      · rw [if_pos hs] at h0
        exact Or.inl ⟨hs, map_eq_singleton_some _ _ _ h0.2⟩
      · rw [if_neg hs] at h0
        exact Or.inr ⟨h0.2.1, h0.2.2.1, map_eq_singleton_some _ _ _ h0.2.2.2⟩
    | cons z a =>
      simp only [List.cons_append, List.cons.injEq] at h'
      obtain ⟨rfl, rfl⟩ := h'
      exact ih h1 a x e rfl hk

theorem described_of_rev (L : Layout) (rv : List View) (h : descR L rv) :
    Described L rv.reverse := by
  intro pre x post hl hk
  have h2 : rv = post.reverse ++ x :: pre.reverse := by
    have := congrArg List.reverse hl
    simpa using this
  have := descR_split L rv h post.reverse x pre.reverse h2 hk
  simp only [sends_reverse, recvDone_reverse, answersOf_reverse] at this
  refine ⟨this.1, ?_⟩
  rcases this.2 with ⟨h0, mr, h3, h4⟩ | ⟨h0, h1, mr, h3, h4⟩
  · refine Or.inl ⟨h0, mr, ?_, h4⟩
    simpa using congrArg List.reverse h3
  · refine Or.inr ⟨h0, h1, mr, ?_, h4⟩
    simpa using congrArg List.reverse h3

/-! ## More checks -/

@[simp] theorem completed_nil : completed [] = false := rfl

@[simp] theorem completed_call (c : Call) (m : Mem) (a : Answer) (t : List Event) :
    completed (.call c m a :: t) = completed t := rfl

@[simp] theorem completed_out (o : Out) (t : List Event) :
    completed (.out o :: t) = (decide (o = .printf_done) || completed t) := rfl

@[simp] theorem completed_append (t u : List Event) :
    completed (t ++ u) = (completed t || completed u) := by
  induction t with
  | nil => rfl
  | cons e t ih => cases e <;> simp [ih, Bool.or_assoc]

theorem completed_when_perror (c : Prop) [Decidable c] (s : String) :
    completed (if c then [.out (.perror s)] else []) = false := by
  split <;> rfl

theorem completed_unless_perror (c : Prop) [Decidable c] (s : String) :
    completed (if c then [] else [.out (.perror s)]) = false := by
  split <;> rfl

theorem completed_unless_remote (c : Prop) [Decidable c] (a b d : Nat) :
    completed (if c then [] else [.out (.printf_remote a b d)]) = false := by
  split <;> rfl

theorem completed_reverse (t : List Event) : completed t.reverse = completed t := by
  induction t with
  | nil => rfl
  | cons e t ih => cases e <;> simp [ih, Bool.or_comm]

theorem waitsB_sound (l : List View) (h : waitsB (l.map tok) = true) : WaitsForSendQueue l := by
  induction l with
  | nil =>
    intro pre x post h'
    exact absurd h' (by simp)
  | cons y l ih =>
    simp only [List.map_cons, waitsB, Bool.and_eq_true] at h
    obtain ⟨h0, h1⟩ := h
    intro pre x post h' hk hf
    cases pre with
    | nil =>
      simp only [List.nil_append, List.cons.injEq] at h'
      obtain ⟨rfl, rfl⟩ := h'
      have e1 : (tok y).kind = y.kind := rfl
      have e2 : (tok y).failed = y.failed := rfl
      rw [e1, e2, hk, hf] at h0
      cases l with
      | nil => simp at h0
      | cons z rest =>
        refine ⟨z, rest, rfl, ?_⟩
        simpa [tok] using h0
    | cons z pre =>
      simp only [List.cons_append, List.cons.injEq] at h'
      obtain ⟨rfl, rfl⟩ := h'
      exact ih h1 pre x post rfl hk hf

theorem waits_of_skel (rv : List View) (h : waitsB ((rv.map tok).reverse) = true) :
    WaitsForSendQueue rv.reverse :=
  waitsB_sound rv.reverse (by simpa [List.map_reverse] using h)

theorem comp_diag_ne_done (c : Prop) [Decidable c] (a b : String) :
    ((if c then Out.perror a else Out.fprintf_stderr b) = Out.printf_done) = False := by
  split <;> simp

@[simp] theorem callsOf_append (t u : List Event) : callsOf (t ++ u) = callsOf t ++ callsOf u := by
  induction t with
  | nil => rfl
  | cons e t ih => cases e <;> simp [callsOf, ih]

theorem callsOf_reverse (t : List Event) : callsOf t.reverse = (callsOf t).reverse := by
  induction t with
  | nil => rfl
  | cons e t ih => cases e <;> simp [callsOf, ih]

/-- Case analysis on the outcome of a conditional that three runs share. -/
theorem of_ite3 {α β γ : Type} (Q : α → β → γ → Prop) (c : Prop) [Decidable c]
    (a1 b1 : α) (a2 b2 : β) (a3 b3 : γ)
    (ha : c → Q a1 a2 a3) (hb : ¬c → Q b1 b2 b3) :
    Q (if c then a1 else b1) (if c then a2 else b2) (if c then a3 else b3) := by
  split
  · exact ha ‹_›
  · exact hb ‹_›

theorem callsOf_when_out (c : Prop) [Decidable c] (o : Out) :
    callsOf (if c then [.out o] else []) = [] := by
  split <;> rfl

theorem callsOf_unless_out (c : Prop) [Decidable c] (o : Out) :
    callsOf (if c then [] else [.out o]) = [] := by
  split <;> rfl

theorem coreCalls_reverse (t : List Event) : coreCalls t.reverse = (coreCalls t).reverse := by
  simp [coreCalls, callsOf_reverse, List.filter_reverse]

theorem completed_unless_diag (c d : Prop) [Decidable c] [Decidable d] (a b : String) :
    completed (if c then [] else [.out (if d then .perror a else .fprintf_stderr b)]) = false := by
  split
  · rfl
  · split <;> rfl
/-! ## The value a run returns: rewriting rules -/

namespace rpp

theorem exec_call (c : Call) (s : Globals) (w : World) (l : Log) :
    exec (call c s) w l
      = (⟨l.n + 1, .call c s.mem (w l.n) :: l.rev⟩,
         some (w l.n, { s with mem := (w l.n).mem })) := rfl

theorem exec_rpp_wait_send_comp (s : Globals) (w : World) (l : Log) :
    exec (rpp_wait_send_comp s) w l =
      if 0 < (w l.n).ret then
        (⟨l.n + 1, .call .rdma_get_send_comp s.mem (w l.n) :: l.rev⟩,
          some (0, { s with mem := (w l.n).mem }))
      else
        (⟨l.n + 1,
           .out (if (w l.n).ret < 0 then .perror "rdma_get_send_comp"
                 else .fprintf_stderr "rdma_get_send_comp ret 0") ::
           .call .rdma_get_send_comp s.mem (w l.n) :: l.rev⟩,
          some (1, { s with mem := (w l.n).mem })) := by
  simp only [rpp_wait_send_comp, exec_bind, exec_call, thenExec_some, exec_ite, exec_emit,
    exec_pure]
  rcases lt_trichotomy (w l.n).ret 0 with h | h | h
  · simp [h, not_lt_of_gt h]
  · simp [h]
  · simp [h, not_lt_of_gt h, h.ne']

theorem exec_rpp_rdma_send (s : Globals) (w : World) (l : Log) :
    exec (rpp_rdma_send s) w l =
      if (w l.n).ret = 0 then
        if 0 < (w (l.n + 1)).ret then
          (⟨l.n + 1 + 1,
             .call .rdma_get_send_comp (w l.n).mem (w (l.n + 1)) ::
             .call (.rdma_post_send .send_buf sizeof_rpp_rdma_info s.send_mr) s.mem (w l.n) ::
             l.rev⟩,
            some (0, { s with mem := (w (l.n + 1)).mem }))
        else
          (⟨l.n + 1 + 1,
             .out (if (w (l.n + 1)).ret < 0 then .perror "rdma_get_send_comp"
                   else .fprintf_stderr "rdma_get_send_comp ret 0") ::
             .call .rdma_get_send_comp (w l.n).mem (w (l.n + 1)) ::
             .call (.rdma_post_send .send_buf sizeof_rpp_rdma_info s.send_mr) s.mem (w l.n) ::
             l.rev⟩,
            some (1, { s with mem := (w (l.n + 1)).mem }))
      else
        (⟨l.n + 1,
           .out (.perror "rdma_post_send") ::
           .call (.rdma_post_send .send_buf sizeof_rpp_rdma_info s.send_mr) s.mem (w l.n) ::
           l.rev⟩,
          some (1, { s with mem := (w l.n).mem })) := by
  simp only [rpp_rdma_send, exec_bind, exec_get, exec_call, thenExec_some, exec_ite, exec_emit,
    exec_pure, exec_rpp_wait_send_comp]
  by_cases h : (w l.n).ret = 0 <;> simp [h]

theorem exec_rpp_rdma_recv (s : Globals) (w : World) (l : Log) :
    exec (rpp_rdma_recv s) w l =
      if 0 < (w l.n).ret then
        (if (w (l.n + 1)).ret = 0 then
          (⟨l.n + 1 + 1,
             .call (.rdma_post_recv .recv_buf sizeof_rpp_rdma_info s.recv_mr)
                   (w l.n).mem (w (l.n + 1)) ::
             ((if s.server = 0 then []
               else [.out (.printf_remote (w l.n).mem.recv_buf.rkey
                      (w l.n).mem.recv_buf.buf (w l.n).mem.recv_buf.size)]) ++
             .call .rdma_get_recv_comp s.mem (w l.n) :: l.rev)⟩,
            some (0, { s with
              mem := (w (l.n + 1)).mem
              rkey := if s.server = 0 then s.rkey else (w l.n).mem.recv_buf.rkey
              raddr := if s.server = 0 then s.raddr else (w l.n).mem.recv_buf.buf
              rlen := if s.server = 0 then s.rlen else (w l.n).mem.recv_buf.size }))
        else
          (⟨l.n + 1 + 1,
             .out (.perror "rdma_post_recv") ::
             .call (.rdma_post_recv .recv_buf sizeof_rpp_rdma_info s.recv_mr)
                   (w l.n).mem (w (l.n + 1)) ::
             ((if s.server = 0 then []
               else [.out (.printf_remote (w l.n).mem.recv_buf.rkey
                      (w l.n).mem.recv_buf.buf (w l.n).mem.recv_buf.size)]) ++
             .call .rdma_get_recv_comp s.mem (w l.n) :: l.rev)⟩,
            some (1, { s with
              mem := (w (l.n + 1)).mem
              rkey := if s.server = 0 then s.rkey else (w l.n).mem.recv_buf.rkey
              raddr := if s.server = 0 then s.raddr else (w l.n).mem.recv_buf.buf
              rlen := if s.server = 0 then s.rlen else (w l.n).mem.recv_buf.size })))
      else
        (⟨l.n + 1,
           .out (if (w l.n).ret < 0 then .perror "rdma_get_recv_comp"
                 else .fprintf_stderr "rdma_get_recv_comp ret 0") ::
           .call .rdma_get_recv_comp s.mem (w l.n) :: l.rev⟩,
          some (1, { s with mem := (w l.n).mem })) := by
  simp only [rpp_rdma_recv, exec_bind, exec_get, exec_call, thenExec_some, exec_ite, exec_emit,
    exec_pure, exec_modify, thenExec_ite]
  rcases lt_trichotomy (w l.n).ret 0 with h | h | h
  · simp [h, not_lt_of_gt h]
  · simp [h]
  · by_cases hs : s.server = 0 <;> by_cases h1 : (w (l.n + 1)).ret = 0 <;>
      simp [h, not_lt_of_gt h, h.ne', hs, h1]

end rpp

namespace rpp_e

theorem exec_call_e (c : Call) (s : Globals) (w : World) (l : Log) :
    exec (call c s) w l
      = (⟨l.n + 1, .call c s.mem (w l.n) :: l.rev⟩,
         some (w l.n, { s with mem := (w l.n).mem })) := rfl

theorem exec_rpp_wait_send_comp_e (s : Globals) (w : World) (l : Log) :
    exec (rpp_wait_send_comp s) w l =
      if 0 < (w l.n).ret then
        (⟨l.n + 1, .call .rdma_get_send_comp s.mem (w l.n) :: l.rev⟩,
          some (0, { s with mem := (w l.n).mem }))
      else
        (⟨l.n + 1,
           .out (if (w l.n).ret < 0 then .perror "rdma_get_send_comp"
                 else .fprintf_stderr "rdma_get_send_comp ret 0") ::
           .call .rdma_get_send_comp s.mem (w l.n) :: l.rev⟩,
          some (1, { s with mem := (w l.n).mem })) := by
  simp only [rpp_wait_send_comp, exec_bind, exec_call_e, thenExec_some, exec_ite, exec_emit,
    exec_pure]
  rcases lt_trichotomy (w l.n).ret 0 with h | h | h
  · simp [h, not_lt_of_gt h]
  · simp [h]
  · simp [h, not_lt_of_gt h, h.ne']

theorem exec_rpp_rdma_send_e (s : Globals) (w : World) (l : Log) :
    exec (rpp_rdma_send s) w l =
      if (w l.n).ret = 0 then
        if 0 < (w (l.n + 1)).ret then
          (⟨l.n + 1 + 1,
             .call .rdma_get_send_comp (w l.n).mem (w (l.n + 1)) ::
             .call (.rdma_post_send .send_buf sizeof_rpp_rdma_info s.send_mr) s.mem (w l.n) ::
             l.rev⟩,
            some (0, { s with mem := (w (l.n + 1)).mem }))
        else
          (⟨l.n + 1 + 1,
             .out (if (w (l.n + 1)).ret < 0 then .perror "rdma_get_send_comp"
                   else .fprintf_stderr "rdma_get_send_comp ret 0") ::
             .call .rdma_get_send_comp (w l.n).mem (w (l.n + 1)) ::
             .call (.rdma_post_send .send_buf sizeof_rpp_rdma_info s.send_mr) s.mem (w l.n) ::
             l.rev⟩,
            some (1, { s with mem := (w (l.n + 1)).mem }))
      else
        (⟨l.n + 1,
           .out (.perror "rdma_post_send") ::
           .call (.rdma_post_send .send_buf sizeof_rpp_rdma_info s.send_mr) s.mem (w l.n) ::
           l.rev⟩,
          some (1, { s with mem := (w l.n).mem })) := by
  simp only [rpp_rdma_send, exec_bind, exec_get, exec_call_e, thenExec_some, exec_ite, exec_emit,
    exec_pure, exec_rpp_wait_send_comp_e]
  by_cases h : (w l.n).ret = 0 <;> simp [h]

theorem exec_rpp_rdma_recv_e (s : Globals) (w : World) (l : Log) :
    exec (rpp_rdma_recv s) w l =
      if 0 < (w l.n).ret then
        (if (w (l.n + 1)).ret = 0 then
          (⟨l.n + 1 + 1,
             .call (.rdma_post_recv .recv_buf sizeof_rpp_rdma_info s.recv_mr)
                   (w l.n).mem (w (l.n + 1)) ::
             ((if s.server = 0 then []
               else [.out (.printf_remote (w l.n).mem.recv_buf.rkey
                      (w l.n).mem.recv_buf.buf (w l.n).mem.recv_buf.size)]) ++
             .call .rdma_get_recv_comp s.mem (w l.n) :: l.rev)⟩,
            some (0, { s with
              mem := (w (l.n + 1)).mem
              rkey := if s.server = 0 then s.rkey else (w l.n).mem.recv_buf.rkey
              raddr := if s.server = 0 then s.raddr else (w l.n).mem.recv_buf.buf
              rlen := if s.server = 0 then s.rlen else (w l.n).mem.recv_buf.size }))
        else
          (⟨l.n + 1 + 1,
             .out (.perror "rdma_post_recv") ::
             .call (.rdma_post_recv .recv_buf sizeof_rpp_rdma_info s.recv_mr)
                   (w l.n).mem (w (l.n + 1)) ::
             ((if s.server = 0 then []
               else [.out (.printf_remote (w l.n).mem.recv_buf.rkey
                      (w l.n).mem.recv_buf.buf (w l.n).mem.recv_buf.size)]) ++
             .call .rdma_get_recv_comp s.mem (w l.n) :: l.rev)⟩,
            some (1, { s with
              mem := (w (l.n + 1)).mem
              rkey := if s.server = 0 then s.rkey else (w l.n).mem.recv_buf.rkey
              raddr := if s.server = 0 then s.raddr else (w l.n).mem.recv_buf.buf
              rlen := if s.server = 0 then s.rlen else (w l.n).mem.recv_buf.size })))
      else
        (⟨l.n + 1,
           .out (if (w l.n).ret < 0 then .perror "rdma_get_recv_comp"
                 else .fprintf_stderr "rdma_get_recv_comp ret 0") ::
           .call .rdma_get_recv_comp s.mem (w l.n) :: l.rev⟩,
          some (1, { s with mem := (w l.n).mem })) := by
  simp only [rpp_rdma_recv, exec_bind, exec_get, exec_call_e, thenExec_some, exec_ite, exec_emit,
    exec_pure, exec_modify, thenExec_ite]
  rcases lt_trichotomy (w l.n).ret 0 with h | h | h
  · simp [h, not_lt_of_gt h]
  · simp [h]
  · by_cases hs : s.server = 0 <;> by_cases h1 : (w (l.n + 1)).ret = 0 <;>
      simp [h, not_lt_of_gt h, h.ne', hs, h1]

end rpp_e

namespace rpp_h

theorem exec_call_h (c : Call) (s : State) (w : World) (l : Log) :
    exec (call c s) w l
      = (⟨l.n + 1, .call c s.mem (w l.n) :: l.rev⟩,
         some (w l.n, { s with
           mem := (w l.n).mem
           terminate := if (w l.n).sigint = true then 1 else s.terminate })) := rfl

theorem exec_the_ct (sv : Int) (ct : rpp_context) (t : Int) (m : Mem) (w : World) (l : Log) :
    exec (the_ct ⟨sv, some ct, t, m⟩) w l = (l, some (ct, ⟨sv, some ct, t, m⟩)) := rfl

theorem exec_set_ct (f : rpp_context → rpp_context) (sv : Int) (ct : rpp_context) (t : Int) (m : Mem)
    (w : World) (l : Log) :
    exec (set_ct f ⟨sv, some ct, t, m⟩) w l = (l, some ((), ⟨sv, some (f ct), t, m⟩)) := rfl

/-- The buffers after `memset(ct, 0, sizeof(*ct))`. -/
theorem exec_rpp_init_context (s : State) (w : World) (l : Log) :
    exec (rpp_init_context s) w l =
      if (w l.n).ptr = none then
        (⟨l.n + 1,
           .out (.perror "malloc rpp_context") ::
           .call (.malloc sizeof_rpp_context) s.mem (w l.n) :: l.rev⟩,
          some (1, { s with mem := (w l.n).mem, terminate := (if (w l.n).sigint = true then 1 else s.terminate) }))
      else if (w (l.n + 1)).ptr = none then
        (⟨l.n + 1 + 1 + 1,
           .call (.free ((w l.n).ptr.getD 0)) (w (l.n + 1)).mem (w (l.n + 1 + 1)) ::
           .out (.perror "malloc read_data") ::
           .call (.malloc DATA_SIZE)
             { (w l.n).mem with recv_buf := ⟨0, 0, 0⟩, send_buf := ⟨0, 0, 0⟩ } (w (l.n + 1)) ::
           .call (.malloc sizeof_rpp_context) s.mem (w l.n) :: l.rev⟩,
          some (1, { s with mem := (w (l.n + 1 + 1)).mem, terminate := (if (w (l.n + 1 + 1)).sigint = true then 1 else if (w (l.n + 1)).sigint = true then 1 else if (w l.n).sigint = true then 1 else s.terminate) }))
      else if (w (l.n + 1 + 1)).ptr = none then
        (⟨l.n + 1 + 1 + 1 + 1 + 1,
           .call (.free ((w l.n).ptr.getD 0)) (w (l.n + 1 + 1 + 1)).mem
             (w (l.n + 1 + 1 + 1 + 1)) ::
           .call (.free ((w (l.n + 1)).ptr.getD 0)) (w (l.n + 1 + 1)).mem
             (w (l.n + 1 + 1 + 1)) ::
           .out (.perror "malloc write_data") ::
           .call (.malloc DATA_SIZE) (w (l.n + 1)).mem (w (l.n + 1 + 1)) ::
           .call (.malloc DATA_SIZE)
             { (w l.n).mem with recv_buf := ⟨0, 0, 0⟩, send_buf := ⟨0, 0, 0⟩ } (w (l.n + 1)) ::
           .call (.malloc sizeof_rpp_context) s.mem (w l.n) :: l.rev⟩,
          some (1, { s with mem := (w (l.n + 1 + 1 + 1 + 1)).mem, terminate := (if (w (l.n + 1 + 1 + 1 + 1)).sigint = true then 1 else if (w (l.n + 1 + 1 + 1)).sigint = true then 1 else if (w (l.n + 1 + 1)).sigint = true then 1 else if (w (l.n + 1)).sigint = true then 1 else if (w l.n).sigint = true then 1 else s.terminate) }))
      else
        (⟨l.n + 1 + 1 + 1,
           .call (.malloc DATA_SIZE) (w (l.n + 1)).mem (w (l.n + 1 + 1)) ::
           .call (.malloc DATA_SIZE)
             { (w l.n).mem with recv_buf := ⟨0, 0, 0⟩, send_buf := ⟨0, 0, 0⟩ } (w (l.n + 1)) ::
           .call (.malloc sizeof_rpp_context) s.mem (w l.n) :: l.rev⟩,
          some (0, ⟨s.server,
            some { recv_mr := none, send_mr := none,
                   read_data := (w (l.n + 1)).ptr.getD 0,
                   write_data := (w (l.n + 1 + 1)).ptr.getD 0,
                   read_mr := none, write_mr := none, rkey := 0, raddr := 0, rlen := 0 },
            (if (w (l.n + 1 + 1)).sigint = true then 1 else if (w (l.n + 1)).sigint = true then 1 else if (w l.n).sigint = true then 1 else s.terminate), (w (l.n + 1 + 1)).mem⟩)) := by
  simp only [rpp_init_context, exec_bind, exec_call_h, thenExec_some]
  cases h0 : (w l.n).ptr
  · simp only [exec_bind, exec_call_h, thenExec_some, exec_emit, exec_pure, if_true]
  · simp only [exec_bind, exec_call_h, thenExec_some, exec_emit, exec_pure, exec_modify,
      reduceCtorEq, if_false, Option.getD_some]
    cases h1 : (w (l.n + 1)).ptr
    · simp only [exec_bind, exec_call_h, thenExec_some, exec_emit, exec_pure, exec_modify, if_true]
    · simp only [exec_bind, exec_call_h, thenExec_some, exec_emit, exec_pure, exec_modify,
        reduceCtorEq, if_false, Option.getD_some]
      cases h2 : (w (l.n + 1 + 1)).ptr
      · simp only [exec_bind, exec_call_h, thenExec_some, exec_emit, exec_pure, exec_modify,
          if_true]
      · simp only [exec_bind, exec_call_h, thenExec_some, exec_emit, exec_pure, exec_modify,
          reduceCtorEq, if_false, Option.getD_some]

theorem exec_rpp_wait_send_comp_h (s : State) (w : World) (l : Log) :
    exec (rpp_wait_send_comp s) w l =
      if 0 < (w l.n).ret then
        (⟨l.n + 1, .call .rdma_get_send_comp s.mem (w l.n) :: l.rev⟩,
          some (0, { s with mem := (w l.n).mem, terminate := (if (w l.n).sigint = true then 1 else s.terminate) }))
      else
        (⟨l.n + 1,
           .out (if (w l.n).ret < 0 then .perror "rdma_get_send_comp"
                 else .fprintf_stderr "rdma_get_send_comp ret 0") ::
           .call .rdma_get_send_comp s.mem (w l.n) :: l.rev⟩,
          some (1, { s with mem := (w l.n).mem, terminate := (if (w l.n).sigint = true then 1 else s.terminate) })) := by
  simp only [rpp_wait_send_comp, exec_bind, exec_call_h, thenExec_some, exec_ite, exec_emit,
    exec_pure]
  rcases lt_trichotomy (w l.n).ret 0 with h | h | h
  · simp [h, not_lt_of_gt h]
  · simp [h]
  · simp [h, not_lt_of_gt h, h.ne']

theorem exec_rpp_rdma_send_h (sv : Int) (ct : rpp_context) (t : Int) (m : Mem) (w : World) (l : Log) :
    exec (rpp_rdma_send ⟨sv, some ct, t, m⟩) w l =
      if (w l.n).ret = 0 then
        if 0 < (w (l.n + 1)).ret then
          (⟨l.n + 1 + 1,
             .call .rdma_get_send_comp (w l.n).mem (w (l.n + 1)) ::
             .call (.rdma_post_send .send_buf sizeof_rpp_rdma_info ct.send_mr) m (w l.n) ::
             l.rev⟩,
            some (0, ⟨sv, some ct, (if (w (l.n + 1)).sigint = true then 1 else if (w l.n).sigint = true then 1 else t), (w (l.n + 1)).mem⟩))
        else
          (⟨l.n + 1 + 1,
             .out (if (w (l.n + 1)).ret < 0 then .perror "rdma_get_send_comp"
                   else .fprintf_stderr "rdma_get_send_comp ret 0") ::
             .call .rdma_get_send_comp (w l.n).mem (w (l.n + 1)) ::
             .call (.rdma_post_send .send_buf sizeof_rpp_rdma_info ct.send_mr) m (w l.n) ::
             l.rev⟩,
            some (1, ⟨sv, some ct, (if (w (l.n + 1)).sigint = true then 1 else if (w l.n).sigint = true then 1 else t), (w (l.n + 1)).mem⟩))
      else
        (⟨l.n + 1,
           .out (.perror "rdma_post_send") ::
           .call (.rdma_post_send .send_buf sizeof_rpp_rdma_info ct.send_mr) m (w l.n) ::
           l.rev⟩,
          some (1, ⟨sv, some ct, (if (w l.n).sigint = true then 1 else t), (w l.n).mem⟩)) := by
  simp only [rpp_rdma_send, exec_bind, exec_get, exec_call_h, thenExec_some, exec_ite, exec_emit,
    exec_pure, exec_rpp_wait_send_comp_h, exec_the_ct]
  by_cases h : (w l.n).ret = 0 <;> simp [h]

theorem exec_rpp_rdma_recv_h (sv : Int) (ct : rpp_context) (t : Int) (m : Mem) (w : World) (l : Log) :
    exec (rpp_rdma_recv ⟨sv, some ct, t, m⟩) w l =
      if 0 < (w l.n).ret then
        (if (w (l.n + 1)).ret = 0 then
          (⟨l.n + 1 + 1,
             .call (.rdma_post_recv .recv_buf sizeof_rpp_rdma_info ct.recv_mr)
                   (w l.n).mem (w (l.n + 1)) ::
             ((if sv = 0 then []
               else [.out (.printf_remote (w l.n).mem.recv_buf.rkey
                      (w l.n).mem.recv_buf.buf (w l.n).mem.recv_buf.size)]) ++
             .call .rdma_get_recv_comp m (w l.n) :: l.rev)⟩,
            some (0, ⟨sv, some { ct with
              rkey := if sv = 0 then ct.rkey else (w l.n).mem.recv_buf.rkey
              raddr := if sv = 0 then ct.raddr else (w l.n).mem.recv_buf.buf
              rlen := if sv = 0 then ct.rlen else (w l.n).mem.recv_buf.size },
              (if (w (l.n + 1)).sigint = true then 1 else if (w l.n).sigint = true then 1 else t), (w (l.n + 1)).mem⟩))
        else
          (⟨l.n + 1 + 1,
             .out (.perror "rdma_post_recv") ::
             .call (.rdma_post_recv .recv_buf sizeof_rpp_rdma_info ct.recv_mr)
                   (w l.n).mem (w (l.n + 1)) ::
             ((if sv = 0 then []
               else [.out (.printf_remote (w l.n).mem.recv_buf.rkey
                      (w l.n).mem.recv_buf.buf (w l.n).mem.recv_buf.size)]) ++
             .call .rdma_get_recv_comp m (w l.n) :: l.rev)⟩,
            some (1, ⟨sv, some { ct with
              rkey := if sv = 0 then ct.rkey else (w l.n).mem.recv_buf.rkey
              raddr := if sv = 0 then ct.raddr else (w l.n).mem.recv_buf.buf
              rlen := if sv = 0 then ct.rlen else (w l.n).mem.recv_buf.size },
              (if (w (l.n + 1)).sigint = true then 1 else if (w l.n).sigint = true then 1 else t), (w (l.n + 1)).mem⟩)))
      else
        (⟨l.n + 1,
           .out (if (w l.n).ret < 0 then .perror "rdma_get_recv_comp"
                 else .fprintf_stderr "rdma_get_recv_comp ret 0") ::
           .call .rdma_get_recv_comp m (w l.n) :: l.rev⟩,
          some (1, ⟨sv, some ct, (if (w l.n).sigint = true then 1 else t), (w l.n).mem⟩)) := by
  simp only [rpp_rdma_recv, exec_bind, exec_get, exec_call_h, thenExec_some, exec_ite, exec_emit,
    exec_pure, exec_modify, thenExec_ite, exec_the_ct, exec_set_ct]
  rcases lt_trichotomy (w l.n).ret 0 with h | h | h
  · simp [h, not_lt_of_gt h]
  · simp [h]
  · by_cases hs : sv = 0 <;> by_cases h1 : (w (l.n + 1)).ret = 0 <;>
      simp [h, not_lt_of_gt h, h.ne', hs, h1]

end rpp_h
/-! ## One symbolic execution per program -/

namespace rpp

set_option maxHeartbeats 4000000 in
set_option maxRecDepth 100000 in
/-- Every run of `run_server` passes the checks on a responder. -/
theorem server_master (w : World) :
    ResponderOK (exec (run_server (start 1)) w Log.start) := by
  simp only [
      run_server, run_server_body, rpp_create_qp, rpp_setup_buffers, exec_rpp_rdma_recv,
      exec_rpp_rdma_send, exec_rpp_wait_send_comp, exec_bind, exec_call, thenExec_some,
      thenExec_none, thenExec_ite, ↓exec_when_emit, ↓exec_unless_emit, exec_ite, exec_emit,
      exec_pure, exec_get, exec_modify, start, Log.start, List.nil_append, List.cons_append,
      Nat.zero_add, Nat.reduceAdd, ite_self, ne_eq, ite_not, one_ne_zero, ↓reduceIte,
      not_true_eq_false, not_false_eq_true, Int.reduceEq, eq_self_iff_true]
  repeat' (refine of_ite ResponderOK _ _ _ (fun h => ?_) (fun h => ?_))
  all_goals refine ⟨?_⟩
  all_goals rcases hp : (w 3).ptr with _ | p
  all_goals simp only [
      run_server_out, rpp_free_buffers, exec_bind, exec_call, thenExec_some, thenExec_none,
      thenExec_ite, ↓exec_when_emit, ↓exec_unless_emit, exec_ite, exec_emit, exec_pure, exec_get,
      exec_modify, List.nil_append, List.cons_append, Nat.zero_add, Nat.reduceAdd, ite_self,
      ne_eq, ite_not, one_ne_zero, ↓reduceIte, not_true_eq_false, not_false_eq_true,
      Int.reduceEq, eq_self_iff_true, RunOK, views_append, views_call, views_out, views_nil,
      views_when_out, views_unless_out, List.append_nil, returned, Option.map_some', view,
      Call.kind, Call.localBuf, Call.length, Call.remote, Call.handle, failed, decide_True,
      decide_False, Bool.not_true, Bool.not_false, reduceCtorEq, List.map_cons, List.map_nil,
      tok, comp_diag_ne_done, completed_append, completed_call, completed_out, completed_nil,
      completed_when_perror, completed_unless_perror, completed_unless_remote, Bool.or_true,
      Bool.true_or, Bool.false_or, Bool.or_false, tarR, lenR, descs, isRecvDone,
      List.filter_cons, List.filter_nil, Bool.and_true, Bool.and_false, Bool.true_and,
      Bool.false_and, List.reverse_cons, List.reverse_nil, List.getElem?_cons_zero,
      List.getElem?_cons_succ, Bool.false_eq_true, and_true, true_and, and_self, relR, regs,
      deregs, isReg, List.head?_cons, List.head?_nil, List.tail_cons, List.tail_nil,
      Option.some.injEq, List.mem_cons, List.mem_nil_iff, List.mem_singleton, or_false,
      forall_eq_or_imp, forall_eq, implies_true, false_imp_iff, imp_self, List.not_mem_nil,
      imp_false, *]
  all_goals first
    | exact ⟨by decide, Or.inl ⟨by decide, rfl, rfl⟩⟩
    | exact ⟨by decide, Or.inr ⟨by decide, rfl, _, rfl, by assumption⟩⟩
    | exact ⟨by decide, Or.inr ⟨by decide, rfl, _, rfl, by decide⟩⟩

end rpp

namespace rpp

set_option maxHeartbeats 4000000 in
set_option maxRecDepth 100000 in
/-- Every run of `run_client` passes the checks on an initiator. -/
theorem client_master (L : Layout) (w : World) :
    InitiatorOK L (exec (run_client L (start 0)) w Log.start) := by
  simp only [
      run_client, run_client_body, rpp_create_qp, rpp_setup_buffers, exec_rpp_rdma_recv,
      exec_rpp_rdma_send, exec_rpp_wait_send_comp, exec_deref_rkey, exec_bind, exec_call,
      thenExec_some, thenExec_none, thenExec_ite, ↓exec_when_emit, ↓exec_unless_emit, exec_ite,
      exec_emit, exec_pure, exec_get, exec_modify, start, Log.start, List.nil_append,
      List.cons_append, Nat.zero_add, Nat.reduceAdd, ite_self, ne_eq, ite_not, one_ne_zero,
      ↓reduceIte, not_true_eq_false, not_false_eq_true, Int.reduceEq, eq_self_iff_true]
  repeat' (refine of_ite (InitiatorOK L) _ _ _ (fun h => ?_) (fun h => ?_))
  all_goals first
    | contradiction
    | refine ⟨?_⟩
  all_goals simp only [
      run_client_out, rpp_free_buffers, exec_bind, exec_call, thenExec_some, thenExec_none,
      thenExec_ite, ↓exec_when_emit, ↓exec_unless_emit, exec_ite, exec_emit, exec_pure, exec_get,
      exec_modify, List.nil_append, List.cons_append, Nat.zero_add, Nat.reduceAdd, ite_self,
      ne_eq, ite_not, one_ne_zero, ↓reduceIte, not_true_eq_false, not_false_eq_true,
      Int.reduceEq, eq_self_iff_true, InitOK, views_append, views_call, views_out, views_nil,
      views_when_out, views_unless_out, List.append_nil, returned, Option.map_some', view,
      Call.kind, Call.localBuf, Call.length, Call.remote, Call.handle, failed, decide_True,
      decide_False, Bool.not_true, Bool.not_false, reduceCtorEq, List.map_cons, List.map_nil,
      tok, comp_diag_ne_done, completed_append, completed_call, completed_out, completed_nil,
      completed_when_perror, completed_unless_perror, completed_unless_remote, Bool.or_true,
      Bool.true_or, Bool.false_or, Bool.or_false, tarR, lenR, descs, isRecvDone,
      List.filter_cons, List.filter_nil, Bool.and_true, Bool.and_false, Bool.true_and,
      Bool.false_and, List.reverse_cons, List.reverse_nil, List.getElem?_cons_zero,
      List.getElem?_cons_succ, Bool.false_eq_true, and_true, true_and, and_self, descR, sends,
      recvDone, isSend, answersOf, map_descriptor, List.countP_cons, List.countP_nil,
      Nat.reduceEqDiff, Nat.reduceLeDiff, Nat.add_zero, Nat.le_refl, relR, regs, deregs, isReg,
      List.head?_cons, List.head?_nil, List.tail_cons, List.tail_nil, Option.some.injEq,
      List.mem_cons, List.mem_nil_iff, List.mem_singleton, or_false, forall_eq_or_imp, forall_eq,
      implies_true, false_imp_iff, imp_self, List.not_mem_nil, imp_false, *]
  all_goals first
    | exact ⟨by decide, Or.inl ⟨by decide, rfl, rfl⟩⟩
    | exact ⟨by decide, Or.inr ⟨by decide, rfl, _, rfl, by assumption⟩⟩
    | exact ⟨by decide, Or.inr ⟨by decide, rfl, _, rfl, by decide⟩⟩

end rpp

namespace rpp_e

set_option maxHeartbeats 4000000 in
set_option maxRecDepth 100000 in
/-- Every run of `run_server` passes the checks on a responder. -/
theorem server_master_e (w : World) :
    ResponderOK (exec (run_server (start 1)) w Log.start) := by
  simp only [
      run_server, run_server_body, rpp_create_ep, rpp_setup_buffers, exec_rpp_rdma_recv_e,
      exec_rpp_rdma_send_e, exec_rpp_wait_send_comp_e, exec_bind, exec_call_e, thenExec_some,
      thenExec_none, thenExec_ite, ↓exec_when_emit, ↓exec_unless_emit, exec_ite, exec_emit,
      exec_pure, exec_get, exec_modify, start, Log.start, List.nil_append, List.cons_append,
      Nat.zero_add, Nat.reduceAdd, ite_self, ne_eq, ite_not, one_ne_zero, ↓reduceIte,
      not_true_eq_false, not_false_eq_true, Int.reduceEq, eq_self_iff_true]
  repeat' (refine of_ite ResponderOK _ _ _ (fun h => ?_) (fun h => ?_))
  all_goals refine ⟨?_⟩
  all_goals rcases hp : (w 3).ptr with _ | p
  all_goals simp only [
      run_server_out, rpp_free_buffers, exec_bind, exec_call_e, thenExec_some, thenExec_none,
      thenExec_ite, ↓exec_when_emit, ↓exec_unless_emit, exec_ite, exec_emit, exec_pure, exec_get,
      exec_modify, List.nil_append, List.cons_append, Nat.zero_add, Nat.reduceAdd, ite_self,
      ne_eq, ite_not, one_ne_zero, ↓reduceIte, not_true_eq_false, not_false_eq_true,
      Int.reduceEq, eq_self_iff_true, RunOK, views_append, views_call, views_out, views_nil,
      views_when_out, views_unless_out, List.append_nil, returned, Option.map_some', view,
      Call.kind, Call.localBuf, Call.length, Call.remote, Call.handle, failed, decide_True,
      decide_False, Bool.not_true, Bool.not_false, reduceCtorEq, List.map_cons, List.map_nil,
      tok, comp_diag_ne_done, completed_append, completed_call, completed_out, completed_nil,
      completed_when_perror, completed_unless_perror, completed_unless_remote, Bool.or_true,
      Bool.true_or, Bool.false_or, Bool.or_false, tarR, lenR, descs, isRecvDone,
      List.filter_cons, List.filter_nil, Bool.and_true, Bool.and_false, Bool.true_and,
      Bool.false_and, List.reverse_cons, List.reverse_nil, List.getElem?_cons_zero,
      List.getElem?_cons_succ, Bool.false_eq_true, and_true, true_and, and_self, relR, regs,
      deregs, isReg, List.head?_cons, List.head?_nil, List.tail_cons, List.tail_nil,
      Option.some.injEq, List.mem_cons, List.mem_nil_iff, List.mem_singleton, or_false,
      forall_eq_or_imp, forall_eq, implies_true, false_imp_iff, imp_self, List.not_mem_nil,
      imp_false, *]
  all_goals first
    | exact ⟨by decide, Or.inl ⟨by decide, rfl, rfl⟩⟩
    | exact ⟨by decide, Or.inr ⟨by decide, rfl, _, rfl, by assumption⟩⟩
    | exact ⟨by decide, Or.inr ⟨by decide, rfl, _, rfl, by decide⟩⟩

end rpp_e

namespace rpp_h

set_option maxHeartbeats 4000000 in
set_option maxRecDepth 100000 in
/-- Every run of `exec_rpp` passes the checks on a connection thread. -/
theorem worker_master (id : rdma_cm_id) (w : World) :
    WorkerOK (exec (exec_rpp id (start 1)) w Log.start) := by
  simp only [
      exec_rpp, exec_rpp_body, rpp_create_qp, rpp_setup_buffers, exec_rpp_init_context,
      exec_the_ct, exec_set_ct, exec_rpp_rdma_recv_h, exec_rpp_rdma_send_h, exec_rpp_wait_send_comp_h,
      exec_bind, exec_call_h, thenExec_some, thenExec_none, thenExec_ite, ↓exec_when_emit,
      ↓exec_unless_emit, exec_ite, exec_emit, exec_pure, exec_get, exec_modify, start, Log.start,
      List.nil_append, List.cons_append, Nat.zero_add, Nat.reduceAdd, ite_self, ne_eq, ite_not,
      one_ne_zero, ↓reduceIte, not_true_eq_false, not_false_eq_true, Int.reduceEq,
      eq_self_iff_true]
  repeat' (refine of_ite WorkerOK _ _ _ (fun h => ?_) (fun h => ?_))
  all_goals refine ⟨?_⟩
  all_goals simp only [
      exec_rpp_out, rpp_free_buffers, exec_the_ct, exec_bind, exec_call_h, thenExec_some,
      thenExec_none, thenExec_ite, ↓exec_when_emit, ↓exec_unless_emit, exec_ite, exec_emit,
      exec_pure, exec_get, exec_modify, List.nil_append, List.cons_append, Nat.zero_add,
      Nat.reduceAdd, ite_self, ne_eq, ite_not, one_ne_zero, ↓reduceIte, not_true_eq_false,
      not_false_eq_true, Int.reduceEq, eq_self_iff_true, WorkOK, views_append, views_call,
      views_out, views_nil, views_when_out, views_unless_out, List.append_nil, returned,
      Option.map_some', view, Call.kind, Call.localBuf, Call.length, Call.remote, Call.handle,
      failed, decide_True, decide_False, Bool.not_true, Bool.not_false, reduceCtorEq,
      List.map_cons, List.map_nil, tok, tarR, lenR, descs, isRecvDone, List.filter_cons,
      List.filter_nil, Bool.and_true, Bool.and_false, Bool.true_and, Bool.false_and,
      List.reverse_cons, List.reverse_nil, List.getElem?_cons_zero, List.getElem?_cons_succ,
      Bool.false_eq_true, and_true, true_and, and_self, relR, regs, deregs, isReg,
      List.head?_cons, List.head?_nil, List.tail_cons, List.tail_nil, Option.some.injEq,
      List.mem_cons, List.mem_nil_iff, List.mem_singleton, or_false, forall_eq_or_imp, forall_eq,
      implies_true, false_imp_iff, imp_self, List.not_mem_nil, imp_false, diagR, diagnosed,
      List.any_cons, List.any_append, List.any_nil, Event.isDiag, isDiag, comp_diag_ne_done,
      completed_append, completed_call, completed_out, completed_nil, completed_when_perror,
      completed_unless_perror, completed_unless_remote, Bool.or_true, Bool.true_or,
      Bool.false_or, Bool.or_false, *]
  all_goals decide

end rpp_h

namespace rpp_h

set_option maxHeartbeats 4000000 in
set_option maxRecDepth 100000 in
/-- Every run of `run_client` passes the checks on an initiator. -/
theorem client_master_h (w : World) : ClientOK (exec (run_client (start 0)) w Log.start) := by
  simp only [
      run_client, run_client_body, rpp_create_qp, rpp_setup_buffers, exec_rpp_init_context,
      exec_the_ct, exec_set_ct, exec_rpp_rdma_recv_h, exec_rpp_rdma_send_h, exec_rpp_wait_send_comp_h,
      exec_deref_rkey, exec_bind, exec_call_h, thenExec_some, thenExec_none, thenExec_ite,
      ↓exec_when_emit, ↓exec_unless_emit, exec_ite, exec_emit, exec_pure, exec_get, exec_modify,
      start, Log.start, List.nil_append, List.cons_append, Nat.zero_add, Nat.reduceAdd, ite_self,
      ne_eq, ite_not, one_ne_zero, ↓reduceIte, not_true_eq_false, not_false_eq_true,
      Int.reduceEq, eq_self_iff_true]
  repeat' (refine of_ite ClientOK _ _ _ (fun h => ?_) (fun h => ?_))
  all_goals first
    | contradiction
    | refine ⟨?_⟩
  all_goals simp only [
      run_client_out, rpp_free_buffers, exec_the_ct, exec_bind, exec_call_h, thenExec_some,
      thenExec_none, thenExec_ite, ↓exec_when_emit, ↓exec_unless_emit, exec_ite, exec_emit,
      exec_pure, exec_get, exec_modify, List.nil_append, List.cons_append, Nat.zero_add,
      Nat.reduceAdd, ite_self, ne_eq, ite_not, one_ne_zero, ↓reduceIte, not_true_eq_false,
      not_false_eq_true, Int.reduceEq, eq_self_iff_true, final_layout, views_append, views_call,
      views_out, views_nil, views_when_out, views_unless_out, List.append_nil, returned,
      Option.map_some', view, Call.kind, Call.localBuf, Call.length, Call.remote, Call.handle,
      failed, decide_True, decide_False, Bool.not_true, Bool.not_false, reduceCtorEq,
      List.map_cons, List.map_nil, tok, tarR, lenR, descs, isRecvDone, List.filter_cons,
      List.filter_nil, Bool.and_true, Bool.and_false, Bool.true_and, Bool.false_and,
      List.reverse_cons, List.reverse_nil, List.getElem?_cons_zero, List.getElem?_cons_succ,
      Bool.false_eq_true, and_true, true_and, and_self, descR, sends, recvDone, isSend,
      answersOf, map_descriptor, List.countP_cons, List.countP_nil, Nat.reduceEqDiff,
      Nat.reduceLeDiff, Nat.add_zero, Nat.le_refl, *]

end rpp_h

namespace CoreProof

set_option maxHeartbeats 4000000 in
set_option maxRecDepth 100000 in
/-- The three responders agree from `rpp_setup_buffers` on, when the calls
that establish the connection succeed. -/
theorem core_master (id p : Nat) (m0 : Mem) (w : World) :
    CoreAgree (exec (rpp.run_server (rpp.start 1)) (after 5 (success p m0) w) Log.start)
      (exec (rpp_e.run_server (rpp_e.start 1)) (after 4 (success p m0) w) Log.start)
      (exec (rpp_h.exec_rpp id (rpp_h.start 1)) (after 4 (success p m0) w) Log.start) := by
  simp only [
      rpp.run_server, rpp.run_server_body, rpp.rpp_create_qp, rpp.rpp_setup_buffers,
      rpp.exec_rpp_rdma_recv, rpp.exec_rpp_rdma_send, rpp.exec_rpp_wait_send_comp, rpp.exec_call,
      rpp.start, rpp_e.run_server, rpp_e.run_server_body, rpp_e.rpp_create_ep,
      rpp_e.rpp_setup_buffers, rpp_e.exec_rpp_rdma_recv_e, rpp_e.exec_rpp_rdma_send_e,
      rpp_e.exec_rpp_wait_send_comp_e, rpp_e.exec_call_e, rpp_e.start, rpp_h.exec_rpp,
      rpp_h.exec_rpp_body, rpp_h.rpp_create_qp, rpp_h.rpp_setup_buffers,
      rpp_h.exec_rpp_init_context, rpp_h.exec_the_ct, rpp_h.exec_set_ct,
      rpp_h.exec_rpp_rdma_recv_h, rpp_h.exec_rpp_rdma_send_h, rpp_h.exec_rpp_wait_send_comp_h,
      rpp_h.exec_call_h, rpp_h.start, after, success, Nat.reduceLT, Nat.reduceSub, exec_bind,
      thenExec_some, thenExec_none, thenExec_ite, ↓exec_when_emit, ↓exec_unless_emit, exec_ite,
      exec_emit, exec_pure, exec_get, exec_modify, Log.start, List.nil_append, List.cons_append,
      Nat.zero_add, Nat.reduceAdd, ite_self, ne_eq, ite_not, one_ne_zero, ↓reduceIte,
      not_true_eq_false, not_false_eq_true, Int.reduceEq, eq_self_iff_true, reduceCtorEq]
  repeat' (refine of_ite3 CoreAgree _ _ _ _ _ _ _ (fun h => ?_) (fun h => ?_))
  all_goals refine ⟨?_⟩
  all_goals simp only [
      rpp.run_server_out, rpp.rpp_free_buffers, rpp.exec_call, rpp_e.run_server_out,
      rpp_e.rpp_free_buffers, rpp_e.exec_call_e, rpp_h.exec_rpp_out, rpp_h.rpp_free_buffers,
      rpp_h.exec_the_ct, rpp_h.exec_call_h, after, Nat.reduceLT, Nat.reduceSub, exec_bind,
      thenExec_some, thenExec_none, thenExec_ite, ↓exec_when_emit, ↓exec_unless_emit, exec_ite,
      exec_emit, exec_pure, exec_get, exec_modify, List.nil_append, List.cons_append,
      Nat.zero_add, Nat.reduceAdd, ite_self, ne_eq, ite_not, one_ne_zero, ↓reduceIte,
      not_true_eq_false, not_false_eq_true, Int.reduceEq, eq_self_iff_true, reduceCtorEq,
      List.append_nil, returned, Option.map_some', AgreeOK, coreCalls, callsOf, callsOf_append,
      callsOf_when_out, callsOf_unless_out, isCore, List.filter_cons, List.filter_nil,
      Bool.false_eq_true, comp_diag_ne_done, completed_append, completed_call, completed_out,
      completed_nil, completed_when_perror, completed_unless_perror, completed_unless_remote,
      Bool.or_true, Bool.true_or, Bool.false_or, Bool.or_false, decide_True, decide_False,
      and_self, *]

end CoreProof
/-! ## The value a run returns: one symbolic execution per program -/

namespace rpp

end rpp
/-! ## From the checks to the statements -/

theorem skel_parts {ret : Option Int} {done : Bool} {toks : List Tok}
    (h : SkelOK ret done toks) :
    seqB 0 toks.reverse = true ∧ abortB toks.reverse = true ∧ stuckB toks.reverse = true ∧
      waitsB toks.reverse = true := by
  have h1 := h.1
  simp only [Bool.and_eq_true] at h1
  exact ⟨h1.1.1.1, h1.1.1.2, h1.1.2, h1.2⟩

theorem anyFailed_of_reg (rv : List View) (hwf : ∀ v ∈ rv, v.wf)
    (h : (regs rv).head? = some none) : anyFailed (rv.map tok) = true := by
  simp only [regs, List.head?_map, Option.map_eq_some'] at h
  obtain ⟨y, hy, hmr⟩ := h
  have hym := List.mem_of_mem_head? hy
  have hyreg : isReg y.kind = true := by
    simpa using (List.mem_filter.mp hym).2
  have hm : y ∈ rv := (List.mem_filter.mp hym).1
  have hf : y.failed = true := by
    rw [(hwf y hm).1 hyreg]
    simp [hmr]
  exact anyFailed_of_mem rv y hm hf

theorem reported_of_skel {ret : Option Int} {done : Bool} (L : List Event)
    (h : SkelOK ret done ((views L).map tok)) :
    FailureReported (views L).reverse (∃ v, ret = some v ∧ v ≠ 0) := by
  intro hl
  rw [regs_reverse, List.getLast?_reverse] at hl
  have ha := anyFailed_of_reg (views L) (views_wf L) hl
  rcases h.2 with ⟨h1, _, _⟩ | ⟨_, _, h3⟩
  · rw [ha] at h1
    exact absurd h1 (by simp)
  · exact h3

theorem diagnosed_reverse (L : List Event) : diagnosed L.reverse = diagnosed L := by
  simp [diagnosed]

theorem reported_of_diag (L : List Event) (h : diagR L) :
    FailureReported (views L).reverse (diagnosed L.reverse = true) := by
  intro hl
  rw [regs_reverse, List.getLast?_reverse] at hl
  rw [diagnosed_reverse]
  simpa [diagR, hl] using h

theorem ResponderOK.r_sequenced {σ : Type} {r : Log × Option (Int × σ)} (h : ResponderOK r) :
    Sequenced (callTrace r) := by
  rw [callTrace_eq]
  exact sequenced_of_skel _ (skel_parts h.ok.1).1

theorem ResponderOK.r_targeted {σ : Type} {r : Log × Option (Int × σ)} (h : ResponderOK r) :
    Targeted (callTrace r) := by
  rw [callTrace_eq]
  exact targeted_of_rev _ h.ok.2.1

theorem ResponderOK.r_released {σ : Type} {r : Log × Option (Int × σ)} (h : ResponderOK r) :
    RegistrationReleased (callTrace r) := by
  rw [callTrace_eq]
  exact released_of_rev _ (views_wf _) (skel_parts h.ok.1).2.2.1 h.ok.2.2.2

theorem ResponderOK.r_reported {σ : Type} {r : Log × Option (Int × σ)} (h : ResponderOK r) :
    FailureReported (callTrace r) (∃ v, returned r = some v ∧ v ≠ 0) := by
  rw [callTrace_eq]
  exact reported_of_skel _ h.ok.1

theorem ResponderOK.r_waits {σ : Type} {r : Log × Option (Int × σ)} (h : ResponderOK r) :
    WaitsForSendQueue (callTrace r) := by
  rw [callTrace_eq]
  exact waits_of_skel _ (skel_parts h.ok.1).2.2.2

theorem InitiatorOK.i_described {σ : Type} {L : Layout} {r : Log × Option (Int × σ)}
    (h : InitiatorOK L r) : Described L (callTrace r) := by
  rw [callTrace_eq]
  exact described_of_rev _ _ h.ok.2.2

theorem InitiatorOK.i_released {σ : Type} {L : Layout} {r : Log × Option (Int × σ)}
    (h : InitiatorOK L r) : RegistrationReleased (callTrace r) := by
  rw [callTrace_eq]
  exact released_of_rev _ (views_wf _) (skel_parts h.ok.1).2.2.1 h.ok.2.1

theorem InitiatorOK.i_reported {σ : Type} {L : Layout} {r : Log × Option (Int × σ)}
    (h : InitiatorOK L r) :
    FailureReported (callTrace r) (∃ v, returned r = some v ∧ v ≠ 0) := by
  rw [callTrace_eq]
  exact reported_of_skel _ h.ok.1

theorem InitiatorOK.i_waits {σ : Type} {L : Layout} {r : Log × Option (Int × σ)}
    (h : InitiatorOK L r) : WaitsForSendQueue (callTrace r) := by
  rw [callTrace_eq]
  exact waits_of_skel _ (skel_parts h.ok.1).2.2.2

theorem WorkerOK.w_sequenced {σ : Type} {r : Log × Option (Unit × σ)} (h : WorkerOK r) :
    Sequenced (callTrace r) := by
  rw [callTrace_eq]
  have h1 := h.ok.1
  simp only [Bool.and_eq_true] at h1
  exact sequenced_of_skel _ h1.1

theorem WorkerOK.w_targeted {σ : Type} {r : Log × Option (Unit × σ)} (h : WorkerOK r) :
    Targeted (callTrace r) := by
  rw [callTrace_eq]
  exact targeted_of_rev _ h.ok.2.1

theorem WorkerOK.w_released {σ : Type} {r : Log × Option (Unit × σ)} (h : WorkerOK r) :
    RegistrationReleased (callTrace r) := by
  rw [callTrace_eq]
  have h1 := h.ok.1
  simp only [Bool.and_eq_true] at h1
  exact released_of_rev _ (views_wf _) h1.2 h.ok.2.2.2.1

theorem WorkerOK.w_reported {σ : Type} {r : Log × Option (Unit × σ)} (h : WorkerOK r) :
    FailureReported (callTrace r) (diagnosed r.1.trace = true) := by
  rw [callTrace_eq]
  exact reported_of_diag _ h.ok.2.2.2.2
/-! ## The buffer helpers -/

namespace rpp

/-- What one invocation of `rpp_free_buffers` does: it deregisters the handles
that are set, in the order of `handles`, and changes no variable. -/
theorem free_buffers_spec (s : Globals) (w : World) (l : Log) :
    ∃ l1 m, exec (rpp_free_buffers s) w l = (l1, some ((), { s with mem := m })) ∧
      (views l1.rev).map (fun x => (x.kind, x.handle)) =
        (((handles s).filter Option.isSome).map (fun h => (Kind.rdma_dereg_mr, h))).reverse ++
          (views l.rev).map (fun x => (x.kind, x.handle)) := by
  obtain ⟨sv, m, a, b, c, d, k, ra, rl⟩ := s
  cases a <;> cases b <;> cases c <;> cases d <;>
    simp only [rpp_free_buffers, exec_bind, exec_call, thenExec_some, ↓exec_when_emit,
      ↓exec_unless_emit, exec_ite, exec_emit, exec_pure, exec_get, ne_eq, ite_not, ↓reduceIte,
      not_true_eq_false, not_false_eq_true, reduceCtorEq] <;>
    exact ⟨_, _, rfl, by simp [handles, view, Call.kind, Call.handle]⟩

end rpp

namespace rpp_h

/-- What one invocation of `rpp_free_buffers` does on a connection with a
context: it deregisters the handles that are set, in the order of `handles`,
and leaves the context as it is. -/
theorem free_buffers_spec_h (sv : Int) (ct : rpp_context) (t : Int) (m : Mem) (w : World)
    (l : Log) :
    ∃ l1 t1 m1, exec (rpp_free_buffers ⟨sv, some ct, t, m⟩) w l
        = (l1, some ((), ⟨sv, some ct, t1, m1⟩)) ∧
      (views l1.rev).map (fun x => (x.kind, x.handle)) =
        ((ct.handles.filter Option.isSome).map (fun h => (Kind.rdma_dereg_mr, h))).reverse ++
          (views l.rev).map (fun x => (x.kind, x.handle)) := by
  obtain ⟨a, b, rd, wd, c, d, k, ra, rl⟩ := ct
  cases a <;> cases b <;> cases c <;> cases d <;>
    simp only [rpp_free_buffers, exec_bind, exec_call_h, exec_the_ct, thenExec_some,
      ↓exec_when_emit, ↓exec_unless_emit, exec_ite, exec_emit, exec_pure, exec_get, ne_eq,
      ite_not, ↓reduceIte, not_true_eq_false, not_false_eq_true, reduceCtorEq] <;>
    exact ⟨_, _, _, rfl, by simp [rpp_context.handles, view, Call.kind, Call.handle]⟩

/-- Without a context `rpp_free_buffers` returns at once. -/
theorem free_buffers_null (sv : Int) (t : Int) (m : Mem) (w : World) (l : Log) :
    exec (rpp_free_buffers ⟨sv, none, t, m⟩) w l = (l, some ((), ⟨sv, none, t, m⟩)) := by
  simp only [rpp_free_buffers, exec_bind, exec_get, thenExec_some, exec_ite, exec_pure,
    ↓reduceIte]

end rpp_h

/-- The calls of the handles deregistered by a trace that consists of
deregistrations only. -/
theorem deregs_of_pairs (V : List View) (hs : List (Option ibv_mr))
    (h : V.map (fun x => (x.kind, x.handle)) = hs.map (fun h => (Kind.rdma_dereg_mr, h))) :
    deregs V = hs ∧ ∀ x ∈ V, x.kind = .rdma_dereg_mr := by
  induction V generalizing hs with
  | nil =>
    cases hs with
    | nil => exact ⟨rfl, by simp⟩
    | cons a t => simp at h
  | cons x V ih =>
    cases hs with
    | nil => simp at h
    | cons a t =>
      simp only [List.map_cons, List.cons.injEq, Prod.mk.injEq] at h
      obtain ⟨⟨hk, hh⟩, ht⟩ := h
      obtain ⟨h1, h2⟩ := ih t ht
      constructor
      · simp [deregs, hk, hh] at h1 ⊢
        exact h1
      · intro y hy
        rcases List.mem_cons.mp hy with rfl | hy
        · exact hk
        · exact h2 y hy

/-- A run whose calls are the deregistrations of `hs`. -/
theorem deregs_of_run {α : Type} (r : Log × Option α) (hs : List (Option ibv_mr))
    (h : (views r.1.rev).map (fun x => (x.kind, x.handle)) =
      (hs.map (fun h => (Kind.rdma_dereg_mr, h))).reverse ++
        (views Log.start.rev).map (fun x => (x.kind, x.handle))) :
    deregs (callTrace r) = hs ∧ ∀ x ∈ callTrace r, x.kind = .rdma_dereg_mr := by
  rw [callTrace_eq]
  apply deregs_of_pairs
  rw [List.map_reverse, h]
  simp [Log.start]
/-! ## The accept loop of rpp_h -/

namespace rpp_h

/-- What `run_server` does from the head of its loop on when the event it
fetches is malformed: it writes a diagnostic, destroys the listening id and
the event channel, and returns the 0 that `rdma_get_cm_event` returned. -/
theorem exec_malformed (n : Nat) (ret : Int) (listen_id ch : Option Nat) (s : State)
    (w : World) (l : Log) (ht : s.terminate = 0) (hr : (w l.n).ret = 0)
    (hbad : (w l.n).status ≠ 0 ∨ (w l.n).event ≠ RDMA_CM_EVENT_CONNECT_REQUEST) :
    ∃ o d s1, isDiag o = true ∧
      exec (run_server_loop (n + 1) ret listen_id ch s) w l =
        (⟨l.n + 1 + 1 + 1,
          .call (.rdma_destroy_event_channel ch) (w (l.n + 1)).mem (w (l.n + 1 + 1)) ::
          (d ++ .call (.rdma_destroy_id listen_id) (w l.n).mem (w (l.n + 1)) ::
            .out o :: .call .rdma_get_cm_event s.mem (w l.n) :: l.rev)⟩,
         some (some 0, s1)) ∧ callsOf d = [] := by
  have key : ∀ o : Out, ((w l.n).status = 0 → ¬ (w l.n).event = RDMA_CM_EVENT_CONNECT_REQUEST) →
      (if (w l.n).status = 0 then Out.fprintf_stderr "unexpected event"
        else Out.fprintf_stderr "event status") = o → ∃ d s1,
      exec (run_server_loop (n + 1) ret listen_id ch s) w l =
        (⟨l.n + 1 + 1 + 1,
          .call (.rdma_destroy_event_channel ch) (w (l.n + 1)).mem (w (l.n + 1 + 1)) ::
          (d ++ .call (.rdma_destroy_id listen_id) (w l.n).mem (w (l.n + 1)) ::
            .out o :: .call .rdma_get_cm_event s.mem (w l.n) :: l.rev)⟩,
         some (some 0, s1)) ∧ callsOf d = [] := by
    intro o hev ho
    by_cases hst : (w l.n).status = 0
    · have hev1 := hev hst
      simp only [run_server_loop, accept_loop, exec_bind, exec_call_h, thenExec_some,
        thenExec_ite, exec_ite, exec_emit, exec_pure, exec_get, ht, hr, hst, hev1, ne_eq,
        not_true_eq_false, not_false_eq_true, ↓reduceIte, ite_not, run_server_out,
        ↓exec_when_emit, ↓exec_unless_emit] at ho ⊢
      subst ho
      exact ⟨_, _, rfl, by split <;> rfl⟩
    · simp only [run_server_loop, accept_loop, exec_bind, exec_call_h, thenExec_some,
        thenExec_ite, exec_ite, exec_emit, exec_pure, exec_get, ht, hr, hst, ne_eq,
        not_true_eq_false, not_false_eq_true, ↓reduceIte, ite_not, run_server_out,
        ↓exec_when_emit, ↓exec_unless_emit] at ho ⊢
      subst ho
      exact ⟨_, _, rfl, by split <;> rfl⟩
  have hev : (w l.n).status = 0 → ¬ (w l.n).event = RDMA_CM_EVENT_CONNECT_REQUEST := by
    intro h0
    rcases hbad with h | h
    · exact absurd h0 h
    · exact h
  obtain ⟨d, s1, h1, h2⟩ := key _ hev rfl
  refine ⟨_, d, s1, ?_, h1, h2⟩
  split <;> rfl

end rpp_h
/-! ## `main` of rpp -/

namespace rpp

end rpp
/-! ## The exchange over the connection: rewriting rules -/

namespace Fabric

theorem bind_ret {α β : Type} (a : α) (f : α → Prog β) : (Prog.ret a).bind f = f a := rfl

theorem bind_fault {α β : Type} (f : α → Prog β) : (Prog.fault : Prog α).bind f = .fault := rfl

theorem bind_out {α β : Type} (o : Out) (p : Prog α) (f : α → Prog β) :
    (Prog.out o p).bind f = .out o (p.bind f) := rfl

theorem bind_ext {α β : Type} (c : Call) (m : Mem) (k : Answer → Prog α) (f : α → Prog β) :
    (Prog.ext c m k).bind f = .ext c m (fun a => (k a).bind f) := rfl

theorem bind_apply {σ α β : Type} (p : M σ α) (f : α → M σ β) (s : σ) :
    (p >>= f) s = (p s).bind (fun r => f r.1 r.2) := rfl

theorem pure_apply {σ α : Type} (a : α) (s : σ) : (pure a : M σ α) s = .ret (a, s) := rfl

theorem get_apply {σ : Type} (s : σ) : (get : M σ σ) s = .ret (s, s) := rfl

theorem modify_apply {σ : Type} (f : σ → σ) (s : σ) :
    (modify f : M σ PUnit) s = .ret (PUnit.unit, f s) := rfl

theorem emit_apply {σ : Type} (o : Out) (s : σ) :
    (emit o : M σ Unit) s = .out o (.ret ((), s)) := rfl

theorem if_apply {σ α : Type} (c : Prop) [Decidable c] (p q : M σ α) (s : σ) :
    (if c then p else q) s = if c then p s else q s := by
  split <;> rfl

theorem call_apply (c : Call) (s : rpp.Globals) :
    rpp.call c s = .ext c s.mem (fun a => .ret (a, { s with mem := a.mem })) := rfl

theorem deref_rkey_some {σ : Type} (mr : ibv_mr) (s : σ) :
    (deref_rkey (some mr) : M σ Nat) s = .ret (mr.rkey, s) := rfl

theorem waiting_ext {α : Type} (c : Call) (m : Mem) (k : Answer → Prog α) :
    waiting (.ext c m k) = some c := rfl

theorem waiting_out {α : Type} (o : Out) (p : Prog α) : waiting (.out o p) = none := rfl

theorem waiting_ret {α : Type} (a : α) : waiting (.ret a) = none := rfl

theorem step_i_out {α : Type} (o : Out) (p r : Prog α) (n : Net) (os : List (End × Out)) :
    step .initiator ⟨.out o p, r, n, os⟩
      = some (Pair.resume ⟨.out o p, r, n, (End.initiator, o) :: os⟩ .initiator p n) := rfl

theorem step_r_out {α : Type} (o : Out) (p i : Prog α) (n : Net) (os : List (End × Out)) :
    step .responder ⟨i, .out o p, n, os⟩
      = some (Pair.resume ⟨i, .out o p, n, (End.responder, o) :: os⟩ .responder p n) := rfl

theorem step_i_ext {α : Type} (c : Call) (m : Mem) (k : Answer → Prog α) (r : Prog α) (n : Net)
    (os : List (End × Out)) :
    step .initiator ⟨.ext c m k, r, n, os⟩
      = answered ⟨.ext c m k, r, n, os⟩ .initiator k (serve .initiator c (waiting r) n) := by
  simp only [step, Pair.prog, End.peer]
  cases serve .initiator c (waiting r) n with
  | none => rfl
  | some x => rfl

theorem step_r_ext {α : Type} (c : Call) (m : Mem) (k : Answer → Prog α) (i : Prog α) (n : Net)
    (os : List (End × Out)) :
    step .responder ⟨i, .ext c m k, n, os⟩
      = answered ⟨i, .ext c m k, n, os⟩ .responder k (serve .responder c (waiting i) n) := by
  simp only [step, Pair.prog, End.peer]
  cases serve .responder c (waiting i) n with
  | none => rfl
  | some x => rfl

theorem step_i_ret {α : Type} (a : α) (r : Prog α) (n : Net) (os : List (End × Out)) :
    step .initiator ⟨.ret a, r, n, os⟩ = none := rfl

theorem step_r_ret {α : Type} (a : α) (i : Prog α) (n : Net) (os : List (End × Out)) :
    step .responder ⟨i, .ret a, n, os⟩ = none := rfl

theorem answered_some {α : Type} (st : Pair α) (e : End) (k : Answer → Prog α) (a : Answer)
    (n : Net) : answered st e k (some (a, n)) = some (st.resume e (k a) n) := rfl

theorem answered_none {α : Type} (st : Pair α) (e : End) (k : Answer → Prog α) :
    answered st e k none = none := rfl

theorem resume_i_ext {α : Type} (st : Pair α) (c : Call) (m : Mem) (k : Answer → Prog α)
    (n : Net) :
    st.resume .initiator (.ext c m k) n
      = ⟨.ext c m k, st.responder, { n with initiator := { n.initiator with mem := m } },
          st.outs⟩ := rfl

theorem resume_r_ext {α : Type} (st : Pair α) (c : Call) (m : Mem) (k : Answer → Prog α)
    (n : Net) :
    st.resume .responder (.ext c m k) n
      = ⟨st.initiator, .ext c m k, { n with responder := { n.responder with mem := m } },
          st.outs⟩ := rfl

theorem resume_i_out {α : Type} (st : Pair α) (o : Out) (p : Prog α) (n : Net) :
    st.resume .initiator (.out o p) n = ⟨.out o p, st.responder, n, st.outs⟩ := rfl

theorem resume_r_out {α : Type} (st : Pair α) (o : Out) (p : Prog α) (n : Net) :
    st.resume .responder (.out o p) n = ⟨st.initiator, .out o p, n, st.outs⟩ := rfl

theorem resume_i_ret {α : Type} (st : Pair α) (a : α) (n : Net) :
    st.resume .initiator (.ret a) n = ⟨.ret a, st.responder, n, st.outs⟩ := rfl

theorem resume_r_ret {α : Type} (st : Pair α) (a : α) (n : Net) :
    st.resume .responder (.ret a) n = ⟨st.initiator, .ret a, n, st.outs⟩ := rfl

theorem forget_ext {α : Type} (c : Call) (m : Mem) (k : Answer → Prog α) :
    forget (.ext c m k) = .ext c blank k := rfl

theorem forget_out {α : Type} (o : Out) (p : Prog α) : forget (.out o p) = .out o p := rfl

theorem forget_ret {α : Type} (a : α) : forget (.ret a) = .ret a := rfl

theorem erase_mk {α : Type} (i r : Prog α) (n : Net) (o : List (End × Out)) :
    erase ⟨i, r, n, o⟩ = ⟨forget i, forget r, n, tidy o⟩ := rfl

theorem tidy_nil : tidy [] = [] := rfl

theorem tidy_initiator (o : Out) (l : List (End × Out)) :
    tidy ((End.initiator, o) :: l)
      = (End.initiator, o) :: l.filter (fun x => decide (x.1 = End.initiator)) ++
          l.filter (fun x => decide (x.1 = End.responder)) := by
  simp [tidy, List.filter_cons]

theorem tidy_responder (o : Out) (l : List (End × Out)) :
    tidy ((End.responder, o) :: l)
      = l.filter (fun x => decide (x.1 = End.initiator)) ++
          (End.responder, o) :: l.filter (fun x => decide (x.1 = End.responder)) := by
  simp [tidy, List.filter_cons]

theorem stepE_mk {α : Type} (e : End) (i r : Prog α) (n : Net) (o : List (End × Out)) :
    stepE e ⟨i, r, n, o⟩ = (step e ⟨i, r, n, o⟩).map erase := rfl

section
variable {S : Type} (stp : End → S → Option S)

theorem runWith_cons (e : End) (es : List End) (x : S) :
    runWith stp (e :: es) x = runFirst stp e es x (stp e x) := by
  rw [runWith]
  cases stp e x with
  | some y => rfl
  | none =>
    simp only [runFirst]
    cases stp e.peer x <;> rfl

theorem runWith_nil (x : S) : runWith stp [] x = x := rfl

theorem runFirst_some (e : End) (es : List End) (x y : S) :
    runFirst stp e es x (some y) = runWith stp es y := rfl

theorem runFirst_none (e : End) (es : List End) (x : S) :
    runFirst stp e es x none = runPeer stp es x (stp e.peer x) := rfl

theorem runPeer_some (es : List End) (x y : S) :
    runPeer stp es x (some y) = runWith stp es y := rfl

theorem runPeer_none (es : List End) (x : S) : runPeer stp es x none = x := rfl

theorem commutes_none (b : S) : commutes stp none b = True := rfl

theorem commutes_some (a b : S) :
    commutes stp (some a) b
      = (stp .responder a = stp .initiator b ∧ stp .initiator b ≠ none) := rfl

theorem chainOK_succ (m : Nat) (x : S) :
    chainOK stp (m + 1) x = chainStep stp m x (stp .responder x) := by
  rw [chainOK]
  cases stp .responder x <;> rfl

theorem chainStep_none (m : Nat) (x : S) : chainStep stp m x none = True := rfl

theorem chainStep_some (m : Nat) (x b : S) :
    chainStep stp m x (some b) = (commutes stp (stp .initiator x) b ∧ chainOK stp m b) := rfl

theorem gridOK_succ (n : Nat) (x : S) :
    gridOK stp (n + 1) x = (chainOK stp (n + 1) x ∧ gridFirst stp n x (stp .initiator x)) := by
  rw [gridOK]
  cases stp .initiator x with
  | some a => rfl
  | none =>
    simp only [gridFirst]
    cases stp .responder x <;> rfl

theorem gridFirst_some (n : Nat) (x a : S) : gridFirst stp n x (some a) = gridOK stp n a := rfl

theorem gridFirst_none (n : Nat) (x : S) :
    gridFirst stp n x none = gridPeer stp n (stp .responder x) := rfl

theorem gridPeer_some (n : Nat) (b : S) : gridPeer stp n (some b) = gridOK stp n b := rfl

theorem gridPeer_none (n : Nat) : gridPeer stp n none = True := rfl

end

end Fabric

namespace Fabric

/-! ### The data buffers -/

theorem strcpy_length (dst src : List Nat) (h : src.length + 1 ≤ dst.length) :
    (strcpy dst src).length = dst.length := by
  simp only [strcpy, List.length_append, List.length_drop, List.length_singleton,
    List.length_nil, List.length_cons]
  omega

theorem copy_eq (n : Nat) (src dst : List Nat) (h1 : src.length = n) (h2 : dst.length ≤ n) :
    copy n src dst = src := by
  unfold copy
  rw [List.take_of_length_le (by omega), List.drop_eq_nil_of_le h2, List.append_nil]

theorem cstring_append_zero (src rest : List Nat) (h : ∀ b ∈ src, b ≠ 0) :
    cstring (src ++ 0 :: rest) = src := by
  induction src with
  | nil => simp [cstring]
  | cons b bs ih =>
    have hb : b ≠ 0 := h b (List.mem_cons_self _ _)
    rw [List.cons_append, cstring, if_neg hb, ih (fun x hx => h x (List.mem_cons_of_mem _ hx))]

theorem cstring_strcpy (dst src : List Nat) (h : ∀ b ∈ src, b ≠ 0) :
    cstring (strcpy dst src) = src := by
  unfold strcpy
  rw [List.append_assoc]
  exact cstring_append_zero src _ h

theorem length_read_data : rpp.mem0.read_data.length = DATA_SIZE :=
  List.length_replicate _ _

theorem length_write_data : rpp.mem0.write_data.length = DATA_SIZE :=
  List.length_replicate _ _

theorem copy_read_data :
    copy DATA_SIZE (strcpy rpp.mem0.read_data [97, 97, 97]) rpp.mem0.read_data
      = strcpy rpp.mem0.read_data [97, 97, 97] :=
  copy_eq _ _ _
    (by rw [strcpy_length _ _ (by rw [length_read_data]; decide), length_read_data])
    (by rw [length_read_data])

theorem copy_write_data :
    copy DATA_SIZE (strcpy rpp.mem0.write_data [98, 98, 98]) rpp.mem0.write_data
      = strcpy rpp.mem0.write_data [98, 98, 98] :=
  copy_eq _ _ _
    (by rw [strcpy_length _ _ (by rw [length_write_data]; decide), length_write_data])
    (by rw [length_write_data])

theorem cstring_read_data : cstring (strcpy rpp.mem0.read_data [97, 97, 97]) = [97, 97, 97] :=
  cstring_strcpy _ _ (by simp)

theorem cstring_write_data :
    cstring (strcpy rpp.mem0.write_data [98, 98, 98]) = [98, 98, 98] :=
  cstring_strcpy _ _ (by simp)

end Fabric

/-! ## Schedules: every order of the turns leads to the same state -/

namespace Fabric

section
variable {S : Type} (stp : End → S → Option S)

theorem advance_succ (j : Nat) (x z : S) (h : advance stp (j + 1) x = some z) :
    ∃ y, stp .responder x = some y ∧ advance stp j y = some z := by
  rw [advance] at h
  cases hy : stp .responder x with
  | none => rw [hy] at h; exact absurd h (by simp)
  | some y => rw [hy] at h; exact ⟨y, rfl, h⟩

theorem advance_right (j : Nat) (c x y : S) (h : advance stp j c = some x)
    (hy : stp .responder x = some y) : advance stp (j + 1) c = some y := by
  induction j generalizing c with
  | zero =>
    simp only [advance, Option.some.injEq] at h
    subst h
    simp only [advance, hy]
  | succ j ih =>
    obtain ⟨b, hb, hj⟩ := advance_succ stp j c x h
    have := ih b hj
    rw [advance, hb]
    exact this

theorem chainOK_step (m : Nat) (c b : S) (h : chainOK stp m c)
    (hb : stp .responder c = some b) :
    ∃ m1, m = m1 + 1 ∧ commutes stp (stp .initiator c) b ∧ chainOK stp m1 b := by
  cases m with
  | zero =>
    rw [chainOK, hb] at h
    exact absurd h (by simp)
  | succ m1 =>
    rw [chainOK, hb] at h
    exact ⟨m1, rfl, h⟩

theorem chain_le (j m : Nat) (c y : S) (h : chainOK stp m c) (hy : advance stp j c = some y) :
    j ≤ m := by
  induction j generalizing c m with
  | zero => exact Nat.zero_le _
  | succ j ih =>
    obtain ⟨b, hb, hj⟩ := advance_succ stp j c y hy
    obtain ⟨m1, rfl, -, hc⟩ := chainOK_step stp m c b h hb
    exact Nat.succ_le_succ (ih m1 b hc hj)

/-- Where the initiator can move it can still move after steps of the
responder, and the order of the steps makes no difference. -/
theorem commute_along (j m : Nat) (c a y : S) (h : chainOK stp m c)
    (ha : stp .initiator c = some a) (hy : advance stp j c = some y) :
    ∃ z, stp .initiator y = some z ∧ advance stp j a = some z := by
  induction j generalizing c a m with
  | zero =>
    simp only [advance, Option.some.injEq] at hy
    subst hy
    exact ⟨a, ha, rfl⟩
  | succ j ih =>
    obtain ⟨b, hb, hj⟩ := advance_succ stp j c y hy
    obtain ⟨m1, rfl, hd, hc⟩ := chainOK_step stp m c b h hb
    rw [ha] at hd
    obtain ⟨hd1, hd2⟩ := hd
    cases hi : stp .initiator b with
    | none => exact absurd hi hd2
    | some d =>
      rw [hi] at hd1
      obtain ⟨z, hz, hz2⟩ := ih m1 b d hc hi hj
      refine ⟨z, hz, ?_⟩
      rw [advance, hd1]
      exact hz2

theorem gridOK_chain (n : Nat) (c : S) (h : gridOK stp n c) : chainOK stp n c := by
  cases n with
  | zero => exact h.2
  | succ n => exact h.1

theorem gridOK_initiator (n : Nat) (c a : S) (h : gridOK stp (n + 1) c)
    (ha : stp .initiator c = some a) : gridOK stp n a := by
  have := h.2
  rw [ha] at this
  exact this

theorem gridOK_responder (n : Nat) (c b : S) (h : gridOK stp (n + 1) c)
    (ha : stp .initiator c = none) (hb : stp .responder c = some b) : gridOK stp n b := by
  have := h.2
  rw [ha] at this
  simp only [hb] at this
  exact this

theorem canonical_initiator (n : Nat) (c a : S) (ha : stp .initiator c = some a) :
    runWith stp (List.replicate (n + 1) .initiator) c
      = runWith stp (List.replicate n .initiator) a := by
  rw [List.replicate_succ, runWith, ha]

theorem canonical_responder (n : Nat) (c b : S) (ha : stp .initiator c = none)
    (hb : stp .responder c = some b) :
    runWith stp (List.replicate (n + 1) .initiator) c
      = runWith stp (List.replicate n .initiator) b := by
  rw [List.replicate_succ, runWith, ha]
  simp only [End.peer, hb]

theorem runWith_halt (es : List End) (x : S) (ha : stp .initiator x = none)
    (hb : stp .responder x = none) : runWith stp es x = x := by
  cases es with
  | nil => rfl
  | cons e es => cases e <;> simp only [runWith, End.peer, ha, hb]

theorem reached_initiator (j : Nat) : ∀ (c : S) (r : Nat) (x y : S),
    gridOK stp (r + j) c → advance stp j c = some x → stp .initiator x = some y →
    ∃ r1, r = r1 + 1 ∧
      Reached stp r1 y (runWith stp (List.replicate (r + j) .initiator) c) := by
  induction j with
  | zero =>
    intro c r x y hg hx hy
    simp only [advance, Option.some.injEq] at hx
    subst hx
    cases r with
    | zero => exact absurd hy (by rw [hg.1]; simp)
    | succ r1 =>
      refine ⟨r1, rfl, y, 0, gridOK_initiator stp _ _ _ hg hy, rfl, ?_⟩
      exact (canonical_initiator stp _ _ _ hy).symm
  | succ j ih =>
    intro c r x y hg hx hy
    obtain ⟨b, hb, hj⟩ := advance_succ stp j c x hx
    have hg1 : gridOK stp ((r + j) + 1) c := hg
    cases ha : stp .initiator c with
    | some a =>
      have hga := gridOK_initiator stp _ _ _ hg1 ha
      obtain ⟨z, hz, hz2⟩ := commute_along stp (j + 1) _ c a x hg1.1 ha hx
      rw [hy, Option.some.injEq] at hz
      subst hz
      have hle := chain_le stp (j + 1) (r + j) a y (gridOK_chain stp _ _ hga) hz2
      obtain ⟨r1, rfl⟩ : ∃ r1, r = r1 + 1 := ⟨r - 1, by omega⟩
      have e1 : r1 + 1 + j = r1 + (j + 1) := by omega
      refine ⟨r1, rfl, a, j + 1, ?_, hz2, ?_⟩
      · rw [← e1]; exact hga
      · rw [← e1]; exact (canonical_initiator stp _ _ _ ha).symm
    | none =>
      have hgb := gridOK_responder stp _ _ _ hg1 ha hb
      obtain ⟨r1, hr, hre⟩ := ih b r x y hgb hj hy
      refine ⟨r1, hr, ?_⟩
      have : runWith stp (List.replicate (r + (j + 1)) .initiator) c
          = runWith stp (List.replicate (r + j) .initiator) b :=
        canonical_responder stp _ _ _ ha hb
      rw [this]
      exact hre

theorem reached_responder (j : Nat) (c : S) (r : Nat) (x y : S)
    (hg : gridOK stp (r + j) c) (hx : advance stp j c = some x)
    (hy : stp .responder x = some y) :
    ∃ r1, r = r1 + 1 ∧
      Reached stp r1 y (runWith stp (List.replicate (r + j) .initiator) c) := by
  have hy2 := advance_right stp j c x y hx hy
  have hle := chain_le stp (j + 1) (r + j) c y (gridOK_chain stp _ _ hg) hy2
  obtain ⟨r1, rfl⟩ : ∃ r1, r = r1 + 1 := ⟨r - 1, by omega⟩
  have e1 : r1 + 1 + j = r1 + (j + 1) := by omega
  refine ⟨r1, rfl, c, j + 1, ?_, hy2, ?_⟩
  · rw [← e1]; exact hg
  · rw [← e1]

theorem reached_halt (j : Nat) : ∀ (c : S) (r : Nat) (x : S),
    gridOK stp (r + j) c → advance stp j c = some x → stp .initiator x = none →
    stp .responder x = none → x = runWith stp (List.replicate (r + j) .initiator) c := by
  induction j with
  | zero =>
    intro c r x hg hx h1 h2
    simp only [advance, Option.some.injEq] at hx
    subst hx
    exact (runWith_halt stp _ _ h1 h2).symm
  | succ j ih =>
    intro c r x hg hx h1 h2
    obtain ⟨b, hb, hj⟩ := advance_succ stp j c x hx
    have hg1 : gridOK stp ((r + j) + 1) c := hg
    cases ha : stp .initiator c with
    | some a =>
      obtain ⟨z, hz, -⟩ := commute_along stp (j + 1) _ c a x hg1.1 ha hx
      rw [h1] at hz
      exact absurd hz (by simp)
    | none =>
      have hgb := gridOK_responder stp _ _ _ hg1 ha hb
      have := ih b r x hgb hj h1 h2
      rw [this]
      exact (canonical_responder stp _ _ _ ha hb).symm

theorem reached_step (e : End) (r : Nat) (x y F : S) (h : Reached stp r x F)
    (hy : stp e x = some y) : ∃ r1, r = r1 + 1 ∧ Reached stp r1 y F := by
  obtain ⟨c, j, hg, hx, rfl⟩ := h
  cases e
  · exact reached_initiator stp j c r x y hg hx hy
  · exact reached_responder stp j c r x y hg hx hy

theorem runWith_reached (es : List End) : ∀ (r : Nat) (x F : S), Reached stp r x F →
    r ≤ es.length → runWith stp es x = F := by
  induction es with
  | nil =>
    intro r x F h hr
    cases h1 : stp .initiator x with
    | some y =>
      obtain ⟨r1, hr1, -⟩ := reached_step stp .initiator r x y F h h1
      simp only [List.length_nil] at hr
      omega
    | none =>
      cases h2 : stp .responder x with
      | some y =>
        obtain ⟨r1, hr1, -⟩ := reached_step stp .responder r x y F h h2
        simp only [List.length_nil] at hr
        omega
      | none =>
        obtain ⟨c, j, hg, hx, rfl⟩ := h
        exact reached_halt stp j c r x hg hx h1 h2
  | cons e es ih =>
    intro r x F h hr
    simp only [List.length_cons] at hr
    rw [runWith]
    cases h1 : stp e x with
    | some y =>
      obtain ⟨r1, hr1, hre⟩ := reached_step stp e r x y F h h1
      exact ih r1 y F hre (by omega)
    | none =>
      cases h2 : stp e.peer x with
      | some y =>
        obtain ⟨r1, hr1, hre⟩ := reached_step stp e.peer r x y F h h2
        exact ih r1 y F hre (by omega)
      | none =>
        obtain ⟨c, j, hg, hx, rfl⟩ := h
        have h3 : stp .initiator x = none := by cases e <;> first | exact h1 | exact h2
        have h4 : stp .responder x = none := by cases e <;> first | exact h1 | exact h2
        exact reached_halt stp j c r x hg hx h3 h4

/-- Every schedule of at least `n` turns leads to the state in which the run
ends when the initiator moves whenever it can. -/
theorem runWith_of_gridOK (n : Nat) (x : S) (h : gridOK stp n x) (es : List End)
    (hn : n ≤ es.length) :
    runWith stp es x = runWith stp (List.replicate n .initiator) x :=
  runWith_reached stp es n x _ ⟨x, 0, h, rfl, rfl⟩ hn

end

end Fabric

/-! ## States without the records of the buffers -/

namespace Fabric

theorem run_eq_runWith {α : Type} (es : List End) (st : Pair α) :
    run es st = runWith step es st := by
  induction es generalizing st with
  | nil => rfl
  | cons e es ih =>
    rw [run, runWith]
    cases step e st with
    | some y => exact ih y
    | none =>
      cases step e.peer st with
      | some y => exact ih y
      | none => rfl

theorem forget_forget {α : Type} (p : Prog α) : forget (forget p) = forget p := by
  cases p <;> rfl

theorem waiting_forget {α : Type} (p : Prog α) : waiting (forget p) = waiting p := by
  cases p <;> rfl

theorem result_forget {α : Type} (p : Prog α) : result (forget p) = result p := by
  cases p <;> rfl

theorem filter_initiator_responder (l : List (End × Out)) :
    l.filter (fun a => decide (a.1 = End.initiator) && decide (a.1 = End.responder)) = [] := by
  rw [List.filter_eq_nil_iff]
  rintro ⟨e, o⟩ -
  cases e <;> simp

theorem filter_responder_initiator (l : List (End × Out)) :
    l.filter (fun a => decide (a.1 = End.responder) && decide (a.1 = End.initiator)) = [] := by
  rw [List.filter_eq_nil_iff]
  rintro ⟨e, o⟩ -
  cases e <;> simp

theorem tidy_tidy (l : List (End × Out)) : tidy (tidy l) = tidy l := by
  simp [tidy, List.filter_append, List.filter_filter, filter_initiator_responder,
    filter_responder_initiator]

theorem tidy_cons_tidy (x : End × Out) (l : List (End × Out)) :
    tidy (x :: tidy l) = tidy (x :: l) := by
  obtain ⟨e, o⟩ := x
  cases e <;>
    simp [tidy, List.filter_cons, List.filter_append, List.filter_filter,
      filter_initiator_responder, filter_responder_initiator]

theorem mem_of_mem_tidy (x : End × Out) (l : List (End × Out)) (h : x ∈ tidy l) : x ∈ l := by
  simp only [tidy, List.mem_append, List.mem_filter] at h
  rcases h with h | h <;> exact h.1

theorem erase_resume {α : Type} (i r : Prog α) (n0 : Net) (o1 o2 : List (End × Out)) (e : End)
    (p : Prog α) (n : Net) (h : tidy o1 = tidy o2) :
    erase (Pair.resume ⟨forget i, forget r, n0, o1⟩ e p n)
      = erase (Pair.resume ⟨i, r, n0, o2⟩ e p n) := by
  cases e <;> simp only [erase, Pair.resume, forget_forget, h]

/-- A step does not look at what `erase` takes away. -/
theorem stepE_erase {α : Type} (e : End) (st : Pair α) : stepE e (erase st) = stepE e st := by
  obtain ⟨i, r, n, o⟩ := st
  cases e
  · cases i with
    | ret a => rfl
    | fault => rfl
    | out x p =>
      exact congrArg some (erase_resume (.out x p) r n _ ((End.initiator, x) :: o) .initiator p n
        (tidy_cons_tidy _ _))
    | ext c m k =>
      show Option.map erase (step .initiator ⟨.ext c blank k, forget r, n, tidy o⟩)
        = Option.map erase (step .initiator ⟨.ext c m k, r, n, o⟩)
      simp only [step, Pair.prog, End.peer, waiting_forget]
      cases serve .initiator c (waiting r) n with
      | none => rfl
      | some an =>
        exact congrArg some (erase_resume (.ext c m k) r n _ o .initiator _ _
          (tidy_tidy o))
  · cases r with
    | ret a => rfl
    | fault => rfl
    | out x p =>
      exact congrArg some (erase_resume i (.out x p) n _ ((End.responder, x) :: o) .responder p n
        (tidy_cons_tidy _ _))
    | ext c m k =>
      show Option.map erase (step .responder ⟨forget i, .ext c blank k, n, tidy o⟩)
        = Option.map erase (step .responder ⟨i, .ext c m k, n, o⟩)
      simp only [step, Pair.prog, End.peer, waiting_forget]
      cases serve .responder c (waiting i) n with
      | none => rfl
      | some an =>
        exact congrArg some (erase_resume i (.ext c m k) n _ o .responder _ _
          (tidy_tidy o))

/-- A run of the states without the records is the run, without the records. -/
theorem erase_runWith {α : Type} (es : List End) (st : Pair α) :
    erase (runWith step es st) = runWith stepE es (erase st) := by
  induction es generalizing st with
  | nil => rfl
  | cons e es ih =>
    rw [runWith, runWith, stepE_erase, stepE_erase]
    unfold stepE
    cases step e st with
    | some y => exact ih y
    | none =>
      cases step e.peer st with
      | some y => exact ih y
      | none => rfl

theorem roundTrip_of_erase (st : Pair (Int × RDMA.rpp.Globals)) (h : RoundTrip (erase st)) :
    RoundTrip st := by
  obtain ⟨gi, gr, h1, h2, h3, h4, h5, h6, h7, h8⟩ := h
  refine ⟨gi, gr, ?_, ?_, h3, h4, h5, h6, mem_of_mem_tidy _ _ h7, mem_of_mem_tidy _ _ h8⟩
  · rw [← h1]; exact (result_forget _).symm
  · rw [← h2]; exact (result_forget _).symm

end Fabric

/-! ### The exchange, step by step -/

namespace Fabric

set_option maxHeartbeats 40000000 in
set_option maxRecDepth 100000 in
/-- The exchange is through after 200 turns when the initiator moves whenever
it can. -/
theorem exchange_canonical (keys : Nat → Nat) (hk : Function.Injective keys) (Li Lr : Layout) :
    RoundTrip (runWith stepE (List.replicate 200 .initiator) (erase (exchange keys Li Lr))) := by
  simp only [
    exchange, rpp.run_client, rpp.run_server, rpp.run_client_body, rpp.run_server_body,
    rpp.rpp_create_qp, rpp.rpp_setup_buffers, rpp.rpp_rdma_recv, rpp.rpp_rdma_send,
    rpp.rpp_wait_send_comp, rpp.run_client_out, rpp.run_server_out, rpp.rpp_free_buffers,
    rpp.start, Port.fresh, bind_ret, bind_fault, bind_out, bind_ext, bind_apply, pure_apply,
    get_apply, modify_apply, emit_apply, if_apply, call_apply, deref_rkey_some, erase_mk,
    forget_ext, forget_out, forget_ret, stepE_mk, tidy_nil, tidy_initiator, tidy_responder,
    List.filter_cons, List.filter_nil, Option.map_some', Option.map_none',
    List.replicate_succ, List.replicate_zero, runWith_cons, runWith_nil, runFirst_some,
    runFirst_none, runPeer_some, runPeer_none,
    step_i_out, step_r_out, step_i_ext, step_r_ext, step_i_ret, step_r_ret, answered_some,
    answered_none, resume_i_ext, resume_r_ext, resume_i_out, resume_r_out, resume_i_ret,
    resume_r_ret, waiting_ext, waiting_out, waiting_ret, End.peer, serve, Net.port,
    Net.setPort, register, lookup, data, setData, address, ok, failure, List.find?_cons,
    List.find?_nil, hk.eq_iff, ne_eq, not_true_eq_false, not_false_eq_true, ↓reduceIte,
    Int.reduceEq, reduceCtorEq, Option.some.injEq, eq_self_iff_true, decide_True,
    decide_False, true_and, and_true, false_and, and_false, and_self, Nat.reduceAdd,
    Nat.reduceSub, Nat.reduceLT, Nat.reduceEqDiff, Nat.lt_irrefl, Int.reduceLT, Int.reduceNeg,
    one_ne_zero, List.nil_append, List.cons_append, List.append_nil, copy_read_data,
    copy_write_data, cstring_read_data, cstring_write_data]
  exact ⟨_, _, rfl, rfl, rfl, cstring_read_data, rfl, cstring_write_data, by simp, by simp⟩

set_option maxHeartbeats 40000000 in
set_option maxRecDepth 100000 in
/-- In every state that the exchange can reach, the steps of the two ends
commute. -/
theorem exchange_gridOK (keys : Nat → Nat) (hk : Function.Injective keys) (Li Lr : Layout) :
    gridOK stepE 200 (erase (exchange keys Li Lr)) := by
  simp only [
    exchange, rpp.run_client, rpp.run_server, rpp.run_client_body, rpp.run_server_body,
    rpp.rpp_create_qp, rpp.rpp_setup_buffers, rpp.rpp_rdma_recv, rpp.rpp_rdma_send,
    rpp.rpp_wait_send_comp, rpp.run_client_out, rpp.run_server_out, rpp.rpp_free_buffers,
    rpp.start, Port.fresh, bind_ret, bind_fault, bind_out, bind_ext, bind_apply, pure_apply,
    get_apply, modify_apply, emit_apply, if_apply, call_apply, deref_rkey_some, erase_mk,
    forget_ext, forget_out, forget_ret, stepE_mk, tidy_nil, tidy_initiator, tidy_responder,
    List.filter_cons, List.filter_nil, Option.map_some', Option.map_none',
    commutes_none, commutes_some, chainOK_succ, chainStep_none, chainStep_some, gridOK_succ,
    gridFirst_some, gridFirst_none, gridPeer_some, gridPeer_none,
    step_i_out, step_r_out, step_i_ext, step_r_ext, step_i_ret, step_r_ret, answered_some,
    answered_none, resume_i_ext, resume_r_ext, resume_i_out, resume_r_out, resume_i_ret,
    resume_r_ret, waiting_ext, waiting_out, waiting_ret, End.peer, serve, Net.port,
    Net.setPort, register, lookup, data, setData, address, ok, failure, List.find?_cons,
    List.find?_nil, hk.eq_iff, ne_eq, not_true_eq_false, not_false_eq_true, ↓reduceIte,
    Int.reduceEq, reduceCtorEq, Option.some.injEq, eq_self_iff_true, decide_True,
    decide_False, true_and, and_true, false_and, and_false, and_self, Nat.reduceAdd,
    Nat.reduceSub, Nat.reduceLT, Nat.reduceEqDiff, Nat.lt_irrefl, Int.reduceLT, Int.reduceNeg,
    one_ne_zero, List.nil_append, List.cons_append, List.append_nil, copy_read_data,
    copy_write_data, cstring_read_data, cstring_write_data]

end Fabric
/-! ## The exchange on one side -/

/-- C2. Strict sequencing on the responder: whatever the external calls
return, in the call trace of `run_server` of rpp, of `run_server` of rpp_e and
of `exec_rpp` of rpp_h an `rdma_post_read` has one receive completion with a
positive count before it and an `rdma_post_write` has two. -/
theorem strict_sequencing (id : rdma_cm_id) (w : World) :
    Sequenced (callTrace (exec (rpp.run_server (rpp.start 1)) w Log.start)) ∧
    Sequenced (callTrace (exec (rpp_e.run_server (rpp_e.start 1)) w Log.start)) ∧
    Sequenced (callTrace (exec (rpp_h.exec_rpp id (rpp_h.start 1)) w Log.start)) :=
  ⟨(rpp.server_master w).r_sequenced, (rpp_e.server_master_e w).r_sequenced,
    (rpp_h.worker_master id w).w_sequenced⟩

/-- C3. Responder targets: in every run of the three responders the RDMA READ
is posted into `read_data` from the address, key and length of the first
descriptor received, and the RDMA WRITE is posted from `write_data` to the
address, key and length of the second descriptor received. -/
theorem responder_targets (id : rdma_cm_id) (w : World) :
    Targeted (callTrace (exec (rpp.run_server (rpp.start 1)) w Log.start)) ∧
    Targeted (callTrace (exec (rpp_e.run_server (rpp_e.start 1)) w Log.start)) ∧
    Targeted (callTrace (exec (rpp_h.exec_rpp id (rpp_h.start 1)) w Log.start)) :=
  ⟨(rpp.server_master w).r_targeted, (rpp_e.server_master_e w).r_targeted,
    (rpp_h.worker_master id w).w_targeted⟩

/-- C4. Initiator descriptors: in every run of `run_client` of rpp and of
rpp_h, `send_buf` holds at the first `rdma_post_send` the address of
`read_data`, the key of the handle that `rdma_reg_read` returned and the size
4096, and at the second `rdma_post_send`, which comes after a receive
completion, the address of `write_data`, the key of the handle that
`rdma_reg_write` returned and the size 4096. -/
theorem initiator_descriptors (L : Layout) (w : World) :
    Described L (callTrace (exec (rpp.run_client L (rpp.start 0)) w Log.start)) ∧
    Described (rpp_h.final_layout (exec (rpp_h.run_client (rpp_h.start 0)) w Log.start))
      (callTrace (exec (rpp_h.run_client (rpp_h.start 0)) w Log.start)) := by
  refine ⟨(rpp.client_master L w).i_described, ?_⟩
  rw [callTrace_eq]
  exact described_of_rev _ _ (rpp_h.client_master_h w).ok

/-- C8. No leaked registration: in every run of `run_server` and `run_client`
of rpp and of `exec_rpp` of rpp_h in which the last registration made returned
`NULL`, the handles deregistered are those of the earlier registrations, each
once, and no `rdma_post_recv`, `rdma_accept` or `rdma_connect` is issued;
`run_server` and `run_client` return a non-zero value and `exec_rpp`, which
returns `NULL` in every case, writes a diagnostic. -/
theorem no_leaked_registration (id : rdma_cm_id) (L : Layout) (w : World) :
    (RegistrationReleased (callTrace (exec (rpp.run_server (rpp.start 1)) w Log.start)) ∧
      FailureReported (callTrace (exec (rpp.run_server (rpp.start 1)) w Log.start))
        (∃ v, returned (exec (rpp.run_server (rpp.start 1)) w Log.start) = some v ∧ v ≠ 0)) ∧
    (RegistrationReleased (callTrace (exec (rpp.run_client L (rpp.start 0)) w Log.start)) ∧
      FailureReported (callTrace (exec (rpp.run_client L (rpp.start 0)) w Log.start))
        (∃ v, returned (exec (rpp.run_client L (rpp.start 0)) w Log.start) = some v ∧ v ≠ 0)) ∧
    (RegistrationReleased (callTrace (exec (rpp_h.exec_rpp id (rpp_h.start 1)) w Log.start)) ∧
      FailureReported (callTrace (exec (rpp_h.exec_rpp id (rpp_h.start 1)) w Log.start))
        (diagnosed (exec (rpp_h.exec_rpp id (rpp_h.start 1)) w Log.start).1.trace = true)) :=
  ⟨⟨(rpp.server_master w).r_released, (rpp.server_master w).r_reported⟩,
    ⟨(rpp.client_master L w).i_released, (rpp.client_master L w).i_reported⟩,
    ⟨(rpp_h.worker_master id w).w_released, (rpp_h.worker_master id w).w_reported⟩⟩

/-- C8, on a run: when `rdma_reg_read` (call number 7 of `run_server`) fails,
the two handles registered before it are deregistered, in the order in which
they were registered, and `run_server` returns 1. -/
theorem no_leaked_registration_witness :
    (regs (callTrace (exec (rpp.run_server (rpp.start 1)) (failingReg 7) Log.start))).getLast?
        = some none ∧
    deregs (callTrace (exec (rpp.run_server (rpp.start 1)) (failingReg 7) Log.start))
        = [some ⟨5, 105⟩, some ⟨6, 106⟩] ∧
    ∃ v, returned (exec (rpp.run_server (rpp.start 1)) (failingReg 7) Log.start) = some v ∧
      v ≠ 0 := by
  have h := (no_leaked_registration 0 ⟨0, 0⟩ (failingReg 7)).1
  have h0 : (regs (callTrace (exec (rpp.run_server (rpp.start 1)) (failingReg 7)
      Log.start))).getLast? = some none := by decide
  refine ⟨h0, ?_, h.2 h0⟩
  rw [(h.1 h0).1]
  decide
/-! ## Registration and release -/

/-- C11. Best-effort release: for every state of the handles and whatever
the individual `rdma_dereg_mr` calls return, one invocation of
`rpp_free_buffers` (of rpp, and of rpp_h on a connection with a context)
issues one `rdma_dereg_mr` for each handle that is set, none for a handle that
is `NULL` and no other call, and returns. -/
theorem best_effort_release (s : rpp.Globals) (sv : Int) (ct : rpp_h.rpp_context) (t : Int)
    (m : Mem) (w : World) :
    (deregs (callTrace (exec (rpp.rpp_free_buffers s) w Log.start))
        = (rpp.handles s).filter Option.isSome ∧
      (∀ x ∈ callTrace (exec (rpp.rpp_free_buffers s) w Log.start), x.kind = .rdma_dereg_mr) ∧
      returned (exec (rpp.rpp_free_buffers s) w Log.start) = some ()) ∧
    (deregs (callTrace (exec (rpp_h.rpp_free_buffers ⟨sv, some ct, t, m⟩) w Log.start))
        = ct.handles.filter Option.isSome ∧
      (∀ x ∈ callTrace (exec (rpp_h.rpp_free_buffers ⟨sv, some ct, t, m⟩) w Log.start),
        x.kind = .rdma_dereg_mr) ∧
      returned (exec (rpp_h.rpp_free_buffers ⟨sv, some ct, t, m⟩) w Log.start) = some ()) := by
  obtain ⟨l1, m1, h1, h2⟩ := rpp.free_buffers_spec s w Log.start
  obtain ⟨l2, t2, m2, h3, h4⟩ := rpp_h.free_buffers_spec_h sv ct t m w Log.start
  rw [h1, h3]
  exact ⟨⟨(deregs_of_run _ _ h2).1, (deregs_of_run _ _ h2).2, rfl⟩,
    ⟨(deregs_of_run _ _ h4).1, (deregs_of_run _ _ h4).2, rfl⟩⟩

/-- C10, refuted: with all four buffers registered, two invocations of
`rpp_free_buffers` in a row issue eight `rdma_dereg_mr` calls: the second
invocation deregisters every handle once more. -/
theorem second_release_repeats :
    deregs (callTrace (exec ((rpp.rpp_free_buffers >>= fun _ => rpp.rpp_free_buffers)
        rpp.registered) smooth Log.start))
      = [some ⟨5, 105⟩, some ⟨6, 106⟩, some ⟨7, 107⟩, some ⟨8, 108⟩,
         some ⟨5, 105⟩, some ⟨6, 106⟩, some ⟨7, 107⟩, some ⟨8, 108⟩] := by
  decide

/-- C10, amended: `rpp_free_buffers` leaves the handles as they are, so that a
second invocation issues the same `rdma_dereg_mr` calls as the first; it
issues none exactly when no handle was set. -/
theorem release_keeps_handles (s : rpp.Globals) (sv : Int) (ct : rpp_h.rpp_context) (t : Int)
    (m : Mem) (w w2 : World) :
    (∃ s1, (exec (rpp.rpp_free_buffers s) w Log.start).2 = some ((), s1) ∧
      rpp.handles s1 = rpp.handles s ∧
      deregs (callTrace (exec (rpp.rpp_free_buffers s1) w2 Log.start))
        = (rpp.handles s).filter Option.isSome) ∧
    (∃ t1 m1, (exec (rpp_h.rpp_free_buffers ⟨sv, some ct, t, m⟩) w Log.start).2
        = some ((), ⟨sv, some ct, t1, m1⟩) ∧
      deregs (callTrace (exec (rpp_h.rpp_free_buffers ⟨sv, some ct, t1, m1⟩) w2 Log.start))
        = ct.handles.filter Option.isSome) := by
  obtain ⟨l1, m1, h1, -⟩ := rpp.free_buffers_spec s w Log.start
  obtain ⟨l2, t2, m2, h3, -⟩ := rpp_h.free_buffers_spec_h sv ct t m w Log.start
  constructor
  · refine ⟨{ s with mem := m1 }, by rw [h1], rfl, ?_⟩
    obtain ⟨l3, m3, h5, h6⟩ := rpp.free_buffers_spec { s with mem := m1 } w2 Log.start
    rw [h5]
    exact (deregs_of_run _ _ h6).1
  · refine ⟨t2, m2, by rw [h3], ?_⟩
    obtain ⟨l3, t3, m3, h5, h6⟩ := rpp_h.free_buffers_spec_h sv ct t2 m2 w2 Log.start
    rw [h5]
    exact (deregs_of_run _ _ h6).1
/-- C9, refuted: when the four registrations succeed, `rpp_free_buffers`
deregisters the handles in the order in which `rpp_setup_buffers` obtained
them, which is not the reverse order. -/
theorem release_not_reversed :
    deregs (callTrace (exec ((rpp.rpp_setup_buffers >>= fun _ => rpp.rpp_free_buffers)
        (rpp.start 1)) smooth Log.start))
      = [some ⟨0, 100⟩, some ⟨1, 101⟩, some ⟨2, 102⟩, some ⟨3, 103⟩] ∧
    regs (callTrace (exec ((rpp.rpp_setup_buffers >>= fun _ => rpp.rpp_free_buffers)
        (rpp.start 1)) smooth Log.start))
      = [some ⟨0, 100⟩, some ⟨1, 101⟩, some ⟨2, 102⟩, some ⟨3, 103⟩] := by
  decide

/-- C9, amended: whatever the registrations return, `rpp_free_buffers` run
after `rpp_setup_buffers` deregisters the handles that were obtained in the
order in which they were obtained (`recv_buf`, `send_buf`, `read_data`,
`write_data`), skipping a registration that returned `NULL`. -/
theorem release_in_acquisition_order (sv : Int) (w : World) :
    deregs (callTrace (exec ((rpp.rpp_setup_buffers >>= fun _ => rpp.rpp_free_buffers)
        (rpp.start sv)) w Log.start))
      = (regs (callTrace (exec ((rpp.rpp_setup_buffers >>= fun _ => rpp.rpp_free_buffers)
        (rpp.start sv)) w Log.start))).filter Option.isSome := by
  rw [callTrace_eq, deregs_reverse, regs_reverse, List.filter_reverse]
  congr 1
  simp only [rpp.rpp_setup_buffers, rpp.start, Log.start, exec_bind, rpp.exec_call,
    thenExec_some, thenExec_ite, exec_ite, exec_emit, exec_pure, exec_get, exec_modify,
    Nat.zero_add, Nat.reduceAdd]
  by_cases h0 : (w 0).mr = none
  · simp only [rpp.rpp_free_buffers, exec_bind, rpp.exec_call, thenExec_some,
      thenExec_ite, ↓exec_when_emit, ↓exec_unless_emit, exec_ite, exec_emit, exec_pure, exec_get,
      exec_modify, List.nil_append, List.cons_append, Nat.reduceAdd, ne_eq, ite_not, ↓reduceIte,
      not_true_eq_false, not_false_eq_true, views_append, views_call, views_out, views_nil,
      views_when_out, views_unless_out, List.append_nil, view, Call.kind, Call.handle,
      reduceCtorEq, regs, deregs, isReg, List.filter_cons, List.filter_nil, decide_True,
      decide_False, Bool.false_eq_true, List.map_cons, List.map_nil, Option.isSome_iff_ne_none,
      Option.isSome_none, h0]
  · by_cases h1 : (w 1).mr = none
    · simp only [rpp.rpp_free_buffers, exec_bind, rpp.exec_call, thenExec_some,
      thenExec_ite, ↓exec_when_emit, ↓exec_unless_emit, exec_ite, exec_emit, exec_pure, exec_get,
      exec_modify, List.nil_append, List.cons_append, Nat.reduceAdd, ne_eq, ite_not, ↓reduceIte,
      not_true_eq_false, not_false_eq_true, views_append, views_call, views_out, views_nil,
      views_when_out, views_unless_out, List.append_nil, view, Call.kind, Call.handle,
      reduceCtorEq, regs, deregs, isReg, List.filter_cons, List.filter_nil, decide_True,
      decide_False, Bool.false_eq_true, List.map_cons, List.map_nil, Option.isSome_iff_ne_none,
      Option.isSome_none, h0, h1]
    · by_cases h2 : (w 2).mr = none
      · simp only [rpp.rpp_free_buffers, exec_bind, rpp.exec_call, thenExec_some,
      thenExec_ite, ↓exec_when_emit, ↓exec_unless_emit, exec_ite, exec_emit, exec_pure, exec_get,
      exec_modify, List.nil_append, List.cons_append, Nat.reduceAdd, ne_eq, ite_not, ↓reduceIte,
      not_true_eq_false, not_false_eq_true, views_append, views_call, views_out, views_nil,
      views_when_out, views_unless_out, List.append_nil, view, Call.kind, Call.handle,
      reduceCtorEq, regs, deregs, isReg, List.filter_cons, List.filter_nil, decide_True,
      decide_False, Bool.false_eq_true, List.map_cons, List.map_nil, Option.isSome_iff_ne_none,
      Option.isSome_none, h0, h1, h2]
      · by_cases h3 : (w 3).mr = none
        · simp only [rpp.rpp_free_buffers, exec_bind, rpp.exec_call, thenExec_some,
      thenExec_ite, ↓exec_when_emit, ↓exec_unless_emit, exec_ite, exec_emit, exec_pure, exec_get,
      exec_modify, List.nil_append, List.cons_append, Nat.reduceAdd, ne_eq, ite_not, ↓reduceIte,
      not_true_eq_false, not_false_eq_true, views_append, views_call, views_out, views_nil,
      views_when_out, views_unless_out, List.append_nil, view, Call.kind, Call.handle,
      reduceCtorEq, regs, deregs, isReg, List.filter_cons, List.filter_nil, decide_True,
      decide_False, Bool.false_eq_true, List.map_cons, List.map_nil, Option.isSome_iff_ne_none,
      Option.isSome_none, h0, h1, h2, h3]
        · simp only [rpp.rpp_free_buffers, exec_bind, rpp.exec_call, thenExec_some,
      thenExec_ite, ↓exec_when_emit, ↓exec_unless_emit, exec_ite, exec_emit, exec_pure, exec_get,
      exec_modify, List.nil_append, List.cons_append, Nat.reduceAdd, ne_eq, ite_not, ↓reduceIte,
      not_true_eq_false, not_false_eq_true, views_append, views_call, views_out, views_nil,
      views_when_out, views_unless_out, List.append_nil, view, Call.kind, Call.handle,
      reduceCtorEq, regs, deregs, isReg, List.filter_cons, List.filter_nil, decide_True,
      decide_False, Bool.false_eq_true, List.map_cons, List.map_nil, Option.isSome_iff_ne_none,
      Option.isSome_none, h0, h1, h2, h3]

/-- C7, refuted: when `rdma_reg_read` fails after the two `rdma_reg_msgs`
succeeded, `rpp_setup_buffers` returns 1 having made three registration calls
and no `rdma_dereg_mr` call: the two handles it obtained are still
registered. -/
theorem setup_has_no_rollback :
    (callTrace (exec (rpp.rpp_setup_buffers (rpp.start 1)) (failingReg 2) Log.start)).map
        (·.kind) = [.rdma_reg_msgs, .rdma_reg_msgs, .rdma_reg_read] ∧
    regs (callTrace (exec (rpp.rpp_setup_buffers (rpp.start 1)) (failingReg 2) Log.start))
      = [some ⟨0, 100⟩, some ⟨1, 101⟩, none] ∧
    deregs (callTrace (exec (rpp.rpp_setup_buffers (rpp.start 1)) (failingReg 2) Log.start))
      = [] ∧
    returned (exec (rpp.rpp_setup_buffers (rpp.start 1)) (failingReg 2) Log.start) = some 1 := by
  decide

/-- C7, amended: `rpp_setup_buffers` (of rpp, and of rpp_h on a connection
with a context) never deregisters.  Whatever the registrations return, it
makes no `rdma_dereg_mr` call, the handles it obtained are stored in
`recv_mr`, `send_mr`, `read_mr`, `write_mr` when it returns, and it returns 1
when its last registration returned `NULL` and 0 when none did.  Releasing
them is left to `rpp_free_buffers`, which the caller runs at its label `out`. -/
theorem setup_leaves_release_to_caller (s : rpp.Globals) (sv : Int) (ct : rpp_h.rpp_context)
    (t : Int) (m : Mem) (w : World) :
    SetupDone rpp.handles (exec (rpp.rpp_setup_buffers s) w Log.start) ∧
    SetupDone rpp_h.State.handles
      (exec (rpp_h.rpp_setup_buffers ⟨sv, some ct, t, m⟩) w Log.start) := by
  constructor
  · simp only [rpp.rpp_setup_buffers, Log.start, exec_bind, rpp.exec_call, thenExec_some,
      thenExec_ite, exec_ite, exec_emit, exec_pure, exec_get, exec_modify, Nat.zero_add,
      Nat.reduceAdd]
    repeat' (refine of_ite (SetupDone rpp.handles) _ _ _ (fun h => ?_) (fun h => ?_))
    all_goals
      refine ⟨by simp [callTrace, Log.trace, views, deregs, view, Call.kind], _, _, rfl,
        by simp [callTrace, Log.trace, views, regs, view, Call.kind, isReg, rpp.handles, *],
        by simp [callTrace, Log.trace, views, regs, view, Call.kind, isReg, rpp.handles, *]⟩
  · simp only [rpp_h.rpp_setup_buffers, Log.start, exec_bind, rpp_h.exec_call_h,
      rpp_h.exec_the_ct, rpp_h.exec_set_ct, thenExec_some, thenExec_ite, exec_ite, exec_emit,
      exec_pure, exec_get, exec_modify, Nat.zero_add, Nat.reduceAdd]
    repeat' (refine of_ite (SetupDone rpp_h.State.handles) _ _ _ (fun h => ?_) (fun h => ?_))
    all_goals
      refine ⟨by simp [callTrace, Log.trace, views, deregs, view, Call.kind], _, _, rfl,
        by simp [callTrace, Log.trace, views, regs, view, Call.kind, isReg,
          rpp_h.State.handles, rpp_h.rpp_context.handles, *],
        by simp [callTrace, Log.trace, views, regs, view, Call.kind, isReg,
          rpp_h.State.handles, rpp_h.rpp_context.handles, *]⟩
/-! ## The completion and post helpers -/

/-- C6. The helpers fail exactly on error, in rpp and in rpp_h (on a
connection with a context): `rpp_wait_send_comp` returns 0 when
`rdma_get_send_comp` returns a positive count and 1 otherwise;
`rpp_rdma_send` returns 0 when `rdma_post_send` returns 0 and the send
completion has a positive count, and 1 otherwise, without waiting for a
completion when the post failed; `rpp_rdma_recv` returns 0 when
`rdma_get_recv_comp` returns a positive count and the `rdma_post_recv` that
follows returns 0, and 1 otherwise, without posting when the completion
failed. -/
theorem helpers_fail_exactly_on_error (s : rpp.Globals) (sv : Int) (ct : rpp_h.rpp_context)
    (t : Int) (m : Mem) (w : World) :
    (Does rpp.rpp_wait_send_comp s w (if 0 < (w 0).ret then 0 else 1) [.rdma_get_send_comp] ∧
     Does rpp.rpp_rdma_send s w (if (w 0).ret = 0 ∧ 0 < (w 1).ret then 0 else 1)
       (if (w 0).ret = 0 then [.rdma_post_send, .rdma_get_send_comp] else [.rdma_post_send]) ∧
     Does rpp.rpp_rdma_recv s w (if 0 < (w 0).ret ∧ (w 1).ret = 0 then 0 else 1)
       (if 0 < (w 0).ret then [.rdma_get_recv_comp, .rdma_post_recv]
        else [.rdma_get_recv_comp])) ∧
    (Does rpp_h.rpp_wait_send_comp ⟨sv, some ct, t, m⟩ w (if 0 < (w 0).ret then 0 else 1)
       [.rdma_get_send_comp] ∧
     Does rpp_h.rpp_rdma_send ⟨sv, some ct, t, m⟩ w
       (if (w 0).ret = 0 ∧ 0 < (w 1).ret then 0 else 1)
       (if (w 0).ret = 0 then [.rdma_post_send, .rdma_get_send_comp] else [.rdma_post_send]) ∧
     Does rpp_h.rpp_rdma_recv ⟨sv, some ct, t, m⟩ w
       (if 0 < (w 0).ret ∧ (w 1).ret = 0 then 0 else 1)
       (if 0 < (w 0).ret then [.rdma_get_recv_comp, .rdma_post_recv]
        else [.rdma_get_recv_comp])) := by
  simp only [Does, rpp.exec_rpp_wait_send_comp, rpp.exec_rpp_rdma_send,
    rpp.exec_rpp_rdma_recv, rpp_h.exec_rpp_wait_send_comp_h, rpp_h.exec_rpp_rdma_send_h,
    rpp_h.exec_rpp_rdma_recv_h, Log.start, Nat.zero_add]
  refine ⟨⟨?_, ?_, ?_⟩, ?_, ?_, ?_⟩
  · by_cases h0 : 0 < (w 0).ret <;>
      simp [h0, returned, callTrace, Log.trace, views, view, Call.kind]
  · by_cases h1 : (w 0).ret = 0 <;> by_cases h2 : 0 < (w 1).ret <;>
      simp [h1, h2, returned, callTrace, Log.trace, views, view, Call.kind]
  · by_cases h0 : 0 < (w 0).ret <;> by_cases h3 : (w 1).ret = 0 <;>
      by_cases hs : s.server = 0 <;>
      simp [h0, h3, hs, returned, callTrace, Log.trace, views, view, Call.kind]
  · by_cases h0 : 0 < (w 0).ret <;>
      simp [h0, returned, callTrace, Log.trace, views, view, Call.kind]
  · by_cases h1 : (w 0).ret = 0 <;> by_cases h2 : 0 < (w 1).ret <;>
      simp [h1, h2, returned, callTrace, Log.trace, views, view, Call.kind]
  · by_cases h0 : 0 < (w 0).ret <;> by_cases h3 : (w 1).ret = 0 <;>
      by_cases hv : sv = 0 <;>
      simp [h0, h3, hv, returned, callTrace, Log.trace, views, view, Call.kind]
/-! ## Ordering of posts and waits, transfer length -/

/-- C15, refuted: in the run of `run_server` of rpp in which every call
returns 0, the call that follows the first `rdma_post_recv` is `rdma_accept`;
the wait `rdma_get_recv_comp` for that receive comes after it. -/
theorem post_recv_not_awaited :
    (callTrace (exec (rpp.run_server (rpp.start 1)) smooth Log.start)).map (·.kind)
      = [.rdma_create_id, .rdma_bind_addr, .rdma_listen, .rdma_get_request, .rdma_create_qp,
         .rdma_reg_msgs, .rdma_reg_msgs, .rdma_reg_read, .rdma_reg_write, .rdma_post_recv,
         .rdma_accept, .rdma_get_recv_comp, .rdma_dereg_mr, .rdma_dereg_mr, .rdma_dereg_mr,
         .rdma_dereg_mr, .rdma_destroy_qp, .rdma_destroy_id, .rdma_destroy_id] := by
  decide

/-- C15, amended: in every call trace of `run_server` and of `run_client` of
rpp, the call that follows an `rdma_post_send`, `rdma_post_read` or
`rdma_post_write` that returned 0 is the wait `rdma_get_send_comp`; receives
are posted ahead of the message they are for and are not covered. -/
theorem send_queue_waited (L : Layout) (w : World) :
    WaitsForSendQueue (callTrace (exec (rpp.run_server (rpp.start 1)) w Log.start)) ∧
    WaitsForSendQueue (callTrace (exec (rpp.run_client L (rpp.start 0)) w Log.start)) :=
  ⟨(rpp.server_master w).r_waits, (rpp.client_master L w).i_waits⟩

/-- C12. Malformed event stops the acceptor: when `run_server` of rpp_h, at
the head of its loop with `terminate == 0`, fetches an event whose status is
not 0 or whose kind is not `RDMA_CM_EVENT_CONNECT_REQUEST`, the calls it makes
from there on are `rdma_get_cm_event`, `rdma_destroy_id` on the listening id
and `rdma_destroy_event_channel` on the channel: no `rdma_migrate_id`, no
`pthread_create` and no second `rdma_get_cm_event`.  It writes a diagnostic
and returns. -/
theorem malformed_event_stops_acceptor (n : Nat) (ret : Int) (listen_id ch : Option Nat)
    (s : rpp_h.State) (w : World) (ht : s.terminate = 0) (hr : (w 0).ret = 0)
    (hbad : (w 0).status ≠ 0 ∨ (w 0).event ≠ rpp_h.RDMA_CM_EVENT_CONNECT_REQUEST) :
    callsOf (exec (rpp_h.run_server_loop (n + 1) ret listen_id ch s) w Log.start).1.trace
      = [.rdma_get_cm_event, .rdma_destroy_id listen_id, .rdma_destroy_event_channel ch] ∧
    diagnosed (exec (rpp_h.run_server_loop (n + 1) ret listen_id ch s) w Log.start).1.trace
      = true ∧
    ∃ v, returned (exec (rpp_h.run_server_loop (n + 1) ret listen_id ch s) w Log.start)
      = some (some v) := by
  obtain ⟨o, d, s1, ho, h, hd⟩ :=
    rpp_h.exec_malformed n ret listen_id ch s w Log.start ht hr hbad
  rw [h]
  refine ⟨?_, ?_, 0, rfl⟩
  · simp [Log.trace, Log.start, callsOf_reverse, callsOf, hd]
  · simp [Log.trace, diagnosed, Event.isDiag, ho]

/-- C12, on a run: the first event has status -1. -/
theorem malformed_event_stops_acceptor_witness :
    callsOf (exec (rpp_h.run_server_loop 1 0 (some 1) (some 0) (rpp_h.start 1))
        (fetching 0 (-1) 4) Log.start).1.trace
      = [.rdma_get_cm_event, .rdma_destroy_id (some 1), .rdma_destroy_event_channel (some 0)] :=
  (malformed_event_stops_acceptor 0 0 (some 1) (some 0) (rpp_h.start 1) (fetching 0 (-1) 4)
    rfl (by decide) (Or.inl (by decide))).1

/-- C14, refuted by the code: `main` of rpp_h, started as a server, returns 0
when the first event fetched has status -1 and when it is an event of kind 0
(`RDMA_CM_EVENT_ADDR_RESOLVED`), although it has written a diagnostic; only
the failure of `rdma_get_cm_event` itself makes it return a non-zero value. -/
theorem acceptor_error_exits_zero :
    returned (exec (rpp_h.main ['s'] 1 true 1 (rpp_h.start (-1))) (fetching 5 (-1) 4)
      Log.start) = some (some 0) ∧
    diagnosed (exec (rpp_h.main ['s'] 1 true 1 (rpp_h.start (-1))) (fetching 5 (-1) 4)
      Log.start).1.trace = true ∧
    returned (exec (rpp_h.main ['s'] 1 true 1 (rpp_h.start (-1))) (fetching 5 0 0)
      Log.start) = some (some 0) ∧
    diagnosed (exec (rpp_h.main ['s'] 1 true 1 (rpp_h.start (-1))) (fetching 5 0 0)
      Log.start).1.trace = true ∧
    returned (exec (rpp_h.main ['s'] 1 true 1 (rpp_h.start (-1))) (returning 5 (-1))
      Log.start) = some (some (-1)) := by
  decide
/-! ## Exit value of rpp -/

/-- C16. The three variants share one protocol core: when the calls that
establish the connection succeed (five calls in `run_server` of rpp, four in
`run_server` of rpp_e and in `exec_rpp` of rpp_h) and the calls from
`rpp_setup_buffers` on are answered alike, the three responders make the same
registration, post, completion-wait and `rdma_accept` calls with the same
arguments, the two `run_server` return the same value, and either all three
write `done` or none does. -/
theorem shared_protocol_core (id p : Nat) (m0 : Mem) (w : World) :
    coreCalls (exec (rpp.run_server (rpp.start 1)) (after 5 (success p m0) w) Log.start).1.trace
      = coreCalls
          (exec (rpp_e.run_server (rpp_e.start 1)) (after 4 (success p m0) w) Log.start).1.trace ∧
    coreCalls (exec (rpp.run_server (rpp.start 1)) (after 5 (success p m0) w) Log.start).1.trace
      = coreCalls
          (exec (rpp_h.exec_rpp id (rpp_h.start 1)) (after 4 (success p m0) w) Log.start).1.trace ∧
    returned (exec (rpp.run_server (rpp.start 1)) (after 5 (success p m0) w) Log.start)
      = returned (exec (rpp_e.run_server (rpp_e.start 1)) (after 4 (success p m0) w) Log.start) ∧
    completed (exec (rpp.run_server (rpp.start 1)) (after 5 (success p m0) w) Log.start).1.trace
      = completed
          (exec (rpp_e.run_server (rpp_e.start 1)) (after 4 (success p m0) w) Log.start).1.trace ∧
    completed (exec (rpp.run_server (rpp.start 1)) (after 5 (success p m0) w) Log.start).1.trace
      = completed
          (exec (rpp_h.exec_rpp id (rpp_h.start 1)) (after 4 (success p m0) w)
            Log.start).1.trace := by
  obtain ⟨h1, h2, h3, h4, h5⟩ := (CoreProof.core_master id p m0 w).ok
  simp only [Log.trace, coreCalls_reverse, completed_reverse]
  exact ⟨by rw [h1], by rw [h2], h3, h4, h5⟩

/-- C1: content round trip.  `run_client` and `run_server` of rpp are run
against each other over the connection, with the data buffers of the two ends
at any addresses `Li` and `Lr`, with any keys as long as the adapter gives
different registrations different keys, and with the two ends getting their
turns in any order, for 200 turns or more.  Both ends return 0; the
responder's `read_data` then holds what the initiator's `read_data` holds, the
string `aaa`, and the initiator's `write_data` holds what the responder's
`write_data` holds, the string `bbb`; each side has printed the string that it
received. -/
theorem content_round_trip (keys : Nat → Nat) (hk : Function.Injective keys) (Li Lr : Layout)
    (schedule : List Fabric.End) (hs : 200 ≤ schedule.length) :
    Fabric.RoundTrip (Fabric.run schedule (Fabric.exchange keys Li Lr)) := by
  apply Fabric.roundTrip_of_erase
  rw [Fabric.run_eq_runWith, Fabric.erase_runWith,
    Fabric.runWith_of_gridOK Fabric.stepE 200 _ (Fabric.exchange_gridOK keys hk Li Lr) schedule
      hs]
  exact Fabric.exchange_canonical keys hk Li Lr

/-- C1 at a concrete input: the keys 101, 102, ..., the initiator's buffers at
4096 and 12288, the responder's at 20480 and 28672, and 200 turns in which the
responder moves whenever it can. -/
theorem content_round_trip_witness :
    Function.Injective (fun n : Nat => n + 100) ∧
    200 ≤ (List.replicate 200 Fabric.End.responder).length ∧
    Fabric.RoundTrip (Fabric.run (List.replicate 200 Fabric.End.responder)
      (Fabric.exchange (fun n => n + 100) ⟨4096, 12288⟩ ⟨20480, 28672⟩)) :=
  ⟨fun _ _ h => Nat.add_right_cancel h, Nat.le_of_eq (List.length_replicate _ _).symm,
    content_round_trip (fun n => n + 100) (fun _ _ h => Nat.add_right_cancel h)
      ⟨4096, 12288⟩ ⟨20480, 28672⟩ (List.replicate 200 Fabric.End.responder)
      (Nat.le_of_eq (List.length_replicate _ _).symm)⟩

end RDMA
